import Mathlib

/-!
# Controller display: registry, scheduler, layout and profile import/export

A shallow embedding of `src/main.js`.  The module-level variables of the script
become the fields of `State`; every function of the script that reads or writes
them becomes a function on `State`.  A JavaScript exception is an explicit
outcome (`Res.threw`) that keeps the state reached when it was raised, as a
JavaScript exception keeps the mutations done before it.

Outside the model: console output, the construction of DOM nodes, and floating
point rounding (times, sizes and coordinates are rationals).  A user profile is
held by value in its registry entry; the functions that mutate "the" user
profile object of a device mutate that entry, and a lookup in the user profile
store returns a value of its own.

The classes `XBoxOne360ControllerChromium`, `XBoxOne360ControllerFirefox`,
`UnknownController` and `UserProfileManager` are not defined in `main.js`.  What
the script uses of the profile classes is a parameter (`ProfileLibrary`); the
store behind `UserProfileManager` is modelled from the specification.
-/

namespace ControllerDisplay

/-! ## JavaScript values and objects -/

/-- Primitive JavaScript values, the values an option of a user profile takes
(colours and texts are strings, check boxes are booleans). -/
inductive JsValue where
  | undefined
  | null
  | bool (b : Bool)
  | num (n : Int)
  | str (s : String)
  deriving DecidableEq, Repr

/-- Truthiness of a value, as tested by `x ? a : b`. -/
def JsValue.truthy : JsValue → Bool
  | .undefined => false
  | .null => false
  | .bool b => b
  | .num n => n != 0
  | .str s => s != ""

/-- String conversion of a value inside a template literal. -/
def JsValue.toJsString : JsValue → String
  | .undefined => "undefined"
  | .null => "null"
  | .bool true => "true"
  | .bool false => "false"
  | .num n => toString n
  | .str s => s

/-- A plain JavaScript object with string keys, in insertion order. -/
abbrev JsObject := List (String × JsValue)

/-- Property read `o[k]`: `undefined` when the key is absent. -/
def objGet : JsObject → String → JsValue
  | [], _ => .undefined
  | (a, b) :: t, k => if a = k then b else objGet t k

/-- Test for an own property `k` of `o`. -/
def objHas : JsObject → String → Bool
  | [], _ => false
  | (a, _) :: t, k => if a = k then true else objHas t k

/-- Property write `o[k] = v`: an existing key keeps its position, a new key goes
last. -/
def objSet : JsObject → String → JsValue → JsObject
  | [], k, v => [(k, v)]
  | (a, b) :: t, k, v => if a = k then (k, v) :: t else (a, b) :: objSet t k v

/-- Property removal `delete o[k]`. -/
def objDelete (o : JsObject) (k : String) : JsObject :=
  o.filter (fun p => p.1 ≠ k)

/-- The list `Object.keys(o)`. -/
def objKeys (o : JsObject) : List String :=
  o.map Prod.fst

/-- The call `Object.assign(target, source)`, returning the mutated target. -/
def objAssign (target source : JsObject) : JsObject :=
  source.foldl (fun t p => objSet t p.1 p.2) target

/-- The object that `JSON.parse` reads back from `JSON.stringify(o)`: members whose
value is `undefined` are not serialised. -/
def jsonRoundTrip (o : JsObject) : JsObject :=
  o.filter (fun p => p.2 ≠ JsValue.undefined)

/-- Characters matched by the regular expression class `\s`. -/
def isJsWhitespace (c : Char) : Bool :=
  let n := c.toNat
  n == 9 || n == 10 || n == 11 || n == 12 || n == 13 || n == 32 || n == 160 ||
  n == 5760 || (8192 ≤ n && n ≤ 8202) || n == 8232 || n == 8233 || n == 8239 ||
  n == 8287 || n == 12288 || n == 65279

/-- The call `s.replace(/\s/g, "_")`. -/
def replaceWhitespace (s : String) : String :=
  String.mk (s.data.map (fun c => if isJsWhitespace c then '_' else c))

/-! ## Data model -/

/-- One button of a device snapshot. -/
structure GamepadButton where
  value : ℚ
  pressed : Bool
  touched : Bool
  deriving DecidableEq, Repr

/-- A device snapshot (the browser's `Gamepad`). -/
structure Gamepad where
  index : Nat
  id : String
  buttons : List GamepadButton
  axes : List ℚ
  vibrationActuator : Bool
  deriving DecidableEq, Repr

/-- The three visualization profile classes the script instantiates. -/
inductive VisualizationProfile where
  | XBoxOne360ControllerChromium
  | XBoxOne360ControllerFirefox
  | UnknownController
  deriving DecidableEq, Repr

/-- Result of `getDrawSize()`. -/
structure DrawSize where
  width : ℚ
  height : ℚ
  deriving DecidableEq, Repr

/-- What the script uses of the visualization profile classes and of the canvas,
whose code is not part of `main.js`: the static support predicates, the profile
names, the draw sizes and the text measurement of the canvas. -/
structure ProfileLibrary where
  chromiumIsSupported : Gamepad → Bool
  firefoxIsSupported : Gamepad → Bool
  chromiumCanBeSupported : Gamepad → Bool
  firefoxCanBeSupported : Gamepad → Bool
  profileName : VisualizationProfile → String
  getDrawSize : VisualizationProfile → DrawSize
  measureText : String → String → ℚ

/-- A user profile: option values and a `profileName`. -/
abbrev UserProfile := JsObject

/-- Registry entry of one device (`GamepadInfo`); `userProfile` is `none` when the
property holds `undefined`. -/
structure GamepadInfo where
  gamepad : Gamepad
  visualizationProfile : VisualizationProfile
  userProfile : Option UserProfile
  deriving DecidableEq, Repr

/-- The registry `globalGamepads`, a `Map` from device index to entry, in insertion
order. -/
abbrev GamepadInfoMap := List (Nat × GamepadInfo)

/-- The call `Map.prototype.get`. -/
def mapGet : GamepadInfoMap → Nat → Option GamepadInfo
  | [], _ => none
  | (a, b) :: t, k => if a = k then some b else mapGet t k

/-- The call `Map.prototype.has`. -/
def mapHas (m : GamepadInfoMap) (k : Nat) : Bool :=
  (mapGet m k).isSome

/-- The call `Map.prototype.set`: an existing key keeps its position, a new key
goes last. -/
def mapSet : GamepadInfoMap → Nat → GamepadInfo → GamepadInfoMap
  | [], k, v => [(k, v)]
  | (a, b) :: t, k, v => if a = k then (k, v) :: t else (a, b) :: mapSet t k v

/-- The call `Map.prototype.delete`. -/
def mapDelete (m : GamepadInfoMap) (k : Nat) : GamepadInfoMap :=
  m.filter (fun p => p.1 ≠ k)

/-- The keys of the registry, in insertion order. -/
def mapKeys (m : GamepadInfoMap) : List Nat :=
  m.map Prod.fst

/-- The assignment `globalGamepads.get(k).userProfile = u`, an in-place mutation of
the entry under `k`. -/
def mapSetUserProfile (m : GamepadInfoMap) (k : Nat) (u : Option UserProfile) : GamepadInfoMap :=
  match mapGet m k with
  | some info => mapSet m k { info with userProfile := u }
  | none => m

/-! ## User profile store -/

/-- Modelled from the spec: the state of `UserProfileManager`, whose code is not in
`main.js`.  A keyed collection (visualization profile name, user profile name) to
user profile in insertion order, a "last used" pointer and a designated default
entry per visualization profile. -/
structure UserProfileStore where
  profiles : List (String × UserProfile)
  lastUsed : List (String × String)
  defaults : List (String × String)
  deriving DecidableEq, Repr

/-- Modelled from the spec: the profile name that a pointer of the store (last used,
designated default) holds for a visualization profile. -/
def lookupName : List (String × String) → String → Option String
  | [], _ => none
  | (a, b) :: t, vp => if a = vp then some b else lookupName t vp

/-- Modelled from the spec: `UserProfileManager.getUserProfiles`, all profiles
registered under the visualization profile, in insertion order. -/
def getUserProfiles (st : UserProfileStore) (vp : String) : List UserProfile :=
  (st.profiles.filter (fun p => p.1 = vp)).map Prod.snd

/-- Modelled from the spec: exact lookup of a stored profile by name. -/
def findUserProfile (st : UserProfileStore) (vp : String) (name : JsValue) : Option UserProfile :=
  (getUserProfiles st vp).find? (fun u => objGet u "profileName" = name)

/-- Modelled from the spec: `UserProfileManager.getUserProfile`, exact lookup by
name; with the name omitted (`undefined`) the designated default of the
visualization profile. -/
def getUserProfile (st : UserProfileStore) (vp : String) (name : JsValue) : Option UserProfile :=
  if name = JsValue.undefined then
    match lookupName st.defaults vp with
    | some d => findUserProfile st vp (.str d)
    | none => none
  else findUserProfile st vp name

/-- Modelled from the spec: `UserProfileManager.getUserProfileLastUsed`, the most
recently activated profile of the visualization profile, if any. -/
def getUserProfileLastUsed (st : UserProfileStore) (vp : String) : Option UserProfile :=
  match lookupName st.lastUsed vp with
  | some n => findUserProfile st vp (.str n)
  | none => none

/-- Modelled from the spec: the update half of the upsert, which replaces the stored
profile of `vp` named `name` by `u`. -/
def replaceProfile (vp : String) (name : JsValue) (u : UserProfile) :
    List (String × UserProfile) → List (String × UserProfile)
  | [] => []
  | p :: ps =>
    if p.1 = vp ∧ objGet p.2 "profileName" = name then (vp, u) :: ps
    else p :: replaceProfile vp name u ps

/-- Modelled from the spec: what the store keeps of an object handed to it.  The
fields `gamepadId` and `visualizationProfile`, which only `exportUserProfile`
adds to a document, are "ignored on import": a stored user profile holds the
profile name and the option fields. -/
def withoutExportMetadata (u : UserProfile) : UserProfile :=
  objDelete (objDelete u "gamepadId") "visualizationProfile"

/-- Modelled from the spec: `UserProfileManager.addOrUpdateUserProfiles`, an upsert
by (visualization profile name, `userProfile.profileName`) of the profile
without the export metadata, that reports whether the stored content changed. -/
def addOrUpdateUserProfiles (st : UserProfileStore) (vp : String) (u : UserProfile) :
    UserProfileStore × Bool :=
  match findUserProfile st vp (objGet u "profileName") with
  | some old =>
    ({ st with profiles := replaceProfile vp (objGet u "profileName") (withoutExportMetadata u) st.profiles },
      decide (old ≠ withoutExportMetadata u))
  | none => ({ st with profiles := st.profiles ++ [(vp, withoutExportMetadata u)] }, true)

/-! ## Program state and effects -/

/-- Calls into the browser, in the order they are made. -/
inductive Effect where
  | requestAnimationFrame (id : Nat)
  | cancelAnimationFrame (id : Option Nat)
  | clearRect (width height : Nat)
  | fillRect (fillStyle : String) (width height : Nat)
  | fillText (font : String) (text : String) (x y : ℚ)
  | debugText (timeLastFrame fps : ℚ)
  | profileDraw (vp : VisualizationProfile) (x y : ℚ) (gamepad : Gamepad) (options : JsObject)
  | playEffect (gamepadIndex : Nat)
  | download (fileName : String) (document : JsObject)
  deriving DecidableEq, Repr

/-- The module-level variables of `main.js`, the canvas size, the user profile
store, and the trace of browser calls. -/
structure State where
  globalGamepads : GamepadInfoMap
  globalAnimationFrameRequest : Option Nat
  globalEmptyFrameAlreadyRendered : Option Bool
  globalForceRedraw : Bool
  globalDebug : Bool
  globalUploadedUserProfile : Option UserProfile
  globalTimeLastFrame : Option ℚ
  globalOptionDrawAlphaMask : Bool
  globalOptionBackgroundColor : String
  fps : ℚ
  canvasWidth : Nat
  canvasHeight : Nat
  store : UserProfileStore
  nextAnimationFrameId : Nat
  effects : List Effect
  deriving DecidableEq, Repr

/-- The state when the script has been loaded: the initial values of the
module-level variables, an empty store and an empty trace. -/
def initialState (canvasWidth canvasHeight : Nat) : State where
  globalGamepads := []
  globalAnimationFrameRequest := none
  globalEmptyFrameAlreadyRendered := none
  globalForceRedraw := true
  globalDebug := false
  globalUploadedUserProfile := none
  globalTimeLastFrame := none
  globalOptionDrawAlphaMask := false
  globalOptionBackgroundColor := "#DCDCDC"
  fps := 0
  canvasWidth := canvasWidth
  canvasHeight := canvasHeight
  store := ⟨[], [], []⟩
  nextAnimationFrameId := 0
  effects := []

/-- Outcome of running a function of the script: normal return with a value, a
thrown exception, or exhaustion of the recursion budget of the list rebuild. -/
inductive Res (α : Type) where
  | ok (value : α) (s : State)
  | threw (error : String) (s : State)
  | outOfFuel
  deriving DecidableEq, Repr

/-- The state an outcome leaves behind, if any. -/
def Res.state? {α : Type} : Res α → Option State
  | .ok _ s => some s
  | .threw _ s => some s
  | .outOfFuel => none

/-- Record a browser call. -/
def emit (e : Effect) (s : State) : State :=
  { s with effects := s.effects ++ [e] }

/-- The statement `globalAnimationFrameRequest = window.requestAnimationFrame(loop)`. -/
def requestAnimationFrame (s : State) : State :=
  { s with
    globalAnimationFrameRequest := some s.nextAnimationFrameId
    nextAnimationFrameId := s.nextAnimationFrameId + 1
    effects := s.effects ++ [Effect.requestAnimationFrame s.nextAnimationFrameId] }

/-- The statement `window.cancelAnimationFrame(globalAnimationFrameRequest)`. -/
def cancelAnimationFrame (s : State) : State :=
  emit (Effect.cancelAnimationFrame s.globalAnimationFrameRequest) s

/-- The statement
`globalGamepads.set(gamepad.index, { gamepad, visualizationProfile, userProfile })`. -/
def registerGamepad (gamepad : Gamepad) (visualizationProfile : VisualizationProfile)
    (userProfile : UserProfile) (s : State) : State :=
  { s with globalGamepads :=
      mapSet s.globalGamepads gamepad.index ⟨gamepad, visualizationProfile, some userProfile⟩ }

/-- The assignment `globalGamepads.get(k).userProfile = u`, and any other in-place
mutation of the user profile object of the entry under `k`. -/
def setUserProfile (k : Nat) (u : Option UserProfile) (s : State) : State :=
  { s with globalGamepads := mapSetUserProfile s.globalGamepads k u }

/-! ## List elements of the options form

Of `addGamepadListElement` and `updateGamepadListElements` the model keeps what
acts on the program state: the check that the profile name of the device is
among the stored ones, the reset of the user profile to the default, the
exception when there is no default, and the nested rebuild. -/

/-- The test `supportedVisualizationUserProfiles.findIndex(a => a.profileName ===
userProfile.profileName) > -1` of `addGamepadListElement`. -/
def profileNameListed (st : UserProfileStore) (vp : String) (u : UserProfile) : Bool :=
  (getUserProfiles st vp).any (fun a => objGet a "profileName" = objGet u "profileName")

/-- The two loops of the reset path of `addGamepadListElement`: delete every key of
the default profile from the user profile, then copy every key of the default. -/
def resetToDefault (userProfile defaultUserProfile : UserProfile) : UserProfile :=
  let deleted := (objKeys defaultUserProfile).foldl (fun o k => objDelete o k) userProfile
  (objKeys defaultUserProfile).foldl (fun o k => objSet o k (objGet defaultUserProfile k)) deleted

/-- The function `addGamepadListElement` for the device registered under `k`, whose
entry holds the user profile object the function receives.  `rebuild` is the
call `updateGamepadListElements()` of the reset path. -/
def addGamepadListElementWith (rebuild : State → Res Unit) (lib : ProfileLibrary) (k : Nat)
    (s : State) : Res Unit :=
  match mapGet s.globalGamepads k with
  | none => .ok () s
  | some info =>
    match info.userProfile with
    | none => .threw "TypeError: userProfile is undefined" s
    | some u =>
      if profileNameListed s.store (lib.profileName info.visualizationProfile) u = true then
        .ok () s
      else
        match getUserProfile s.store (lib.profileName info.visualizationProfile) .undefined with
        | none => .threw "No default user profile was found" s
        | some d =>
          rebuild (setUserProfile k (some (resetToDefault u d)) s)

/-- Run `f` for each key in turn; an exception ends the loop. -/
def forEachKey (f : Nat → State → Res Unit) : List Nat → State → Res Unit
  | [], s => .ok () s
  | k :: ks, s =>
    match f k s with
    | .ok _ s1 => forEachKey f ks s1
    | .threw e s1 => .threw e s1
    | .outOfFuel => .outOfFuel

/-- The function `updateGamepadListElements` with a bound on the depth of the
mutual recursion with `addGamepadListElement`. -/
def updateGamepadListElementsFuel (lib : ProfileLibrary) : Nat → State → Res Unit
  | 0, _ => .outOfFuel
  | n + 1, s =>
    forEachKey (addGamepadListElementWith (updateGamepadListElementsFuel lib n) lib)
      (mapKeys s.globalGamepads) s

/-- The function `updateGamepadListElements`.  Each nested rebuild follows the
reset of one more entry, so a depth of one more than the number of entries is
never exceeded (`updateGamepadListElementsFuel_stable`). -/
def updateGamepadListElements (lib : ProfileLibrary) (s : State) : Res Unit :=
  updateGamepadListElementsFuel lib (s.globalGamepads.length + 1) s

/-- The function `addGamepadListElement` for the device registered under `k`. -/
def addGamepadListElement (lib : ProfileLibrary) (k : Nat) (s : State) : Res Unit :=
  addGamepadListElementWith (updateGamepadListElements lib) lib k s

/-! ## Device registry -/

/-- The profile selection at the head of `addGamepad`. -/
def selectVisualizationProfile (lib : ProfileLibrary) (gamepad : Gamepad) : VisualizationProfile :=
  if lib.chromiumIsSupported gamepad then .XBoxOne360ControllerChromium
  else if lib.firefoxIsSupported gamepad then .XBoxOne360ControllerFirefox
  else if lib.chromiumCanBeSupported gamepad then .XBoxOne360ControllerChromium
  else if lib.firefoxCanBeSupported gamepad then .XBoxOne360ControllerFirefox
  else .UnknownController

/-- The fallback user profile `{ profileName: "Default" }` of `addGamepad`. -/
def nameOnlyUserProfile : UserProfile :=
  [("profileName", .str "Default")]

/-- The haptic acknowledgement at the end of `addGamepad`. -/
def playRumble (gamepad : Gamepad) (s : State) : State :=
  if gamepad.vibrationActuator then emit (Effect.playEffect gamepad.index) s else s

/-- The function `addGamepad`. -/
def addGamepad (lib : ProfileLibrary) (gamepad : Gamepad) (s : State) : Res Unit :=
  let visualizationProfile := selectVisualizationProfile lib gamepad
  let vpName := lib.profileName visualizationProfile
  let userProfile : Option UserProfile :=
    match getUserProfileLastUsed s.store vpName with
    | some lastUsed => some lastUsed
    | none => getUserProfile s.store vpName .undefined
  let caught : Res UserProfile :=
    match userProfile with
    | some u => .ok u s
    | none =>
      match updateGamepadListElements lib s with
      | .ok _ s1 => .ok nameOnlyUserProfile s1
      | .threw e s1 => .threw e s1
      | .outOfFuel => .outOfFuel
  match caught with
  | .ok u s1 =>
    match addGamepadListElement lib gamepad.index
        (registerGamepad gamepad visualizationProfile u s1) with
    | .ok _ s3 => .ok () (requestAnimationFrame (playRumble gamepad s3))
    | .threw e s3 => .threw e s3
    | .outOfFuel => .outOfFuel
  | .threw e s1 => .threw e s1
  | .outOfFuel => .outOfFuel

/-- The function `removeGamepad`. -/
def removeGamepad (gamepad : Gamepad) (s : State) : State :=
  requestAnimationFrame { s with globalGamepads := mapDelete s.globalGamepads gamepad.index }

/-- The refresh branch of `updateGamepads`:
`globalGamepads.set(gamepad.index, Object.assign(globalGamepads.get(gamepad.index), { gamepad }))`. -/
def refreshGamepad (gamepad : Gamepad) (s : State) : State :=
  match mapGet s.globalGamepads gamepad.index with
  | some info =>
    { s with globalGamepads := mapSet s.globalGamepads gamepad.index { info with gamepad := gamepad } }
  | none => s

/-- The function `updateGamepads`; `poll` is the array `navigator.getGamepads()`
returns, an empty slot being `none`. -/
def updateGamepads (lib : ProfileLibrary) : List (Option Gamepad) → State → Res Unit
  | [], s => .ok () s
  | none :: rest, s => updateGamepads lib rest s
  | some gamepad :: rest, s =>
    if mapHas s.globalGamepads gamepad.index then
      updateGamepads lib rest (refreshGamepad gamepad s)
    else
      match addGamepad lib gamepad s with
      | .ok _ s1 => updateGamepads lib rest s1
      | .threw e s1 => .threw e s1
      | .outOfFuel => .outOfFuel

/-- The refresh branch of `updateGamepads` taken for every non-empty slot of a poll:
what `updateGamepads` does when it never calls `addGamepad`. -/
def refreshGamepads : List (Option Gamepad) → State → State
  | [], s => s
  | none :: rest, s => refreshGamepads rest s
  | some gamepad :: rest, s => refreshGamepads rest (refreshGamepad gamepad s)

/-- Consecutive calls of `updateGamepads`, one for each poll result. -/
def updateGamepadsEach (lib : ProfileLibrary) : List (List (Option Gamepad)) → State → Res Unit
  | [], s => .ok () s
  | poll :: polls, s =>
    match updateGamepads lib poll s with
    | .ok _ s1 => updateGamepadsEach lib polls s1
    | .threw e s1 => .threw e s1
    | .outOfFuel => .outOfFuel

/-- Consecutive polls that only refresh. -/
def refreshGamepadsEach : List (List (Option Gamepad)) → State → State
  | [], s => s
  | poll :: polls, s => refreshGamepadsEach polls (refreshGamepads poll s)

/-! ## Render scheduler -/

/-- Truthiness of `globalEmptyFrameAlreadyRendered`, which starts `undefined`. -/
def emptyFrameAlreadyRendered (s : State) : Bool :=
  decide (s.globalEmptyFrameAlreadyRendered = some true)

/-- The function `update`. -/
def update (lib : ProfileLibrary) (poll : List (Option Gamepad)) (timeDelta : ℚ) (s : State) :
    Res Bool :=
  match updateGamepads lib poll s with
  | .ok _ s1 =>
    let s2 := { s1 with fps := if timeDelta = 0 then 0 else 1000 / timeDelta }
    if s2.globalGamepads.length = 0 then
      if emptyFrameAlreadyRendered s2 = true ∧ s2.globalForceRedraw = false then .ok false s2
      else .ok true { s2 with globalEmptyFrameAlreadyRendered := some true, globalForceRedraw := false }
    else .ok true { s2 with globalEmptyFrameAlreadyRendered := some false, globalForceRedraw := false }
  | .threw e s1 => .threw e s1
  | .outOfFuel => .outOfFuel

/-! ## Layout and draw -/

/-- The constant `globalGamepadDrawPadding`. -/
def globalGamepadDrawPadding : ℚ := 20

/-- The array `gamePadPadding` of `drawGamepads` after `n` pushes. -/
def gamePadPadding : Nat → List ℚ
  | 0 => []
  | n + 1 =>
    let previous := gamePadPadding n
    previous ++ [match previous.getLast? with
                 | none => 0
                 | some last => last + globalGamepadDrawPadding]

/-- The array `gamePadSizes` of `drawGamepads`. -/
def gamePadSizes (lib : ProfileLibrary) (gamepads : GamepadInfoMap) : List DrawSize :=
  gamepads.map (fun p => lib.getDrawSize p.2.visualizationProfile)

/-- The variable `widthOfAllGamepads` of `drawGamepads`. -/
def widthOfAllGamepads (lib : ProfileLibrary) (gamepads : GamepadInfoMap) : ℚ :=
  gamepads.foldl (fun acc p => acc + (lib.getDrawSize p.2.visualizationProfile).width)
    (globalGamepadDrawPadding * ((gamepads.length : ℚ) - 1))

/-- The variable `heightOfAllGamepads` of `drawGamepads`. -/
def heightOfAllGamepads (lib : ProfileLibrary) (gamepads : GamepadInfoMap) : ℚ :=
  gamepads.foldl (fun acc p => acc + (lib.getDrawSize p.2.visualizationProfile).height)
    (globalGamepadDrawPadding * ((gamepads.length : ℚ) - 1))

/-- The object `{ ...options, ...gamepadInfo.userProfile }`. -/
def mergeOptions (options : JsObject) (userProfile : Option UserProfile) : JsObject :=
  match userProfile with
  | some u => objAssign (objAssign [] options) u
  | none => objAssign [] options

/-- The centre `(gamepadX, gamepadY)` that `drawGamepads` computes for the entry
under the key `gamepadIndex`; `none` when `gamePadSizes[gamepadIndex]` is
`undefined` and reading its size raises a `TypeError`. -/
def gamepadCentre (lib : ProfileLibrary) (canvasWidth canvasHeight : Nat)
    (gamepads : GamepadInfoMap) (gamepadIndex : Nat) : Option (ℚ × ℚ) :=
  let sizes := gamePadSizes lib gamepads
  let padding := gamePadPadding gamepads.length
  let gamepadX : ℚ := (canvasWidth : ℚ) / 2
  let gamepadY : ℚ := (canvasHeight : ℚ) / 2
  if gamepads.length ≠ 1 then
    if canvasHeight > canvasWidth then
      match padding.get? gamepadIndex, sizes.get? gamepadIndex with
      | some pad, some size =>
        some (gamepadX,
          ((canvasHeight : ℚ) - heightOfAllGamepads lib gamepads) / 2 +
            (sizes.take gamepadIndex).foldl (fun a b => a + b.height) 0 + pad + size.height / 2)
      | _, _ => none
    else
      match padding.get? gamepadIndex, sizes.get? gamepadIndex with
      | some pad, some size =>
        some (((canvasWidth : ℚ) - widthOfAllGamepads lib gamepads) / 2 +
            (sizes.take gamepadIndex).foldl (fun a b => a + b.width) 0 + pad + size.width / 2,
          gamepadY)
      | _, _ => none
  else some (gamepadX, gamepadY)

/-- The second loop of `drawGamepads` over the entries still to draw. -/
def drawGamepadsLoop (lib : ProfileLibrary) (gamepads : GamepadInfoMap) (options : JsObject) :
    GamepadInfoMap → State → Res Unit
  | [], s => .ok () s
  | (gamepadIndex, gamepadInfo) :: rest, s =>
    match gamepadCentre lib s.canvasWidth s.canvasHeight gamepads gamepadIndex with
    | none => .threw "TypeError: gamePadSizes[gamepadIndex] is undefined" s
    | some (x, y) =>
      drawGamepadsLoop lib gamepads options rest
        (emit (Effect.profileDraw gamepadInfo.visualizationProfile x y gamepadInfo.gamepad
          (mergeOptions options gamepadInfo.userProfile)) s)

/-- The function `drawGamepads`. -/
def drawGamepads (lib : ProfileLibrary) (gamepads : GamepadInfoMap) (options : JsObject)
    (s : State) : Res Unit :=
  drawGamepadsLoop lib gamepads options gamepads s

/-- The call of `visualizationProfile.draw` that the second loop of `drawGamepads`
makes for one entry of the registry: the centre computed for its key, its
snapshot and the merged options; `none` when the centre cannot be computed. -/
def profileDrawCall (lib : ProfileLibrary) (canvasWidth canvasHeight : Nat)
    (gamepads : GamepadInfoMap) (options : JsObject) (entry : Nat × GamepadInfo) : Option Effect :=
  match gamepadCentre lib canvasWidth canvasHeight gamepads entry.1 with
  | none => none
  | some (x, y) =>
    some (Effect.profileDraw entry.2.visualizationProfile x y entry.2.gamepad
      (mergeOptions options entry.2.userProfile))

/-- The fill style `draw` lays over the background. -/
def overlayFillStyle : String := "rgba(255,255,255,0.35)"

/-- The lines of the placeholder text, `textConnectGamepad.split("\n")`. -/
def textConnectGamepadParts : List String :=
  ["Connect a", "gamepad and", "press any", "button"]

/-- The variable `fontSize` of `draw`:
`Math.floor(Math.min(50, Math.min(ctx.canvas.width, ctx.canvas.height) / 10))`. -/
def placeholderFontSize (canvasWidth canvasHeight : Nat) : Int :=
  Int.floor (min (50 : ℚ) (((min canvasWidth canvasHeight : Nat) : ℚ) / 10))

/-- The loop of `draw` that writes the lines of the placeholder text, from the line
numbered `index` on. -/
def drawPlaceholderLines (lib : ProfileLibrary) (font : String) (fontSize : Int)
    (heightCenter : ℚ) : Nat → List String → State → State
  | _, [], s => s
  | index, part :: rest, s =>
    drawPlaceholderLines lib font fontSize heightCenter (index + 1) rest
      (emit (Effect.fillText font part
        ((s.canvasWidth : ℚ) / 2 - lib.measureText font part / 2)
        (heightCenter + (index : ℚ) * ((fontSize : ℚ) + 5))) s)

/-- The debug overlay at the end of `draw`. -/
def drawDebug (s : State) : Res Unit :=
  if s.globalDebug then
    match s.globalTimeLastFrame with
    | none => .threw "TypeError: globalTimeLastFrame is undefined" s
    | some t => .ok () (emit (Effect.debugText t s.fps) s)
  else .ok () s

/-- The function `draw`. -/
def draw (lib : ProfileLibrary) (s : State) : Res Unit :=
  let s1 := emit (Effect.clearRect s.canvasWidth s.canvasHeight) { s with globalForceRedraw := false }
  if s1.globalGamepads.length > 0 then
    let options : JsObject := [("drawAlphaMask", .bool s1.globalOptionDrawAlphaMask)]
    let s2 := emit (Effect.fillRect overlayFillStyle s1.canvasWidth s1.canvasHeight) s1
    match drawGamepads lib s2.globalGamepads options s2 with
    | .ok _ s3 => drawDebug s3
    | .threw e s3 => .threw e s3
    | .outOfFuel => .outOfFuel
  else
    let s2 := emit (Effect.fillRect s1.globalOptionBackgroundColor s1.canvasWidth s1.canvasHeight) s1
    let s3 := emit (Effect.fillRect overlayFillStyle s2.canvasWidth s2.canvasHeight) s2
    let fontSize := placeholderFontSize s3.canvasWidth s3.canvasHeight
    let font := toString fontSize ++ "px Helvetica"
    let heightCenter : ℚ :=
      (s3.canvasHeight : ℚ) / 2 - (((fontSize : ℚ) + 5) * (textConnectGamepadParts.length : ℚ)) / 2
    drawDebug (drawPlaceholderLines lib font fontSize heightCenter 0 textConnectGamepadParts s3)

/-- The function `loop`; `poll` is what `navigator.getGamepads()` returns during
this call. -/
def loop (lib : ProfileLibrary) (poll : List (Option Gamepad)) (time : ℚ) (s : State) : Res Unit :=
  let s1 :=
    match s.globalTimeLastFrame with
    | none => { s with globalTimeLastFrame := some time }
    | some _ => s
  let deltaTime : ℚ := time - s1.globalTimeLastFrame.getD time
  let s2 := if deltaTime = 0 then cancelAnimationFrame s1 else s1
  match update lib poll deltaTime s2 with
  | .ok redraw s3 =>
    if redraw = false ∧ s3.globalForceRedraw = false then
      .ok () (requestAnimationFrame (cancelAnimationFrame s3))
    else
      match draw lib s3 with
      | .ok _ s4 => .ok () (requestAnimationFrame { s4 with globalTimeLastFrame := some time })
      | .threw e s4 => .threw e s4
      | .outOfFuel => .outOfFuel
  | .threw e s3 => .threw e s3
  | .outOfFuel => .outOfFuel

/-- The variable `deltaTime` of `loop`: the time passed minus the last-frame time,
the latter initialised with the time passed on the very first call. -/
def loopDeltaTime (time : ℚ) (s : State) : ℚ :=
  let s1 :=
    match s.globalTimeLastFrame with
    | none => { s with globalTimeLastFrame := some time }
    | some _ => s
  time - s1.globalTimeLastFrame.getD time

/-- The state in which `loop` calls `update`: the last-frame time initialised on the
very first call, and the pending request cancelled when the delta is zero. -/
def loopUpdateState (time : ℚ) (s : State) : State :=
  let s1 :=
    match s.globalTimeLastFrame with
    | none => { s with globalTimeLastFrame := some time }
    | some _ => s
  if time - s1.globalTimeLastFrame.getD time = 0 then cancelAnimationFrame s1 else s1

/-- The function `loop` with the guard `!update(deltaTime)` in the place of
`!update(deltaTime) && globalForceRedraw === false`: it draws exactly when
`update` has returned `true`. -/
def loopUpdateGuard (lib : ProfileLibrary) (poll : List (Option Gamepad)) (time : ℚ)
    (s : State) : Res Unit :=
  let s1 :=
    match s.globalTimeLastFrame with
    | none => { s with globalTimeLastFrame := some time }
    | some _ => s
  let deltaTime : ℚ := time - s1.globalTimeLastFrame.getD time
  let s2 := if deltaTime = 0 then cancelAnimationFrame s1 else s1
  match update lib poll deltaTime s2 with
  | .ok redraw s3 =>
    if redraw = false then
      .ok () (requestAnimationFrame (cancelAnimationFrame s3))
    else
      match draw lib s3 with
      | .ok _ s4 => .ok () (requestAnimationFrame { s4 with globalTimeLastFrame := some time })
      | .threw e s4 => .threw e s4
      | .outOfFuel => .outOfFuel
  | .threw e s3 => .threw e s3
  | .outOfFuel => .outOfFuel

/-! ## Export and import of user profiles -/

/-- The function `downloadObjectAsJson`: a download of the serialised object under
the name `exportName` followed by `.json`. -/
def downloadObjectAsJson (exportObj : JsObject) (exportName : String) (s : State) : State :=
  emit (Effect.download (exportName ++ ".json") (jsonRoundTrip exportObj)) s

/-- The export name `exportUserProfile` builds from the device id, the name of the
visualization profile and the user profile. -/
def exportName (gamepadId visualizationProfile : String) (userProfile : UserProfile) : String :=
  replaceWhitespace gamepadId ++ "-" ++ replaceWhitespace visualizationProfile ++ "-" ++
    (if (objGet userProfile "profileName").truthy then (objGet userProfile "profileName").toJsString
     else "Unknown")

/-- The function `exportUserProfile`. -/
def exportUserProfile (lib : ProfileLibrary) (gamepad : Gamepad) (s : State) : Res Unit :=
  match mapGet s.globalGamepads gamepad.index with
  | none => .threw "TypeError: gamepadInfo is undefined" s
  | some gamepadInfo =>
    let gamepadId := gamepad.id
    let visualizationProfile := lib.profileName gamepadInfo.visualizationProfile
    match gamepadInfo.userProfile with
    | none => .threw "TypeError: cannot convert undefined to object" s
    | some target =>
      let userProfile := objAssign target
        [("gamepadId", .str gamepadId), ("visualizationProfile", .str visualizationProfile)]
      .ok () (downloadObjectAsJson userProfile (exportName gamepadId visualizationProfile userProfile)
        (setUserProfile gamepad.index (some userProfile) s))

/-- The function `importUserProfile`; `visualizationProfile` is the profile object
the caller passes. -/
def importUserProfile (lib : ProfileLibrary) (gamepad : Gamepad)
    (visualizationProfile : VisualizationProfile) (uploadedUserProfile : Option UserProfile)
    (s : State) : Res Unit :=
  match uploadedUserProfile with
  | none => .ok () s
  | some uploaded =>
    let vpName := lib.profileName visualizationProfile
    let s1 := { s with store := (addOrUpdateUserProfiles s.store vpName uploaded).1 }
    if mapHas s1.globalGamepads gamepad.index then
      let named := getUserProfile s1.store vpName (objGet uploaded "profileName")
      let s2 := setUserProfile gamepad.index named s1
      let s3 :=
        match named with
        | some _ => s2
        | none => setUserProfile gamepad.index (getUserProfile s2.store vpName .undefined) s2
      updateGamepadListElements lib { s3 with globalForceRedraw := true }
    else .threw "TypeError: globalGamepads.get(gamepad.index) is undefined" s1

/-- What the `FileReader` delivers for the file selected in the file input of a list
element, as far as the `change` handler tells the cases apart: a read error, a
text that `JSON.parse` rejects, or a text that `JSON.parse` reads as an object.
Texts that parse to a value that is not an object are outside the model. -/
inductive FileContent where
  | unreadable
  | notJson
  | jsonObject (parsed : JsObject)
  deriving DecidableEq, Repr

/-- The `change` handler of the file input of `addGamepadListElement`, together with
the `onerror` or `onload` callback of its `FileReader`: the state once the file
has been read. -/
def onImportFileChange (content : FileContent) (s : State) : State :=
  let cleared := { s with globalUploadedUserProfile := none }
  match content with
  | .unreadable => { cleared with globalUploadedUserProfile := none }
  | .notJson => { cleared with globalUploadedUserProfile := none }
  | .jsonObject parsed => { cleared with globalUploadedUserProfile := some parsed }

/-- The `click` handler of the import button of `addGamepadListElement`:
`importUserProfile(gamepad, globalGamepads.get(gamepad.index).visualizationProfile,
globalUploadedUserProfile)`. -/
def onImportClick (lib : ProfileLibrary) (gamepad : Gamepad) (s : State) : Res Unit :=
  match mapGet s.globalGamepads gamepad.index with
  | none => .threw "TypeError: globalGamepads.get(gamepad.index) is undefined" s
  | some gamepadInfo =>
    importUserProfile lib gamepad gamepadInfo.visualizationProfile s.globalUploadedUserProfile s

/-! ## User profile objects held by reference -/

/-- An entry of `globalGamepads` as JavaScript holds it: `userProfile` is a reference,
here the address of the object among the objects of a `SharedRegistry`, and
`none` for `undefined`. -/
structure GamepadInfoRef where
  gamepad : Gamepad
  visualizationProfile : VisualizationProfile
  userProfile : Option Nat
  deriving DecidableEq, Repr

/-- The registry together with the user profile objects that its entries refer to,
and the trace of effects.  Entries with the same address hold the same object;
which entries do is decided by what `UserProfileManager` returns, so every
sharing is admitted. -/
structure SharedRegistry where
  entries : List (Nat × GamepadInfoRef)
  objects : List (Nat × UserProfile)
  effects : List Effect
  deriving DecidableEq, Repr

/-- The lookup `globalGamepads.get(k)` in a registry that holds references. -/
def entryAt : List (Nat × GamepadInfoRef) → Nat → Option GamepadInfoRef
  | [], _ => none
  | (a, b) :: t, k => if a = k then some b else entryAt t k

/-- The object at an address. -/
def objectAt : List (Nat × UserProfile) → Nat → Option UserProfile
  | [], _ => none
  | (a, b) :: t, k => if a = k then some b else objectAt t k

/-- In-place mutation of the object at an address: afterwards the object there is
`v`. -/
def objectPut : List (Nat × UserProfile) → Nat → UserProfile → List (Nat × UserProfile)
  | [], k, v => [(k, v)]
  | (a, b) :: t, k, v => if a = k then (k, v) :: t else (a, b) :: objectPut t k v

/-- What an entry that holds a reference reads: the snapshot, the visualization
profile and the content of the referenced object. -/
def resolveEntry (objects : List (Nat × UserProfile)) (e : GamepadInfoRef) : GamepadInfo :=
  ⟨e.gamepad, e.visualizationProfile, e.userProfile.bind (objectAt objects)⟩

/-- The registry by value that a registry of references reads as. -/
def resolveRegistry (r : SharedRegistry) : GamepadInfoMap :=
  r.entries.map (fun p => (p.1, resolveEntry r.objects p.2))

/-- Outcome of a function on a `SharedRegistry`. -/
inductive SharedRes where
  | ok (r : SharedRegistry)
  | threw (error : String) (r : SharedRegistry)
  deriving DecidableEq, Repr

/-- The function `exportUserProfile` on a registry that holds the user profiles by
reference: `Object.assign(gamepadInfo.userProfile, { gamepadId, visualizationProfile })`
mutates the referenced object where it is. -/
def exportUserProfileShared (lib : ProfileLibrary) (gamepad : Gamepad) (r : SharedRegistry) :
    SharedRes :=
  match entryAt r.entries gamepad.index with
  | none => .threw "TypeError: gamepadInfo is undefined" r
  | some gamepadInfo =>
    let gamepadId := gamepad.id
    let visualizationProfile := lib.profileName gamepadInfo.visualizationProfile
    match gamepadInfo.userProfile with
    | none => .threw "TypeError: cannot convert undefined to object" r
    | some address =>
      match objectAt r.objects address with
      | none => .threw "TypeError: cannot convert undefined to object" r
      | some target =>
        let userProfile := objAssign target
          [("gamepadId", .str gamepadId), ("visualizationProfile", .str visualizationProfile)]
        .ok { r with
          objects := objectPut r.objects address userProfile
          effects := r.effects ++ [Effect.download
            (exportName gamepadId visualizationProfile userProfile ++ ".json")
            (jsonRoundTrip userProfile)] }

/-! ## Auxiliary notions for the proofs -/

/-- The part of the registry that the rebuild of the list elements never changes:
the keys, the snapshots and the visualization profiles. -/
def registryShape (m : GamepadInfoMap) : List (Nat × Gamepad × VisualizationProfile) :=
  m.map (fun p => (p.1, p.2.gamepad, p.2.visualizationProfile))

/-- An entry that `addGamepadListElement` leaves alone: it has a user profile whose
name is among the stored ones. -/
def entryListed (lib : ProfileLibrary) (st : UserProfileStore) (info : GamepadInfo) : Bool :=
  match info.userProfile with
  | some u => profileNameListed st (lib.profileName info.visualizationProfile) u
  | none => false

/-- The entry found under the key `k`, if any, is left alone by the rebuild. -/
def keyListed (lib : ProfileLibrary) (s : State) (k : Nat) : Bool :=
  match mapGet s.globalGamepads k with
  | some info => entryListed lib s.store info
  | none => true

/-- Number of keys of the registry whose entry the rebuild would reset or reject. -/
def pendingResets (lib : ProfileLibrary) (s : State) : Nat :=
  ((mapKeys s.globalGamepads).filter (fun k => keyListed lib s k = false)).length

/-- The state `t` differs from `s` at most in user profiles of registry entries that
were not listed in `s`. -/
def Rebuilt (lib : ProfileLibrary) (s t : State) : Prop :=
  t = { s with globalGamepads := t.globalGamepads } ∧
  registryShape t.globalGamepads = registryShape s.globalGamepads ∧
  ∀ k info, mapGet s.globalGamepads k = some info → entryListed lib s.store info = true →
    mapGet t.globalGamepads k = some info

/-- The snapshot in the last non-empty slot of index `k` of a poll result, if any. -/
def lastPolled (poll : List (Option Gamepad)) (k : Nat) : Option Gamepad :=
  ((poll.filterMap id).filter (fun g => g.index = k)).getLast?

/-- The state `t` has the store of `s`, and every entry of the registry of `s` is in
the registry of `t` under its key, with its visualization profile and, when its
user profile is listed in the store, with its user profile. -/
def EntriesKept (lib : ProfileLibrary) (s t : State) : Prop :=
  t.store = s.store ∧
  ∀ k info, mapGet s.globalGamepads k = some info →
    ∃ info2, mapGet t.globalGamepads k = some info2 ∧
      info2.visualizationProfile = info.visualizationProfile ∧
      (entryListed lib s.store info = true → info2.userProfile = info.userProfile)

/-! ## Concrete inputs used by the examples -/

/-- A profile library whose support predicates reject every device, so that every
device gets the fallback profile. -/
def fallbackLibrary : ProfileLibrary where
  chromiumIsSupported := fun _ => false
  firefoxIsSupported := fun _ => false
  chromiumCanBeSupported := fun _ => false
  firefoxCanBeSupported := fun _ => false
  profileName := fun vp =>
    match vp with
    | .XBoxOne360ControllerChromium => "XBox Controller Chromium"
    | .XBoxOne360ControllerFirefox => "XBox Controller Firefox"
    | .UnknownController => "Unknown Controller"
  getDrawSize := fun vp =>
    match vp with
    | .XBoxOne360ControllerChromium => ⟨100, 150⟩
    | .XBoxOne360ControllerFirefox => ⟨120, 150⟩
    | .UnknownController => ⟨90, 150⟩
  measureText := fun _ text => (text.length : ℚ) * 10

/-- A device snapshot without buttons and axes. -/
def plainGamepad (index : Nat) (id : String) : Gamepad :=
  ⟨index, id, [], [], false⟩

/-- A store with one profile, the default of the fallback visualization profile. -/
def defaultOnlyStore : UserProfileStore where
  profiles := [("Unknown Controller", [("profileName", .str "Default"), ("color", .str "#ff0000")])]
  lastUsed := []
  defaults := [("Unknown Controller", "Default")]

/-- A store with one profile that is also the last used one, and no default. -/
def lastUsedOnlyStore : UserProfileStore where
  profiles := [("Unknown Controller", [("profileName", .str "Mine"), ("color", .str "#00ff00")])]
  lastUsed := [("Unknown Controller", "Mine")]
  defaults := []

/-- The initial state on an 800 by 200 canvas with `defaultOnlyStore` loaded. -/
def readyState : State :=
  { initialState 800 200 with store := defaultOnlyStore }

/-- A state with an empty store in which the device 0 is registered with the
name-only user profile. -/
def unlistedState : State :=
  registerGamepad (plainGamepad 0 "Pad 0") .UnknownController nameOnlyUserProfile
    (initialState 800 200)

/-- The state `readyState` with the device 0 registered under the default profile. -/
def connectedState : State :=
  registerGamepad (plainGamepad 0 "Pad 0") .UnknownController
    [("profileName", .str "Default"), ("color", .str "#ff0000")] readyState

/-- The state `readyState` with the device 0 registered under a user profile that got
the name `"No name"` from the change handler of an option input. -/
def noNameState : State :=
  registerGamepad (plainGamepad 0 "Pad 0") .UnknownController
    [("profileName", .str "No name"), ("color", .str "#0000ff")] readyState

/-- The state `readyState` with the devices 1 and 2 registered, the index 0 being
free. -/
def twoPadsState : State :=
  registerGamepad (plainGamepad 2 "Pad 2") .XBoxOne360ControllerFirefox
    [("profileName", .str "Default")]
    (registerGamepad (plainGamepad 1 "Pad 1") .XBoxOne360ControllerChromium
      [("profileName", .str "Default")] readyState)

/-- The state `connectedState` after a frame has been drawn: no redraw is forced. -/
def drawnConnectedState : State :=
  { connectedState with globalForceRedraw := false }

/-- The state `readyState` with the device 0 registered under a user profile whose
name is not stored and that has a key the default profile lacks. -/
def staleProfileState : State :=
  registerGamepad (plainGamepad 0 "Pad 0") .UnknownController
    [("profileName", .str "Old"), ("stale", .str "x")] readyState

/-- The state `readyState` with the devices 0, 1 and 2 registered in this order, of
draw sizes (100,150), (120,150) and (90,150). -/
def threePadsState : State :=
  registerGamepad (plainGamepad 2 "Pad 2") .UnknownController [("profileName", .str "Default")]
    (registerGamepad (plainGamepad 1 "Pad 1") .XBoxOne360ControllerFirefox
      [("profileName", .str "Default")]
      (registerGamepad (plainGamepad 0 "Pad 0") .XBoxOne360ControllerChromium
        [("profileName", .str "Default")] readyState))

/-- A state without devices in which the empty frame has been rendered at time 0 and
no redraw is forced. -/
def idleState : State :=
  { initialState 800 200 with
    globalEmptyFrameAlreadyRendered := some true
    globalForceRedraw := false
    globalTimeLastFrame := some 0 }

/-- Two devices of the fallback visualization profile that hold the same user profile
object, at the address 0. -/
def sharedProfileRegistry : SharedRegistry where
  entries := [(0, ⟨plainGamepad 0 "Pad 0", .UnknownController, some 0⟩),
    (1, ⟨plainGamepad 1 "Pad 1", .UnknownController, some 0⟩)]
  objects := [(0, [("profileName", .str "Default"), ("color", .str "#ff0000")])]
  effects := []

/-! ## The registry as a map -/

theorem mapGet_isSome_iff_mem_keys (m : GamepadInfoMap) (k : Nat) :
    (mapGet m k).isSome = true ↔ k ∈ mapKeys m := by
  induction m with
  | nil => simp [mapGet, mapKeys]
  | cons p t ih =>
    obtain ⟨a, b⟩ := p
    by_cases h : a = k
    · simp [mapGet, mapKeys, h]
    · have h2 : ¬ k = a := fun e => h e.symm
      simpa [mapGet, mapKeys, h, h2] using ih

theorem mapHas_iff_mem_keys (m : GamepadInfoMap) (k : Nat) :
    mapHas m k = true ↔ k ∈ mapKeys m :=
  mapGet_isSome_iff_mem_keys m k

theorem mapGet_eq_none_iff (m : GamepadInfoMap) (k : Nat) :
    mapGet m k = none ↔ k ∉ mapKeys m := by
  rw [← mapGet_isSome_iff_mem_keys]
  cases mapGet m k <;> simp

theorem mapGet_mapSet_self (m : GamepadInfoMap) (k : Nat) (v : GamepadInfo) :
    mapGet (mapSet m k v) k = some v := by
  induction m with
  | nil => simp [mapSet, mapGet]
  | cons p t ih =>
    obtain ⟨a, b⟩ := p
    by_cases h : a = k
    · simp [mapSet, mapGet, h]
    · simpa [mapSet, mapGet, h] using ih

theorem mapGet_mapSet_ne (m : GamepadInfoMap) (k j : Nat) (v : GamepadInfo) (hne : j ≠ k) :
    mapGet (mapSet m k v) j = mapGet m j := by
  induction m with
  | nil => simp [mapSet, mapGet, Ne.symm hne]
  | cons p t ih =>
    obtain ⟨a, b⟩ := p
    by_cases h : a = k
    · subst h
      simp [mapSet, mapGet, Ne.symm hne]
    · by_cases h2 : a = j
      · subst h2
        simp [mapSet, mapGet, hne]
      · simpa [mapSet, mapGet, h, h2] using ih

theorem mapKeys_mapSet_of_mem (m : GamepadInfoMap) (k : Nat) (v : GamepadInfo)
    (hk : k ∈ mapKeys m) : mapKeys (mapSet m k v) = mapKeys m := by
  induction m with
  | nil => simp [mapKeys] at hk
  | cons p t ih =>
    obtain ⟨a, b⟩ := p
    by_cases h : a = k
    · simp [mapSet, mapKeys, h]
    · have hk2 : k ∈ mapKeys t := by
        simp only [mapKeys, List.map_cons, List.mem_cons] at hk
        rcases hk with e | e
        · exact absurd e.symm h
        · exact e
      have := ih hk2
      simp only [mapKeys] at this
      simp [mapSet, mapKeys, h, this]

theorem mapKeys_mapSet_of_not_mem (m : GamepadInfoMap) (k : Nat) (v : GamepadInfo)
    (hk : k ∉ mapKeys m) : mapKeys (mapSet m k v) = mapKeys m ++ [k] := by
  induction m with
  | nil => simp [mapSet, mapKeys]
  | cons p t ih =>
    obtain ⟨a, b⟩ := p
    simp only [mapKeys, List.map_cons, List.mem_cons, not_or] at hk
    have h : ¬ a = k := fun e => hk.1 e.symm
    have := ih hk.2
    simp only [mapKeys] at this
    simp [mapSet, mapKeys, h, this]

theorem mapSet_of_not_mem (m : GamepadInfoMap) (k : Nat) (v : GamepadInfo)
    (hk : k ∉ mapKeys m) : mapSet m k v = m ++ [(k, v)] := by
  induction m with
  | nil => simp [mapSet]
  | cons p t ih =>
    obtain ⟨a, b⟩ := p
    simp only [mapKeys, List.map_cons, List.mem_cons, not_or] at hk
    have h : ¬ a = k := fun e => hk.1 e.symm
    simp [mapSet, h, ih hk.2]

theorem mapKeys_mapDelete (m : GamepadInfoMap) (k : Nat) :
    mapKeys (mapDelete m k) = (mapKeys m).filter (fun j => j ≠ k) := by
  simp only [mapDelete, mapKeys, List.filter_map]
  rfl

theorem mapDelete_append_of_not_mem (m : GamepadInfoMap) (k : Nat) (v : GamepadInfo)
    (hk : k ∉ mapKeys m) : mapDelete (m ++ [(k, v)]) k = m := by
  have h1 : m.filter (fun p => decide (p.1 ≠ k)) = m := by
    rw [List.filter_eq_self]
    intro p hp
    have : p.1 ≠ k := fun e => hk (by rw [← e]; exact List.mem_map_of_mem Prod.fst hp)
    simpa using this
  simp only [mapDelete, List.filter_append, h1]
  simp

/-! ## Objects and the user profile store -/

theorem objGet_objSet_self (o : JsObject) (k : String) (v : JsValue) :
    objGet (objSet o k v) k = v := by
  induction o with
  | nil => simp [objSet, objGet]
  | cons p t ih =>
    obtain ⟨a, b⟩ := p
    by_cases h : a = k
    · simp [objSet, objGet, h]
    · simpa [objSet, objGet, h] using ih

theorem objGet_objSet_ne (o : JsObject) (k j : String) (v : JsValue) (hne : j ≠ k) :
    objGet (objSet o k v) j = objGet o j := by
  induction o with
  | nil => simp [objSet, objGet, Ne.symm hne]
  | cons p t ih =>
    obtain ⟨a, b⟩ := p
    by_cases h : a = k
    · subst h
      simp [objSet, objGet, Ne.symm hne]
    · by_cases h2 : a = j
      · subst h2
        simp [objSet, objGet, hne]
      · simpa [objSet, objGet, h, h2] using ih

theorem objGet_of_not_mem_keys (o : JsObject) (k : String) (h : k ∉ objKeys o) :
    objGet o k = JsValue.undefined := by
  induction o with
  | nil => simp [objGet]
  | cons p t ih =>
    obtain ⟨a, b⟩ := p
    simp only [objKeys, List.map_cons, List.mem_cons, not_or] at h
    have h1 : ¬ a = k := fun e => h.1 e.symm
    simpa [objGet, h1] using ih h.2

theorem objGet_foldl_set_of_eq (d : JsObject) (ks : List String) (o : JsObject) (k : String)
    (h : objGet o k = objGet d k) :
    objGet (ks.foldl (fun o k => objSet o k (objGet d k)) o) k = objGet d k := by
  induction ks generalizing o with
  | nil => simpa using h
  | cons j js ih =>
    simp only [List.foldl_cons]
    apply ih
    by_cases hj : k = j
    · subst hj; exact objGet_objSet_self _ _ _
    · rw [objGet_objSet_ne _ _ _ _ hj]; exact h

theorem objGet_foldl_set_of_mem (d : JsObject) (ks : List String) (o : JsObject) (k : String)
    (h : k ∈ ks) :
    objGet (ks.foldl (fun o k => objSet o k (objGet d k)) o) k = objGet d k := by
  induction ks generalizing o with
  | nil => simp at h
  | cons j js ih =>
    simp only [List.foldl_cons]
    by_cases hj : k = j
    · subst hj
      exact objGet_foldl_set_of_eq d js _ k (objGet_objSet_self _ _ _)
    · simp only [List.mem_cons, hj, false_or] at h
      exact ih _ h

theorem objGet_resetToDefault (u d : UserProfile) (k : String) (hk : k ∈ objKeys d) :
    objGet (resetToDefault u d) k = objGet d k := by
  simp only [resetToDefault]
  exact objGet_foldl_set_of_mem d (objKeys d) _ k hk

theorem findUserProfile_some (st : UserProfileStore) (vp : String) (name : JsValue)
    (u : UserProfile) (h : findUserProfile st vp name = some u) :
    u ∈ getUserProfiles st vp ∧ objGet u "profileName" = name := by
  simp only [findUserProfile] at h
  refine ⟨List.mem_of_find?_eq_some h, ?_⟩
  have := List.find?_some h
  simpa using this

theorem profileNameListed_of_mem (st : UserProfileStore) (vp : String) (u a : UserProfile)
    (ha : a ∈ getUserProfiles st vp) (hn : objGet a "profileName" = objGet u "profileName") :
    profileNameListed st vp u = true := by
  simp only [profileNameListed, List.any_eq_true, decide_eq_true_eq]
  exact ⟨a, ha, hn⟩

theorem profileNameListed_of_find (st : UserProfileStore) (vp : String) (name : JsValue)
    (u : UserProfile) (h : findUserProfile st vp name = some u) :
    profileNameListed st vp u = true := by
  obtain ⟨h1, _⟩ := findUserProfile_some st vp name u h
  exact profileNameListed_of_mem st vp u u h1 rfl

theorem getUserProfile_default_some (st : UserProfileStore) (vp : String) (d : UserProfile)
    (h : getUserProfile st vp .undefined = some d) :
    ∃ n, findUserProfile st vp (.str n) = some d := by
  simp only [getUserProfile, if_true] at h
  split at h
  · exact ⟨_, h⟩
  · exact absurd h (by simp)

theorem getUserProfileLastUsed_some (st : UserProfileStore) (vp : String) (d : UserProfile)
    (h : getUserProfileLastUsed st vp = some d) :
    ∃ n, findUserProfile st vp (.str n) = some d := by
  simp only [getUserProfileLastUsed] at h
  split at h
  · exact ⟨_, h⟩
  · exact absurd h (by simp)

theorem profileNameListed_default (st : UserProfileStore) (vp : String) (d : UserProfile)
    (h : getUserProfile st vp .undefined = some d) : profileNameListed st vp d = true := by
  obtain ⟨n, hn⟩ := getUserProfile_default_some st vp d h
  exact profileNameListed_of_find st vp _ d hn

theorem profileNameListed_lastUsed (st : UserProfileStore) (vp : String) (d : UserProfile)
    (h : getUserProfileLastUsed st vp = some d) : profileNameListed st vp d = true := by
  obtain ⟨n, hn⟩ := getUserProfileLastUsed_some st vp d h
  exact profileNameListed_of_find st vp _ d hn

theorem profileNameListed_resetToDefault (st : UserProfileStore) (vp : String)
    (u d : UserProfile) (h : getUserProfile st vp .undefined = some d) :
    profileNameListed st vp (resetToDefault u d) = true := by
  obtain ⟨n, hn⟩ := getUserProfile_default_some st vp d h
  obtain ⟨h1, h2⟩ := findUserProfile_some st vp _ d hn
  apply profileNameListed_of_mem st vp _ d h1
  have hk : "profileName" ∈ objKeys d := by
    by_contra hc
    rw [objGet_of_not_mem_keys d _ hc] at h2
    exact absurd h2 (by simp)
  exact (objGet_resetToDefault u d _ hk).symm

/-! ## What the rebuild of the list elements leaves unchanged -/

theorem mapKeys_eq_of_shape (m m2 : GamepadInfoMap) (h : registryShape m2 = registryShape m) :
    mapKeys m2 = mapKeys m := by
  have := congrArg (List.map (fun q : Nat × Gamepad × VisualizationProfile => q.1)) h
  simpa [registryShape, mapKeys, List.map_map, Function.comp_def] using this

theorem length_eq_of_shape (m m2 : GamepadInfoMap) (h : registryShape m2 = registryShape m) :
    m2.length = m.length := by
  have := congrArg List.length h
  simpa [registryShape] using this

theorem registryShape_mapSet_same (m : GamepadInfoMap) (k : Nat) (info v : GamepadInfo)
    (hg : mapGet m k = some info) (h1 : v.gamepad = info.gamepad)
    (h2 : v.visualizationProfile = info.visualizationProfile) :
    registryShape (mapSet m k v) = registryShape m := by
  induction m with
  | nil => simp [mapGet] at hg
  | cons p t ih =>
    obtain ⟨a, b⟩ := p
    by_cases h : a = k
    · subst h
      simp only [mapGet, if_true, Option.some.injEq] at hg
      subst hg
      simp [mapSet, registryShape, h1, h2]
    · simp only [mapGet, h, if_false] at hg
      have := ih hg
      simp only [registryShape] at this
      simp [mapSet, registryShape, h, this]

theorem registryShape_mapSetUserProfile (m : GamepadInfoMap) (k : Nat) (u : Option UserProfile) :
    registryShape (mapSetUserProfile m k u) = registryShape m := by
  simp only [mapSetUserProfile]
  split
  · next info hg => exact registryShape_mapSet_same m k info _ hg rfl rfl
  · rfl

theorem mapGet_mapSetUserProfile_self (m : GamepadInfoMap) (k : Nat) (u : Option UserProfile)
    (info : GamepadInfo) (hg : mapGet m k = some info) :
    mapGet (mapSetUserProfile m k u) k = some { info with userProfile := u } := by
  simp only [mapSetUserProfile, hg]
  exact mapGet_mapSet_self _ _ _

theorem mapGet_mapSetUserProfile_ne (m : GamepadInfoMap) (k j : Nat) (u : Option UserProfile)
    (hne : j ≠ k) : mapGet (mapSetUserProfile m k u) j = mapGet m j := by
  simp only [mapSetUserProfile]
  split
  · exact mapGet_mapSet_ne _ _ _ _ hne
  · rfl

theorem rebuilt_refl (lib : ProfileLibrary) (s : State) : Rebuilt lib s s :=
  ⟨rfl, rfl, fun _ _ h _ => h⟩

theorem rebuilt_store_eq {lib : ProfileLibrary} {s t : State} (h : Rebuilt lib s t) :
    t.store = s.store := by
  rw [h.1]

theorem rebuilt_trans {lib : ProfileLibrary} {s t r : State} (h1 : Rebuilt lib s t)
    (h2 : Rebuilt lib t r) : Rebuilt lib s r := by
  refine ⟨?_, h2.2.1.trans h1.2.1, ?_⟩
  · rw [h2.1]
    conv_lhs => rw [h1.1]
  · intro k info hg hl
    apply h2.2.2 k info (h1.2.2 k info hg hl)
    rw [rebuilt_store_eq h1]; exact hl

theorem rebuilt_of_reset (lib : ProfileLibrary) (s : State) (k : Nat) (info : GamepadInfo)
    (u : Option UserProfile) (hg : mapGet s.globalGamepads k = some info)
    (hl : entryListed lib s.store info = false) :
    Rebuilt lib s (setUserProfile k u s) := by
  refine ⟨rfl, registryShape_mapSetUserProfile _ _ _, ?_⟩
  intro j jinfo hj hjl
  have hne : j ≠ k := by
    rintro rfl
    rw [hg] at hj
    cases hj
    rw [hl] at hjl
    exact absurd hjl (by simp)
  show mapGet (mapSetUserProfile s.globalGamepads k u) j = some jinfo
  rw [mapGet_mapSetUserProfile_ne _ _ _ _ hne]
  exact hj

theorem forEachKey_rebuilt (lib : ProfileLibrary) (f : Nat → State → Res Unit)
    (hf : ∀ k s t, (f k s).state? = some t → Rebuilt lib s t) :
    ∀ ks s t, (forEachKey f ks s).state? = some t → Rebuilt lib s t := by
  intro ks
  induction ks with
  | nil =>
    intro s t h
    simp only [forEachKey, Res.state?, Option.some.injEq] at h
    subst h
    exact rebuilt_refl lib s
  | cons k ks ih =>
    intro s t h
    simp only [forEachKey] at h
    cases hk : f k s with
    | ok v s1 =>
      rw [hk] at h
      have h1 := hf k s s1 (by rw [hk]; rfl)
      exact rebuilt_trans h1 (ih s1 t h)
    | threw e s1 =>
      rw [hk] at h
      simp only [Res.state?, Option.some.injEq] at h
      subst h
      exact hf k s s1 (by rw [hk]; rfl)
    | outOfFuel =>
      rw [hk] at h
      simp [Res.state?] at h

theorem addGamepadListElementWith_rebuilt (lib : ProfileLibrary) (rebuild : State → Res Unit)
    (hr : ∀ s t, (rebuild s).state? = some t → Rebuilt lib s t) :
    ∀ k s t, (addGamepadListElementWith rebuild lib k s).state? = some t → Rebuilt lib s t := by
  intro k s t h
  simp only [addGamepadListElementWith] at h
  split at h
  · simp only [Res.state?, Option.some.injEq] at h; subst h; exact rebuilt_refl lib s
  · next info hg =>
    split at h
    · simp only [Res.state?, Option.some.injEq] at h; subst h; exact rebuilt_refl lib s
    · next u hu =>
      split at h
      · simp only [Res.state?, Option.some.injEq] at h; subst h; exact rebuilt_refl lib s
      · next hl =>
        split at h
        · simp only [Res.state?, Option.some.injEq] at h; subst h; exact rebuilt_refl lib s
        · next d hd =>
          have hl2 : entryListed lib s.store info = false := by
            simp only [entryListed, hu]
            simpa using hl
          exact rebuilt_trans (rebuilt_of_reset lib s k info _ hg hl2) (hr _ t h)

theorem updateGamepadListElementsFuel_rebuilt (lib : ProfileLibrary) :
    ∀ n s t, (updateGamepadListElementsFuel lib n s).state? = some t → Rebuilt lib s t := by
  intro n
  induction n with
  | zero => intro s t h; simp [updateGamepadListElementsFuel, Res.state?] at h
  | succ n ih =>
    intro s t h
    simp only [updateGamepadListElementsFuel] at h
    exact forEachKey_rebuilt lib _ (addGamepadListElementWith_rebuilt lib _ ih) _ s t h

theorem updateGamepadListElements_rebuilt (lib : ProfileLibrary) (s t : State)
    (h : (updateGamepadListElements lib s).state? = some t) : Rebuilt lib s t :=
  updateGamepadListElementsFuel_rebuilt lib _ s t h

theorem addGamepadListElement_rebuilt (lib : ProfileLibrary) (k : Nat) (s t : State)
    (h : (addGamepadListElement lib k s).state? = some t) : Rebuilt lib s t :=
  addGamepadListElementWith_rebuilt lib _ (updateGamepadListElements_rebuilt lib) k s t h

/-! ## The recursion budget of the rebuild -/

theorem length_filter_le_of_imp {α : Type} (l : List α) (p q : α → Bool)
    (h : ∀ x ∈ l, q x = true → p x = true) : (l.filter q).length ≤ (l.filter p).length := by
  induction l with
  | nil => simp
  | cons a t ih =>
    have iht := ih (fun x hx => h x (List.mem_cons_of_mem a hx))
    have ha := h a (List.mem_cons_self a t)
    by_cases hq : q a = true
    · simp only [List.filter_cons, hq, ha hq, if_true, List.length_cons]
      omega
    · by_cases hp : p a = true
      · simp only [List.filter_cons, hq, hp, if_true, List.length_cons]
        simp only [Bool.false_eq_true, if_false]
        omega
      · simp only [List.filter_cons, hq, hp]
        simpa using iht

theorem length_filter_lt_of_imp {α : Type} (l : List α) (p q : α → Bool)
    (h : ∀ x ∈ l, q x = true → p x = true) (a : α) (ha : a ∈ l) (hp : p a = true)
    (hq : q a = false) : (l.filter q).length < (l.filter p).length := by
  induction l with
  | nil => simp at ha
  | cons b t ih =>
    have hle := length_filter_le_of_imp t p q (fun x hx => h x (List.mem_cons_of_mem b hx))
    rcases List.mem_cons.1 ha with e | e
    · subst e
      simp only [List.filter_cons, hq, hp, if_true, List.length_cons]
      simp only [Bool.false_eq_true, if_false]
      omega
    · have iht := ih (fun x hx => h x (List.mem_cons_of_mem b hx)) e
      have hb := h b (List.mem_cons_self b t)
      by_cases hqb : q b = true
      · simp only [List.filter_cons, hqb, hb hqb, if_true, List.length_cons]
        omega
      · by_cases hpb : p b = true
        · simp only [List.filter_cons, hqb, hpb, if_true, List.length_cons]
          simp only [Bool.false_eq_true, if_false]
          omega
        · simp only [List.filter_cons, hqb, hpb]
          simpa using iht

theorem keyListed_of_rebuilt {lib : ProfileLibrary} {s t : State} (h : Rebuilt lib s t) (k : Nat)
    (hk : keyListed lib s k = true) : keyListed lib t k = true := by
  simp only [keyListed] at hk ⊢
  cases hg : mapGet s.globalGamepads k with
  | none =>
    have h1 : k ∉ mapKeys t.globalGamepads := by
      rw [mapKeys_eq_of_shape _ _ h.2.1]
      exact (mapGet_eq_none_iff _ _).1 hg
    rw [(mapGet_eq_none_iff _ _).2 h1]
  | some info =>
    rw [hg] at hk
    rw [h.2.2 k info hg hk, rebuilt_store_eq h]
    exact hk

theorem pendingResets_le_of_rebuilt {lib : ProfileLibrary} {s t : State} (h : Rebuilt lib s t) :
    pendingResets lib t ≤ pendingResets lib s := by
  simp only [pendingResets, mapKeys_eq_of_shape _ _ h.2.1]
  apply length_filter_le_of_imp
  intro k _ hk
  simp only [decide_eq_true_eq] at hk ⊢
  by_contra hc
  have := keyListed_of_rebuilt h k (by simpa using hc)
  rw [this] at hk
  exact absurd hk (by simp)

theorem pendingResets_lt_of_rebuilt {lib : ProfileLibrary} {s t : State} (h : Rebuilt lib s t)
    (k : Nat) (hk : k ∈ mapKeys s.globalGamepads) (h1 : keyListed lib s k = false)
    (h2 : keyListed lib t k = true) : pendingResets lib t < pendingResets lib s := by
  simp only [pendingResets, mapKeys_eq_of_shape _ _ h.2.1]
  apply length_filter_lt_of_imp _ _ _ _ k hk
  · simpa using h1
  · simpa using h2
  · intro j _ hj
    simp only [decide_eq_true_eq] at hj ⊢
    by_contra hc
    have := keyListed_of_rebuilt h j (by simpa using hc)
    rw [this] at hj
    exact absurd hj (by simp)

theorem pendingResets_eq_zero_iff (lib : ProfileLibrary) (s : State) :
    pendingResets lib s = 0 ↔ ∀ k ∈ mapKeys s.globalGamepads, keyListed lib s k = true := by
  simp only [pendingResets, List.length_eq_zero, List.filter_eq_nil_iff, decide_eq_true_eq]
  constructor
  · intro h k hk
    have := h k hk
    simpa using this
  · intro h k hk
    simp [h k hk]

theorem addGamepadListElementWith_cases (lib : ProfileLibrary) (k : Nat) (s : State) :
    (keyListed lib s k = true ∧ ∀ rb, addGamepadListElementWith rb lib k s = .ok () s) ∨
    (∃ e, ∀ rb, addGamepadListElementWith rb lib k s = .threw e s) ∨
    (∃ s1, pendingResets lib s1 < pendingResets lib s ∧ Rebuilt lib s s1 ∧
      keyListed lib s1 k = true ∧ ∀ rb, addGamepadListElementWith rb lib k s = rb s1) := by
  cases hg : mapGet s.globalGamepads k with
  | none =>
    left
    refine ⟨by simp [keyListed, hg], fun rb => by simp [addGamepadListElementWith, hg]⟩
  | some info =>
    cases hu : info.userProfile with
    | none =>
      right; left
      exact ⟨"TypeError: userProfile is undefined",
        fun rb => by simp [addGamepadListElementWith, hg, hu]⟩
    | some u =>
      by_cases hl : profileNameListed s.store (lib.profileName info.visualizationProfile) u = true
      · left
        refine ⟨by simp [keyListed, hg, entryListed, hu, hl],
          fun rb => by simp [addGamepadListElementWith, hg, hu, hl]⟩
      · cases hd : getUserProfile s.store (lib.profileName info.visualizationProfile) .undefined with
        | none =>
          right; left
          exact ⟨"No default user profile was found",
            fun rb => by simp [addGamepadListElementWith, hg, hu, hl, hd]⟩
        | some d =>
          right; right
          have hl2 : entryListed lib s.store info = false := by
            simp only [entryListed, hu]; simpa using hl
          have hr := rebuilt_of_reset lib s k info (some (resetToDefault u d)) hg hl2
          have hk1 : keyListed lib s k = false := by simp [keyListed, hg, hl2]
          have hk2 : keyListed lib (setUserProfile k (some (resetToDefault u d)) s) k = true := by
            simp only [keyListed, setUserProfile, mapGet_mapSetUserProfile_self _ _ _ info hg,
              entryListed]
            exact profileNameListed_resetToDefault _ _ u d hd
          have hmem : k ∈ mapKeys s.globalGamepads := by
            rw [← mapGet_isSome_iff_mem_keys, hg]; rfl
          exact ⟨_, pendingResets_lt_of_rebuilt hr k hmem hk1 hk2, hr, hk2,
            fun rb => by simp [addGamepadListElementWith, hg, hu, hl, hd]⟩

theorem forEachKey_adequate (lib : ProfileLibrary) (bound : Nat) (rb rb2 : State → Res Unit)
    (hframe : ∀ s t, (rb s).state? = some t → Rebuilt lib s t)
    (hrb : ∀ s, pendingResets lib s < bound →
      rb2 s = rb s ∧ rb s ≠ .outOfFuel ∧ ∀ t, rb s = .ok () t → pendingResets lib t = 0) :
    ∀ ks s, pendingResets lib s ≤ bound →
      forEachKey (addGamepadListElementWith rb2 lib) ks s =
        forEachKey (addGamepadListElementWith rb lib) ks s ∧
      forEachKey (addGamepadListElementWith rb lib) ks s ≠ .outOfFuel ∧
      ∀ t, forEachKey (addGamepadListElementWith rb lib) ks s = .ok () t →
        ∀ k ∈ ks, keyListed lib t k = true := by
  intro ks
  induction ks with
  | nil =>
    intro s _
    simp [forEachKey]
  | cons k ks ih =>
    intro s hs
    have hfr : ∀ s t, (forEachKey (addGamepadListElementWith rb lib) ks s).state? = some t →
        Rebuilt lib s t :=
      forEachKey_rebuilt lib _ (addGamepadListElementWith_rebuilt lib rb hframe) ks
    rcases addGamepadListElementWith_cases lib k s with ⟨hk, h⟩ | ⟨e, h⟩ | ⟨s1, hlt, hr, hk, h⟩
    · obtain ⟨i1, i2, i3⟩ := ih s hs
      simp only [forEachKey, h]
      refine ⟨i1, i2, ?_⟩
      intro t ht j hj
      rcases List.mem_cons.1 hj with e | e
      · subst e
        exact keyListed_of_rebuilt (hfr s t (by rw [ht]; rfl)) j hk
      · exact i3 t ht j e
    · simp only [forEachKey, h]
      simp
    · obtain ⟨r1, r2, r3⟩ := hrb s1 (by omega)
      simp only [forEachKey, h, r1]
      cases hres : rb s1 with
      | outOfFuel => exact absurd hres r2
      | threw e t1 => simp
      | ok v t1 =>
        have h0 : pendingResets lib t1 = 0 := r3 t1 hres
        obtain ⟨i1, i2, i3⟩ := ih t1 (by omega)
        refine ⟨i1, i2, ?_⟩
        intro t ht j hj
        have ht2 : forEachKey (addGamepadListElementWith rb lib) ks t1 = .ok () t := ht
        rcases List.mem_cons.1 hj with e | e
        · subst e
          have hk1 : keyListed lib t1 j = true :=
            keyListed_of_rebuilt (hframe s1 t1 (by rw [hres]; rfl)) j hk
          exact keyListed_of_rebuilt (hfr t1 t (by rw [ht2]; rfl)) j hk1
        · exact i3 t ht2 j e

theorem updateGamepadListElementsFuel_adequate (lib : ProfileLibrary) :
    ∀ n s, pendingResets lib s ≤ n →
      (∀ m, n + 1 ≤ m →
        updateGamepadListElementsFuel lib m s = updateGamepadListElementsFuel lib (n + 1) s) ∧
      updateGamepadListElementsFuel lib (n + 1) s ≠ .outOfFuel ∧
      ∀ t, updateGamepadListElementsFuel lib (n + 1) s = .ok () t → pendingResets lib t = 0 := by
  intro n
  induction n with
  | zero =>
    intro s hs
    have key : ∀ m, forEachKey (addGamepadListElementWith (updateGamepadListElementsFuel lib m) lib)
          (mapKeys s.globalGamepads) s =
          forEachKey (addGamepadListElementWith (updateGamepadListElementsFuel lib 0) lib)
          (mapKeys s.globalGamepads) s ∧ _ := fun m =>
      forEachKey_adequate lib 0 (updateGamepadListElementsFuel lib 0)
        (updateGamepadListElementsFuel lib m) (updateGamepadListElementsFuel_rebuilt lib 0)
        (fun s1 h1 => absurd h1 (by omega)) (mapKeys s.globalGamepads) s hs
    refine ⟨?_, (key 0).2.1, ?_⟩
    · intro m hm
      obtain ⟨m, rfl⟩ : ∃ j, m = j + 1 := ⟨m - 1, by omega⟩
      simp only [updateGamepadListElementsFuel]
      exact (key m).1
    · intro t ht
      have hall := (key 0).2.2 t (by simpa [updateGamepadListElementsFuel] using ht)
      rw [pendingResets_eq_zero_iff]
      have hr := updateGamepadListElementsFuel_rebuilt lib 1 s t (by rw [ht]; rfl)
      rw [mapKeys_eq_of_shape _ _ hr.2.1]
      exact hall
  | succ n ih =>
    intro s hs
    have key : ∀ m, n + 1 ≤ m →
        forEachKey (addGamepadListElementWith (updateGamepadListElementsFuel lib m) lib)
          (mapKeys s.globalGamepads) s =
          forEachKey (addGamepadListElementWith (updateGamepadListElementsFuel lib (n + 1)) lib)
          (mapKeys s.globalGamepads) s ∧ _ := fun m hm =>
      forEachKey_adequate lib (n + 1) (updateGamepadListElementsFuel lib (n + 1))
        (updateGamepadListElementsFuel lib m) (updateGamepadListElementsFuel_rebuilt lib (n + 1))
        (fun s1 h1 => ⟨(ih s1 (by omega)).1 m hm, (ih s1 (by omega)).2.1, (ih s1 (by omega)).2.2⟩)
        (mapKeys s.globalGamepads) s hs
    refine ⟨?_, (key (n + 1) (le_refl _)).2.1, ?_⟩
    · intro m hm
      obtain ⟨m, rfl⟩ : ∃ j, m = j + 1 := ⟨m - 1, by omega⟩
      simp only [updateGamepadListElementsFuel]
      exact (key m (by omega)).1
    · intro t ht
      have hall := (key (n + 1) (le_refl _)).2.2 t
        (by simpa [updateGamepadListElementsFuel] using ht)
      rw [pendingResets_eq_zero_iff]
      have hr := updateGamepadListElementsFuel_rebuilt lib (n + 2) s t (by rw [ht]; rfl)
      rw [mapKeys_eq_of_shape _ _ hr.2.1]
      exact hall

theorem pendingResets_le_length (lib : ProfileLibrary) (s : State) :
    pendingResets lib s ≤ s.globalGamepads.length := by
  simp only [pendingResets]
  calc _ ≤ (mapKeys s.globalGamepads).length := List.length_filter_le _ _
    _ = _ := by simp [mapKeys]

/-- The recursion budget of `updateGamepadListElements` is never exhausted, and a
larger budget gives the same outcome. -/
theorem updateGamepadListElementsFuel_stable (lib : ProfileLibrary) (s : State) :
    updateGamepadListElements lib s ≠ .outOfFuel ∧
    ∀ m, s.globalGamepads.length + 1 ≤ m →
      updateGamepadListElementsFuel lib m s = updateGamepadListElements lib s := by
  obtain ⟨h1, h2, _⟩ := updateGamepadListElementsFuel_adequate lib s.globalGamepads.length s
    (pendingResets_le_length lib s)
  exact ⟨h2, h1⟩

theorem forEachKey_ok_of_forall (f : Nat → State → Res Unit) (ks : List Nat) (s : State)
    (h : ∀ k ∈ ks, f k s = .ok () s) : forEachKey f ks s = .ok () s := by
  induction ks with
  | nil => rfl
  | cons k ks ih =>
    simp only [forEachKey, h k (List.mem_cons_self k ks)]
    exact ih (fun j hj => h j (List.mem_cons_of_mem k hj))

theorem addGamepadListElementWith_of_listed (lib : ProfileLibrary) (rb : State → Res Unit)
    (k : Nat) (s : State) (h : keyListed lib s k = true) :
    addGamepadListElementWith rb lib k s = .ok () s := by
  simp only [keyListed] at h
  simp only [addGamepadListElementWith]
  cases hg : mapGet s.globalGamepads k with
  | none => rfl
  | some info =>
    rw [hg] at h
    simp only [entryListed] at h
    cases hu : info.userProfile with
    | none => rw [hu] at h; exact absurd h (by simp)
    | some u =>
      rw [hu] at h
      simp only at h
      simp only [hu, h, if_true]

theorem updateGamepadListElements_ok_of_listed (lib : ProfileLibrary) (s : State)
    (h : ∀ k ∈ mapKeys s.globalGamepads, keyListed lib s k = true) :
    updateGamepadListElements lib s = .ok () s := by
  simp only [updateGamepadListElements, updateGamepadListElementsFuel]
  exact forEachKey_ok_of_forall _ _ _
    (fun k hk => addGamepadListElementWith_of_listed lib _ k s (h k hk))

theorem updateGamepadListElements_nil (lib : ProfileLibrary) (s : State)
    (h : s.globalGamepads = []) : updateGamepadListElements lib s = .ok () s := by
  apply updateGamepadListElements_ok_of_listed
  intro k hk
  simp [h, mapKeys] at hk

theorem addGamepadListElement_of_listed (lib : ProfileLibrary) (k : Nat) (s : State)
    (h : keyListed lib s k = true) : addGamepadListElement lib k s = .ok () s :=
  addGamepadListElementWith_of_listed lib _ k s h

/-! ## Outcomes of `addGamepad` -/

theorem addGamepadListElement_no_default (lib : ProfileLibrary) (k : Nat) (s : State)
    (info : GamepadInfo) (u : UserProfile) (hg : mapGet s.globalGamepads k = some info)
    (hu : info.userProfile = some u)
    (hl : ¬ profileNameListed s.store (lib.profileName info.visualizationProfile) u = true)
    (hd : getUserProfile s.store (lib.profileName info.visualizationProfile) .undefined = none) :
    addGamepadListElement lib k s = .threw "No default user profile was found" s := by
  simp only [addGamepadListElement, addGamepadListElementWith, hg, hu, hl, hd,
    Bool.false_eq_true, if_false]

/-- With a last-used or default user profile `u`, `addGamepad` registers the entry and
returns. -/
theorem addGamepad_of_resolved (lib : ProfileLibrary) (g : Gamepad) (s : State) (u : UserProfile)
    (h : getUserProfileLastUsed s.store (lib.profileName (selectVisualizationProfile lib g)) = some u ∨
      (getUserProfileLastUsed s.store (lib.profileName (selectVisualizationProfile lib g)) = none ∧
       getUserProfile s.store (lib.profileName (selectVisualizationProfile lib g)) .undefined
         = some u)) :
    addGamepad lib g s = .ok () (requestAnimationFrame (playRumble g
      (registerGamepad g (selectVisualizationProfile lib g) u s))) := by
  have hl : profileNameListed s.store (lib.profileName (selectVisualizationProfile lib g)) u
      = true := by
    rcases h with h | ⟨_, h⟩
    · exact profileNameListed_lastUsed _ _ _ h
    · exact profileNameListed_default _ _ _ h
  have hk : keyListed lib (registerGamepad g (selectVisualizationProfile lib g) u s) g.index
      = true := by
    simp only [keyListed, registerGamepad, mapGet_mapSet_self, entryListed]
    exact hl
  have ha := addGamepadListElement_of_listed lib g.index _ hk
  rcases h with h | ⟨h0, h⟩
  · simp only [addGamepad, h, ha]
  · simp only [addGamepad, h0, h, ha]

/-- Without a last-used and without a default user profile, `addGamepad` first rebuilds
the list elements; when that raises, nothing is registered. -/
theorem addGamepad_of_unresolved_threw (lib : ProfileLibrary) (g : Gamepad) (s t : State)
    (e : String)
    (h1 : getUserProfileLastUsed s.store (lib.profileName (selectVisualizationProfile lib g)) = none)
    (h2 : getUserProfile s.store (lib.profileName (selectVisualizationProfile lib g)) .undefined
      = none)
    (h3 : updateGamepadListElements lib s = .threw e t) :
    addGamepad lib g s = .threw e t := by
  simp only [addGamepad, h1, h2, h3]

theorem addGamepad_of_unresolved_ok (lib : ProfileLibrary) (g : Gamepad) (s t : State)
    (h1 : getUserProfileLastUsed s.store (lib.profileName (selectVisualizationProfile lib g)) = none)
    (h2 : getUserProfile s.store (lib.profileName (selectVisualizationProfile lib g)) .undefined
      = none)
    (h3 : updateGamepadListElements lib s = .ok () t) :
    addGamepad lib g s =
      if profileNameListed s.store (lib.profileName (selectVisualizationProfile lib g))
          nameOnlyUserProfile = true then
        .ok () (requestAnimationFrame (playRumble g
          (registerGamepad g (selectVisualizationProfile lib g) nameOnlyUserProfile t)))
      else
        .threw "No default user profile was found"
          (registerGamepad g (selectVisualizationProfile lib g) nameOnlyUserProfile t) := by
  have hst : t.store = s.store :=
    rebuilt_store_eq (updateGamepadListElements_rebuilt lib s t (by rw [h3]; rfl))
  by_cases hl : profileNameListed s.store (lib.profileName (selectVisualizationProfile lib g))
      nameOnlyUserProfile = true
  · have hk : keyListed lib
        (registerGamepad g (selectVisualizationProfile lib g) nameOnlyUserProfile t) g.index
        = true := by
      simp only [keyListed, registerGamepad, mapGet_mapSet_self, entryListed, hst]
      exact hl
    have ha := addGamepadListElement_of_listed lib g.index _ hk
    simp only [addGamepad, h1, h2, h3, ha, hl, if_true]
  · have ha := addGamepadListElement_no_default lib g.index
      (registerGamepad g (selectVisualizationProfile lib g) nameOnlyUserProfile t)
      ⟨g, selectVisualizationProfile lib g, some nameOnlyUserProfile⟩ nameOnlyUserProfile
      (by simp only [registerGamepad, mapGet_mapSet_self]) rfl
      (by simpa only [registerGamepad, hst] using hl)
      (by simpa only [registerGamepad, hst] using h2)
    simp only [addGamepad, h1, h2, h3, hl, Bool.false_eq_true, if_false, ha]

theorem mapGet_shape (m m2 : GamepadInfoMap) (h : registryShape m2 = registryShape m) (k : Nat) :
    (mapGet m2 k).map (fun i => (i.gamepad, i.visualizationProfile)) =
      (mapGet m k).map (fun i => (i.gamepad, i.visualizationProfile)) := by
  induction m generalizing m2 with
  | nil =>
    cases m2 with
    | nil => rfl
    | cons q t2 => simp [registryShape] at h
  | cons p t ih =>
    cases m2 with
    | nil => simp [registryShape] at h
    | cons q t2 =>
      obtain ⟨a, b⟩ := p
      obtain ⟨a2, b2⟩ := q
      simp only [registryShape, List.map_cons, List.cons.injEq, Prod.mk.injEq] at h
      obtain ⟨⟨h1, h2, h3⟩, h4⟩ := h
      subst h1
      by_cases hk : a2 = k
      · simp [mapGet, hk, h2, h3]
      · simpa [mapGet, hk] using ih t2 h4

theorem registryShape_mapSet_congr (m m2 : GamepadInfoMap)
    (h : registryShape m2 = registryShape m) (k : Nat) (v v2 : GamepadInfo)
    (h1 : v2.gamepad = v.gamepad) (h2 : v2.visualizationProfile = v.visualizationProfile) :
    registryShape (mapSet m2 k v2) = registryShape (mapSet m k v) := by
  induction m generalizing m2 with
  | nil =>
    cases m2 with
    | nil => simp [mapSet, registryShape, h1, h2]
    | cons q t2 => simp [registryShape] at h
  | cons p t ih =>
    cases m2 with
    | nil => simp [registryShape] at h
    | cons q t2 =>
      obtain ⟨a, b⟩ := p
      obtain ⟨a2, b2⟩ := q
      simp only [registryShape, List.map_cons, List.cons.injEq, Prod.mk.injEq] at h
      obtain ⟨⟨e1, e2, e3⟩, e4⟩ := h
      subst e1
      by_cases hk : a2 = k
      · simp only [mapSet, hk, if_true, registryShape, List.map_cons, h1, h2]
        rw [e4]
      · have := ih t2 e4
        simp only [registryShape] at this
        simp only [mapSet, hk, if_false, registryShape, List.map_cons, e2, e3, this]

theorem playRumble_globalGamepads (g : Gamepad) (s : State) :
    (playRumble g s).globalGamepads = s.globalGamepads := by
  simp only [playRumble]
  split <;> rfl

theorem requestAnimationFrame_globalGamepads (s : State) :
    (requestAnimationFrame s).globalGamepads = s.globalGamepads := rfl

theorem updateGamepadListElements_ne_outOfFuel (lib : ProfileLibrary) (s : State) :
    updateGamepadListElements lib s ≠ .outOfFuel :=
  (updateGamepadListElementsFuel_stable lib s).1

theorem addGamepadListElement_ne_outOfFuel (lib : ProfileLibrary) (k : Nat) (s : State) :
    addGamepadListElement lib k s ≠ .outOfFuel := by
  rcases addGamepadListElementWith_cases lib k s with ⟨_, h⟩ | ⟨e, h⟩ | ⟨s1, _, _, _, h⟩
  · simp [addGamepadListElement, h]
  · simp [addGamepadListElement, h]
  · simp only [addGamepadListElement, h]
    exact updateGamepadListElements_ne_outOfFuel lib s1

/-- The two ways `addGamepad` can end: the rebuild that precedes the registration
raises, or the entry is registered and the outcome is that of the list element
of the new device. -/
theorem addGamepad_outcome (lib : ProfileLibrary) (g : Gamepad) (s : State) :
    (∃ e t, addGamepad lib g s = .threw e t ∧ Rebuilt lib s t) ∨
    (∃ s1 u, Rebuilt lib s s1 ∧
      ((∃ s3, addGamepadListElement lib g.index
            (registerGamepad g (selectVisualizationProfile lib g) u s1) = .ok () s3 ∧
          addGamepad lib g s = .ok () (requestAnimationFrame (playRumble g s3))) ∨
       (∃ e s3, addGamepadListElement lib g.index
            (registerGamepad g (selectVisualizationProfile lib g) u s1) = .threw e s3 ∧
          addGamepad lib g s = .threw e s3))) := by
  have key : ∀ s1 u, Rebuilt lib s s1 →
      ((∃ s3, addGamepadListElement lib g.index
            (registerGamepad g (selectVisualizationProfile lib g) u s1) = .ok () s3 ∧
          (match addGamepadListElement lib g.index
              (registerGamepad g (selectVisualizationProfile lib g) u s1) with
            | .ok _ s3 => Res.ok () (requestAnimationFrame (playRumble g s3))
            | .threw e s3 => .threw e s3
            | .outOfFuel => .outOfFuel) = .ok () (requestAnimationFrame (playRumble g s3))) ∨
       (∃ e s3, addGamepadListElement lib g.index
            (registerGamepad g (selectVisualizationProfile lib g) u s1) = .threw e s3 ∧
          (match addGamepadListElement lib g.index
              (registerGamepad g (selectVisualizationProfile lib g) u s1) with
            | .ok _ s3 => Res.ok () (requestAnimationFrame (playRumble g s3))
            | .threw e s3 => .threw e s3
            | .outOfFuel => .outOfFuel) = .threw e s3)) := by
    intro s1 u _
    cases hr : addGamepadListElement lib g.index
        (registerGamepad g (selectVisualizationProfile lib g) u s1) with
    | ok v s3 => exact Or.inl ⟨s3, rfl, rfl⟩
    | threw e s3 => exact Or.inr ⟨e, s3, rfl, rfl⟩
    | outOfFuel => exact absurd hr (addGamepadListElement_ne_outOfFuel lib _ _)
  cases h1 : getUserProfileLastUsed s.store (lib.profileName (selectVisualizationProfile lib g)) with
  | some u =>
    right
    refine ⟨s, u, rebuilt_refl lib s, ?_⟩
    simpa only [addGamepad, h1] using key s u (rebuilt_refl lib s)
  | none =>
    cases h2 : getUserProfile s.store (lib.profileName (selectVisualizationProfile lib g))
        .undefined with
    | some u =>
      right
      refine ⟨s, u, rebuilt_refl lib s, ?_⟩
      simpa only [addGamepad, h1, h2] using key s u (rebuilt_refl lib s)
    | none =>
      cases h3 : updateGamepadListElements lib s with
      | outOfFuel => exact absurd h3 (updateGamepadListElements_ne_outOfFuel lib s)
      | threw e t =>
        left
        exact ⟨e, t, by simp only [addGamepad, h1, h2, h3],
          updateGamepadListElements_rebuilt lib s t (by rw [h3]; rfl)⟩
      | ok v s1 =>
        right
        have hr := updateGamepadListElements_rebuilt lib s s1 (by rw [h3]; rfl)
        refine ⟨s1, nameOnlyUserProfile, hr, ?_⟩
        simpa only [addGamepad, h1, h2, h3] using key s1 nameOnlyUserProfile hr

/-- What a normal return of `addGamepad` leaves in the registry. -/
theorem addGamepad_ok_shape (lib : ProfileLibrary) (g : Gamepad) (s t : State)
    (h : addGamepad lib g s = .ok () t) :
    ∃ u, registryShape t.globalGamepads =
      registryShape (mapSet s.globalGamepads g.index ⟨g, selectVisualizationProfile lib g, u⟩) := by
  rcases addGamepad_outcome lib g s with ⟨e, t2, h2, _⟩ | ⟨s1, u, hr, ⟨s3, h3, h4⟩ | ⟨e, s3, _, h4⟩⟩
  · rw [h2] at h; cases h
  · rw [h4] at h
    cases h
    refine ⟨some u, ?_⟩
    have hr3 := addGamepadListElement_rebuilt lib _ _ s3 (by rw [h3]; rfl)
    rw [requestAnimationFrame_globalGamepads, playRumble_globalGamepads, hr3.2.1]
    exact registryShape_mapSet_congr _ _ hr.2.1 _ _ _ rfl rfl
  · rw [h4] at h; cases h

theorem addGamepad_ne_outOfFuel (lib : ProfileLibrary) (g : Gamepad) (s : State) :
    addGamepad lib g s ≠ .outOfFuel := by
  rcases addGamepad_outcome lib g s with ⟨e, t2, h2, _⟩ | ⟨s1, u, hr, ⟨s3, h3, h4⟩ | ⟨e, s3, _, h4⟩⟩
  · simp [h2]
  · simp [h4]
  · simp [h4]

/-! ## Polling -/

theorem mapKeys_refreshGamepad (g : Gamepad) (s : State) :
    mapKeys (refreshGamepad g s).globalGamepads = mapKeys s.globalGamepads := by
  simp only [refreshGamepad]
  split
  · next info hg =>
    apply mapKeys_mapSet_of_mem
    rw [← mapGet_isSome_iff_mem_keys, hg]; rfl
  · rfl

theorem mapKeys_refreshGamepads (poll : List (Option Gamepad)) (s : State) :
    mapKeys (refreshGamepads poll s).globalGamepads = mapKeys s.globalGamepads := by
  induction poll generalizing s with
  | nil => rfl
  | cons x rest ih =>
    cases x with
    | none => exact ih s
    | some g =>
      simp only [refreshGamepads]
      rw [ih, mapKeys_refreshGamepad]

theorem mapKeys_refreshGamepadsEach (polls : List (List (Option Gamepad))) (s : State) :
    mapKeys (refreshGamepadsEach polls s).globalGamepads = mapKeys s.globalGamepads := by
  induction polls generalizing s with
  | nil => rfl
  | cons p rest ih =>
    simp only [refreshGamepadsEach]
    rw [ih, mapKeys_refreshGamepads]

/-- A poll that observes registered indices only takes the refresh branch for every
slot. -/
theorem updateGamepads_eq_refreshGamepads (lib : ProfileLibrary) (poll : List (Option Gamepad))
    (s : State) (h : ∀ g, some g ∈ poll → g.index ∈ mapKeys s.globalGamepads) :
    updateGamepads lib poll s = .ok () (refreshGamepads poll s) := by
  induction poll generalizing s with
  | nil => rfl
  | cons x rest ih =>
    cases x with
    | none =>
      simp only [updateGamepads, refreshGamepads]
      exact ih s (fun g hg => h g (List.mem_cons_of_mem _ hg))
    | some g =>
      have hg : mapHas s.globalGamepads g.index = true :=
        (mapHas_iff_mem_keys _ _).2 (h g (List.mem_cons_self _ _))
      simp only [updateGamepads, refreshGamepads, hg, if_true]
      apply ih
      intro g2 hg2
      rw [mapKeys_refreshGamepad]
      exact h g2 (List.mem_cons_of_mem _ hg2)

theorem updateGamepadsEach_eq_refreshGamepadsEach (lib : ProfileLibrary)
    (polls : List (List (Option Gamepad))) (s : State)
    (h : ∀ p ∈ polls, ∀ g, some g ∈ p → g.index ∈ mapKeys s.globalGamepads) :
    updateGamepadsEach lib polls s = .ok () (refreshGamepadsEach polls s) := by
  induction polls generalizing s with
  | nil => rfl
  | cons p rest ih =>
    simp only [updateGamepadsEach, refreshGamepadsEach,
      updateGamepads_eq_refreshGamepads lib p s (h p (List.mem_cons_self _ _))]
    apply ih
    intro q hq g hg
    rw [mapKeys_refreshGamepads]
    exact h q (List.mem_cons_of_mem _ hq) g hg

theorem updateGamepads_of_empty_slots (lib : ProfileLibrary) (poll : List (Option Gamepad))
    (s : State) (h : ∀ x ∈ poll, x = none) : updateGamepads lib poll s = .ok () s := by
  induction poll with
  | nil => rfl
  | cons x rest ih =>
    have hx := h x (List.mem_cons_self _ _)
    subst hx
    simp only [updateGamepads]
    exact ih (fun y hy => h y (List.mem_cons_of_mem _ hy))

theorem mapKeys_addGamepad_ok (lib : ProfileLibrary) (g : Gamepad) (s t : State)
    (h : addGamepad lib g s = .ok () t) (hn : g.index ∉ mapKeys s.globalGamepads) :
    mapKeys t.globalGamepads = mapKeys s.globalGamepads ++ [g.index] := by
  obtain ⟨u, hu⟩ := addGamepad_ok_shape lib g s t h
  rw [mapKeys_eq_of_shape _ _ hu]
  exact mapKeys_mapSet_of_not_mem _ _ _ hn

/-- After a poll that returns, the registered indices are those registered before and
those of the non-empty slots. -/
theorem mem_mapKeys_updateGamepads (lib : ProfileLibrary) (poll : List (Option Gamepad))
    (s t : State) (h : updateGamepads lib poll s = .ok () t) (i : Nat) :
    i ∈ mapKeys t.globalGamepads ↔
      i ∈ mapKeys s.globalGamepads ∨ ∃ g, some g ∈ poll ∧ g.index = i := by
  induction poll generalizing s with
  | nil =>
    simp only [updateGamepads, Res.ok.injEq, true_and] at h
    subst h
    simp
  | cons x rest ih =>
    cases x with
    | none =>
      simp only [updateGamepads] at h
      rw [ih s h]
      simp
    | some g =>
      simp only [updateGamepads] at h
      by_cases hg : mapHas s.globalGamepads g.index = true
      · rw [if_pos hg] at h
        rw [ih _ h, mapKeys_refreshGamepad]
        have hm := (mapHas_iff_mem_keys _ _).1 hg
        constructor
        · rintro (h1 | ⟨g2, h2, h3⟩)
          · exact Or.inl h1
          · exact Or.inr ⟨g2, List.mem_cons_of_mem _ h2, h3⟩
        · rintro (h1 | ⟨g2, h2, h3⟩)
          · exact Or.inl h1
          · rcases List.mem_cons.1 h2 with e | e
            · cases e; subst h3; exact Or.inl hm
            · exact Or.inr ⟨g2, e, h3⟩
      · rw [if_neg hg] at h
        have hm : g.index ∉ mapKeys s.globalGamepads := fun hc => hg ((mapHas_iff_mem_keys _ _).2 hc)
        cases ha : addGamepad lib g s with
        | outOfFuel => rw [ha] at h; cases h
        | threw e s1 => rw [ha] at h; cases h
        | ok v s1 =>
          rw [ha] at h
          rw [ih _ h, mapKeys_addGamepad_ok lib g s s1 ha hm]
          constructor
          · rintro (h1 | ⟨g2, h2, h3⟩)
            · rcases List.mem_append.1 h1 with h1 | h1
              · exact Or.inl h1
              · simp only [List.mem_singleton] at h1
                exact Or.inr ⟨g, List.mem_cons_self _ _, h1.symm⟩
            · exact Or.inr ⟨g2, List.mem_cons_of_mem _ h2, h3⟩
          · rintro (h1 | ⟨g2, h2, h3⟩)
            · exact Or.inl (List.mem_append_left _ h1)
            · rcases List.mem_cons.1 h2 with e | e
              · cases e; subst h3
                exact Or.inl (List.mem_append_right _ (List.mem_singleton_self _))
              · exact Or.inr ⟨g2, e, h3⟩

/-! ## Scheduler, selection and registration -/

/-- The value and the state that `update` returns once its polling step has returned. -/
theorem update_of_updateGamepads (lib : ProfileLibrary) (poll : List (Option Gamepad))
    (timeDelta : ℚ) (s s1 : State) (hpoll : updateGamepads lib poll s = .ok () s1) :
    ((s1.globalGamepads = [] ∧ s1.globalEmptyFrameAlreadyRendered = some true ∧
        s1.globalForceRedraw = false) →
      update lib poll timeDelta s =
        .ok false { s1 with fps := if timeDelta = 0 then 0 else 1000 / timeDelta }) ∧
    (¬ (s1.globalGamepads = [] ∧ s1.globalEmptyFrameAlreadyRendered = some true ∧
        s1.globalForceRedraw = false) →
      update lib poll timeDelta s =
        .ok true { s1 with
          fps := if timeDelta = 0 then 0 else 1000 / timeDelta
          globalEmptyFrameAlreadyRendered := some (decide (s1.globalGamepads = []))
          globalForceRedraw := false }) := by
  constructor
  · rintro ⟨h1, h2, h3⟩
    simp [update, hpoll, h1, h2, h3, emptyFrameAlreadyRendered]
  · intro h
    by_cases h1 : s1.globalGamepads = []
    · have h4 : ¬ (s1.globalEmptyFrameAlreadyRendered = some true ∧ s1.globalForceRedraw = false) :=
        fun hc => h ⟨h1, hc⟩
      simp [update, hpoll, h1, emptyFrameAlreadyRendered, h4]
    · have h5 : s1.globalGamepads.length ≠ 0 := by
        simpa [List.length_eq_zero] using h1
      simp [update, hpoll, h1, h5]

/-- C1: when the polling step of `update` returns, leaving the state `s1`, `update`
returns `false` exactly when in `s1` the registry is empty,
`globalEmptyFrameAlreadyRendered` is `true` and `globalForceRedraw` is `false`; in
every other case it returns `true`. -/
theorem update_returns_false_iff_idle (lib : ProfileLibrary) (poll : List (Option Gamepad))
    (timeDelta : ℚ) (s s1 : State) (hpoll : updateGamepads lib poll s = .ok () s1) :
    ((s1.globalGamepads = [] ∧ s1.globalEmptyFrameAlreadyRendered = some true ∧
        s1.globalForceRedraw = false) →
      update lib poll timeDelta s =
        .ok false { s1 with fps := if timeDelta = 0 then 0 else 1000 / timeDelta }) ∧
    (¬ (s1.globalGamepads = [] ∧ s1.globalEmptyFrameAlreadyRendered = some true ∧
        s1.globalForceRedraw = false) →
      update lib poll timeDelta s =
        .ok true { s1 with
          fps := if timeDelta = 0 then 0 else 1000 / timeDelta
          globalEmptyFrameAlreadyRendered := some (decide (s1.globalGamepads = []))
          globalForceRedraw := false }) :=
  update_of_updateGamepads lib poll timeDelta s s1 hpoll

theorem update_returns_false_iff_idle_witness :
    updateGamepads fallbackLibrary [none, some (plainGamepad 1 "Pad 1")] readyState =
        .ok () (requestAnimationFrame
          (registerGamepad (plainGamepad 1 "Pad 1") .UnknownController
            [("profileName", .str "Default"), ("color", .str "#ff0000")] readyState)) ∧
    ∃ t, update fallbackLibrary [none, some (plainGamepad 1 "Pad 1")] 16 readyState =
      .ok true t :=
  ⟨by decide!, _,
    (update_returns_false_iff_idle fallbackLibrary [none, some (plainGamepad 1 "Pad 1")] 16
      readyState
      (requestAnimationFrame
          (registerGamepad (plainGamepad 1 "Pad 1") .UnknownController
            [("profileName", .str "Default"), ("color", .str "#ff0000")] readyState))
      (by decide!)).2 (by decide!)⟩

/-- C3: the visualization profile of the entry that `addGamepad` registers is chosen by
trying, in this order, Chromium `isSupported`, Firefox `isSupported`, Chromium
`canBeSupported`, Firefox `canBeSupported`, and else the `UnknownController`
fallback; the choice is a total function of the snapshot (it raises nothing), and a
snapshot that all four predicates reject gets the fallback. -/
theorem addGamepad_selects_by_priority (lib : ProfileLibrary) (g : Gamepad) :
    (∀ s t, addGamepad lib g s = .ok () t →
      ∃ info, mapGet t.globalGamepads g.index = some info ∧ info.gamepad = g ∧
        info.visualizationProfile = selectVisualizationProfile lib g) ∧
    (lib.chromiumIsSupported g = true →
      selectVisualizationProfile lib g = .XBoxOne360ControllerChromium) ∧
    (lib.chromiumIsSupported g = false → lib.firefoxIsSupported g = true →
      selectVisualizationProfile lib g = .XBoxOne360ControllerFirefox) ∧
    (lib.chromiumIsSupported g = false → lib.firefoxIsSupported g = false →
      lib.chromiumCanBeSupported g = true →
      selectVisualizationProfile lib g = .XBoxOne360ControllerChromium) ∧
    (lib.chromiumIsSupported g = false → lib.firefoxIsSupported g = false →
      lib.chromiumCanBeSupported g = false → lib.firefoxCanBeSupported g = true →
      selectVisualizationProfile lib g = .XBoxOne360ControllerFirefox) ∧
    (lib.chromiumIsSupported g = false → lib.firefoxIsSupported g = false →
      lib.chromiumCanBeSupported g = false → lib.firefoxCanBeSupported g = false →
      selectVisualizationProfile lib g = .UnknownController) := by
  refine ⟨?_, ?_, ?_, ?_, ?_, ?_⟩
  · intro s t h
    obtain ⟨u, hu⟩ := addGamepad_ok_shape lib g s t h
    have hget := mapGet_shape _ _ hu g.index
    rw [mapGet_mapSet_self] at hget
    cases hg : mapGet t.globalGamepads g.index with
    | none => rw [hg] at hget; simp at hget
    | some info =>
      rw [hg] at hget
      simp only [Option.map_some', Option.some.injEq, Prod.mk.injEq] at hget
      exact ⟨info, rfl, hget.1, hget.2⟩
  · intro h1; simp [selectVisualizationProfile, h1]
  · intro h1 h2; simp [selectVisualizationProfile, h1, h2]
  · intro h1 h2 h3; simp [selectVisualizationProfile, h1, h2, h3]
  · intro h1 h2 h3 h4; simp [selectVisualizationProfile, h1, h2, h3, h4]
  · intro h1 h2 h3 h4; simp [selectVisualizationProfile, h1, h2, h3, h4]

theorem addGamepad_selects_by_priority_witness :
    addGamepad fallbackLibrary (plainGamepad 1 "Pad 1") readyState =
        .ok () (requestAnimationFrame
          (registerGamepad (plainGamepad 1 "Pad 1") .UnknownController
            [("profileName", .str "Default"), ("color", .str "#ff0000")] readyState)) ∧
    (∃ info, mapGet (requestAnimationFrame
          (registerGamepad (plainGamepad 1 "Pad 1") .UnknownController
            [("profileName", .str "Default"), ("color", .str "#ff0000")]
            readyState)).globalGamepads (plainGamepad 1 "Pad 1").index = some info ∧
        info.gamepad = plainGamepad 1 "Pad 1" ∧
        info.visualizationProfile =
          selectVisualizationProfile fallbackLibrary (plainGamepad 1 "Pad 1")) ∧
    selectVisualizationProfile fallbackLibrary (plainGamepad 1 "Pad 1") = .UnknownController :=
  ⟨by decide!,
    (addGamepad_selects_by_priority fallbackLibrary (plainGamepad 1 "Pad 1")).1 readyState _
      (by decide!),
    (addGamepad_selects_by_priority fallbackLibrary (plainGamepad 1 "Pad 1")).2.2.2.2.2
      rfl rfl rfl rfl⟩

/-- C4 fails as stated: with an empty store the connect of device 0 leaves
`unlistedState` (device 0 registered with the name-only profile), and there
`addGamepad` for device 1 raises during the rebuild of the list elements that
precedes the registration: device 1 is not registered. -/
theorem addGamepad_unregistered_counterexample :
    addGamepad fallbackLibrary (plainGamepad 0 "Pad 0") (initialState 800 200) =
        .threw "No default user profile was found" unlistedState ∧
    addGamepad fallbackLibrary (plainGamepad 1 "Pad 1") unlistedState =
        .threw "No default user profile was found" unlistedState ∧
    getUserProfileLastUsed unlistedState.store "Unknown Controller" = none ∧
    getUserProfile unlistedState.store "Unknown Controller" .undefined = none ∧
    mapGet unlistedState.globalGamepads 1 = none := by
  decide

/-- C4, amended: `addGamepad` registers under the index of the snapshot the entry
(snapshot, selected profile, user profile) whose user profile is the last-used
profile of the store for the selected profile when there is one, else the default
of the store when there is one, and in both cases it returns; with neither, it
registers the name-only profile provided the rebuild of the list elements that
precedes the registration returns, and when that rebuild raises it registers
nothing. -/
theorem addGamepad_registers_resolved_profile (lib : ProfileLibrary) (g : Gamepad) (s : State) :
    (∀ u, getUserProfileLastUsed s.store (lib.profileName (selectVisualizationProfile lib g))
        = some u →
      addGamepad lib g s = .ok () (requestAnimationFrame (playRumble g
        (registerGamepad g (selectVisualizationProfile lib g) u s))) ∧
      mapGet (requestAnimationFrame (playRumble g
        (registerGamepad g (selectVisualizationProfile lib g) u s))).globalGamepads g.index =
        some ⟨g, selectVisualizationProfile lib g, some u⟩) ∧
    (getUserProfileLastUsed s.store (lib.profileName (selectVisualizationProfile lib g)) = none →
      ∀ u, getUserProfile s.store (lib.profileName (selectVisualizationProfile lib g)) .undefined
        = some u →
      addGamepad lib g s = .ok () (requestAnimationFrame (playRumble g
        (registerGamepad g (selectVisualizationProfile lib g) u s))) ∧
      mapGet (requestAnimationFrame (playRumble g
        (registerGamepad g (selectVisualizationProfile lib g) u s))).globalGamepads g.index =
        some ⟨g, selectVisualizationProfile lib g, some u⟩) ∧
    (getUserProfileLastUsed s.store (lib.profileName (selectVisualizationProfile lib g)) = none →
      getUserProfile s.store (lib.profileName (selectVisualizationProfile lib g)) .undefined
        = none →
      (∀ s1, updateGamepadListElements lib s = .ok () s1 →
        ∃ t, (addGamepad lib g s).state? = some t ∧
          mapGet t.globalGamepads g.index =
            some ⟨g, selectVisualizationProfile lib g, some [("profileName", .str "Default")]⟩) ∧
      (∀ e s1, updateGamepadListElements lib s = .threw e s1 →
        addGamepad lib g s = .threw e s1 ∧
          mapKeys s1.globalGamepads = mapKeys s.globalGamepads)) := by
  have hreg : ∀ u t, mapGet (requestAnimationFrame (playRumble g
      (registerGamepad g (selectVisualizationProfile lib g) u t))).globalGamepads g.index =
      some ⟨g, selectVisualizationProfile lib g, some u⟩ := by
    intro u t
    rw [requestAnimationFrame_globalGamepads, playRumble_globalGamepads]
    simp only [registerGamepad, mapGet_mapSet_self]
  refine ⟨?_, ?_, ?_⟩
  · intro u h
    exact ⟨addGamepad_of_resolved lib g s u (Or.inl h), hreg u s⟩
  · intro h0 u h
    exact ⟨addGamepad_of_resolved lib g s u (Or.inr ⟨h0, h⟩), hreg u s⟩
  · intro h1 h2
    constructor
    · intro s1 h3
      rw [addGamepad_of_unresolved_ok lib g s s1 h1 h2 h3]
      split
      · exact ⟨_, rfl, hreg _ s1⟩
      · refine ⟨_, rfl, ?_⟩
        simp only [registerGamepad, mapGet_mapSet_self, nameOnlyUserProfile]
    · intro e s1 h3
      refine ⟨addGamepad_of_unresolved_threw lib g s s1 e h1 h2 h3, ?_⟩
      exact mapKeys_eq_of_shape _ _
        (updateGamepadListElements_rebuilt lib s s1 (by rw [h3]; rfl)).2.1

theorem addGamepad_registers_resolved_profile_witness :
    (getUserProfileLastUsed lastUsedOnlyStore
        (fallbackLibrary.profileName
          (selectVisualizationProfile fallbackLibrary (plainGamepad 2 "Pad 2"))) =
        some [("profileName", .str "Mine"), ("color", .str "#00ff00")] ∧
      mapGet (requestAnimationFrame (playRumble (plainGamepad 2 "Pad 2")
        (registerGamepad (plainGamepad 2 "Pad 2")
          (selectVisualizationProfile fallbackLibrary (plainGamepad 2 "Pad 2"))
          [("profileName", .str "Mine"), ("color", .str "#00ff00")]
          { readyState with store := lastUsedOnlyStore }))).globalGamepads
          (plainGamepad 2 "Pad 2").index =
        some ⟨plainGamepad 2 "Pad 2",
          selectVisualizationProfile fallbackLibrary (plainGamepad 2 "Pad 2"),
          some [("profileName", .str "Mine"), ("color", .str "#00ff00")]⟩) ∧
    (getUserProfile readyState.store
        (fallbackLibrary.profileName
          (selectVisualizationProfile fallbackLibrary (plainGamepad 2 "Pad 2"))) .undefined =
        some [("profileName", .str "Default"), ("color", .str "#ff0000")] ∧
      mapGet (requestAnimationFrame (playRumble (plainGamepad 2 "Pad 2")
        (registerGamepad (plainGamepad 2 "Pad 2")
          (selectVisualizationProfile fallbackLibrary (plainGamepad 2 "Pad 2"))
          [("profileName", .str "Default"), ("color", .str "#ff0000")]
          readyState))).globalGamepads (plainGamepad 2 "Pad 2").index =
        some ⟨plainGamepad 2 "Pad 2",
          selectVisualizationProfile fallbackLibrary (plainGamepad 2 "Pad 2"),
          some [("profileName", .str "Default"), ("color", .str "#ff0000")]⟩) ∧
    (updateGamepadListElements fallbackLibrary (initialState 800 200) =
        .ok () (initialState 800 200) ∧
      ∃ t, (addGamepad fallbackLibrary (plainGamepad 2 "Pad 2") (initialState 800 200)).state?
          = some t ∧
        mapGet t.globalGamepads (plainGamepad 2 "Pad 2").index =
          some ⟨plainGamepad 2 "Pad 2",
            selectVisualizationProfile fallbackLibrary (plainGamepad 2 "Pad 2"),
            some [("profileName", .str "Default")]⟩) :=
  ⟨⟨by decide,
      ((addGamepad_registers_resolved_profile fallbackLibrary (plainGamepad 2 "Pad 2")
        { readyState with store := lastUsedOnlyStore }).1 _ (by decide)).2⟩,
    ⟨by decide,
      ((addGamepad_registers_resolved_profile fallbackLibrary (plainGamepad 2 "Pad 2")
        readyState).2.1 (by decide) _ (by decide)).2⟩,
    ⟨by decide,
      ((addGamepad_registers_resolved_profile fallbackLibrary (plainGamepad 2 "Pad 2")
        (initialState 800 200)).2.2 (by decide) (by decide)).1 (initialState 800 200)
        (by decide)⟩⟩

/-- C5 fails as stated: a registered index that the poll does not observe stays
registered.  Here device 0 is registered and both slots of the poll are empty. -/
theorem updateGamepads_keeps_unobserved_counterexample :
    updateGamepads fallbackLibrary [none, none] unlistedState = .ok () unlistedState ∧
    mapHas unlistedState.globalGamepads 0 = true := by
  decide

/-- C5, amended: after a call of `updateGamepads` that returns, the registered indices
are exactly the indices registered before together with the indices of the
non-empty slots of the poll result; an index the poll no longer observes stays
registered, and only `removeGamepad` (the disconnect event) removes it. -/
theorem updateGamepads_registered_indices (lib : ProfileLibrary)
    (poll : List (Option Gamepad)) (s t : State) (h : updateGamepads lib poll s = .ok () t) :
    (∀ i, mapHas t.globalGamepads i = true ↔
      (mapHas s.globalGamepads i = true ∨ ∃ g, some g ∈ poll ∧ g.index = i)) ∧
    (∀ g i, mapHas (removeGamepad g t).globalGamepads i = true ↔
      (i ≠ g.index ∧ mapHas t.globalGamepads i = true)) := by
  constructor
  · intro i
    rw [mapHas_iff_mem_keys, mapHas_iff_mem_keys]
    exact mem_mapKeys_updateGamepads lib poll s t h i
  · intro g i
    rw [mapHas_iff_mem_keys, mapHas_iff_mem_keys]
    simp only [removeGamepad, requestAnimationFrame_globalGamepads, mapKeys_mapDelete,
      List.mem_filter, decide_eq_true_eq]
    exact And.comm

theorem updateGamepads_registered_indices_witness :
    updateGamepads fallbackLibrary [none, some (plainGamepad 1 "Pad 1")] readyState =
        .ok () (requestAnimationFrame
          (registerGamepad (plainGamepad 1 "Pad 1") .UnknownController
            [("profileName", .str "Default"), ("color", .str "#ff0000")] readyState)) ∧
    (mapHas (requestAnimationFrame
          (registerGamepad (plainGamepad 1 "Pad 1") .UnknownController
            [("profileName", .str "Default"), ("color", .str "#ff0000")]
            readyState)).globalGamepads 1 = true ↔
      (mapHas readyState.globalGamepads 1 = true ∨
        ∃ g, some g ∈ [none, some (plainGamepad 1 "Pad 1")] ∧ g.index = 1)) :=
  ⟨by decide!,
    (updateGamepads_registered_indices fallbackLibrary [none, some (plainGamepad 1 "Pad 1")]
      readyState _ (by decide!)).1 1⟩

/-! ## Connect, poll, disconnect -/

theorem mapKeys_registerGamepad_of_not_mem (g : Gamepad) (vp : VisualizationProfile)
    (u : UserProfile) (t : State) (h : g.index ∉ mapKeys t.globalGamepads) :
    mapKeys (registerGamepad g vp u t).globalGamepads = mapKeys t.globalGamepads ++ [g.index] := by
  simp only [registerGamepad]
  exact mapKeys_mapSet_of_not_mem _ _ _ h

theorem filter_ne_append_self (l : List Nat) (i : Nat) (h : i ∉ l) :
    (l ++ [i]).filter (fun j => decide (j ≠ i)) = l := by
  have h1 : l.filter (fun j => decide (j ≠ i)) = l := by
    rw [List.filter_eq_self]
    intro j hj
    have : j ≠ i := fun e => h (e ▸ hj)
    simpa using this
  rw [List.filter_append, h1]
  simp

/-- C6: start from a registry without an entry for the index `i` of the snapshot `g`,
the store resolving a user profile for the visualization profile selected for
`g` (a last-used one, or the default that the store is to hold for every
visualization profile).  Then `connect(i)` returns and has appended the key `i`
with the entry of `g`, its selected profile and the resolved user profile;
every later poll that observes only `i` and indices registered at the start is
exactly its refresh branch (no call of `addGamepad`), returns and keeps the
keys; and `disconnect(i)` leaves the keys of the start: no entry for `i`, the
same size, the empty registry when it started empty. -/
theorem connect_polls_disconnect (lib : ProfileLibrary) (g gd : Gamepad)
    (polls : List (List (Option Gamepad))) (s : State)
    (hfresh : mapHas s.globalGamepads g.index = false)
    (hd : gd.index = g.index)
    (hstore :
      getUserProfileLastUsed s.store (lib.profileName (selectVisualizationProfile lib g)) ≠ none ∨
      getUserProfile s.store (lib.profileName (selectVisualizationProfile lib g)) .undefined
        ≠ none)
    (hpolls : ∀ p ∈ polls, ∀ x, some x ∈ p →
      x.index = g.index ∨ mapHas s.globalGamepads x.index = true) :
    ∃ s1 u, addGamepad lib g s = .ok () s1 ∧
      mapGet s1.globalGamepads g.index = some ⟨g, selectVisualizationProfile lib g, some u⟩ ∧
      mapKeys s1.globalGamepads = mapKeys s.globalGamepads ++ [g.index] ∧
      updateGamepadsEach lib polls s1 = .ok () (refreshGamepadsEach polls s1) ∧
      mapKeys (refreshGamepadsEach polls s1).globalGamepads =
        mapKeys s.globalGamepads ++ [g.index] ∧
      mapKeys (removeGamepad gd (refreshGamepadsEach polls s1)).globalGamepads =
        mapKeys s.globalGamepads ∧
      mapHas (removeGamepad gd (refreshGamepadsEach polls s1)).globalGamepads g.index = false ∧
      (removeGamepad gd (refreshGamepadsEach polls s1)).globalGamepads.length =
        s.globalGamepads.length ∧
      (s.globalGamepads = [] →
        (removeGamepad gd (refreshGamepadsEach polls s1)).globalGamepads = []) := by
  have hnot : g.index ∉ mapKeys s.globalGamepads := by
    intro hc
    rw [(mapHas_iff_mem_keys _ _).2 hc] at hfresh
    exact absurd hfresh (by simp)
  have hconnect : ∃ s1 u, addGamepad lib g s = .ok () s1 ∧
      mapGet s1.globalGamepads g.index = some ⟨g, selectVisualizationProfile lib g, some u⟩ ∧
      mapKeys s1.globalGamepads = mapKeys s.globalGamepads ++ [g.index] := by
    have hres : ∀ u, addGamepad lib g s = .ok () (requestAnimationFrame (playRumble g
        (registerGamepad g (selectVisualizationProfile lib g) u s))) →
        ∃ s1 u, addGamepad lib g s = .ok () s1 ∧
          mapGet s1.globalGamepads g.index =
            some ⟨g, selectVisualizationProfile lib g, some u⟩ ∧
          mapKeys s1.globalGamepads = mapKeys s.globalGamepads ++ [g.index] := by
      intro u hu
      refine ⟨_, u, hu, ?_, ?_⟩
      · rw [requestAnimationFrame_globalGamepads, playRumble_globalGamepads]
        simp only [registerGamepad, mapGet_mapSet_self]
      · rw [requestAnimationFrame_globalGamepads, playRumble_globalGamepads]
        exact mapKeys_registerGamepad_of_not_mem g _ u s hnot
    cases h1 : getUserProfileLastUsed s.store
        (lib.profileName (selectVisualizationProfile lib g)) with
    | some u => exact hres u (addGamepad_of_resolved lib g s u (Or.inl h1))
    | none =>
      cases h2 : getUserProfile s.store (lib.profileName (selectVisualizationProfile lib g))
          .undefined with
      | some u => exact hres u (addGamepad_of_resolved lib g s u (Or.inr ⟨h1, h2⟩))
      | none =>
        rcases hstore with h | h
        · exact absurd h1 h
        · exact absurd h2 h
  obtain ⟨s1, u, hs1, hentry, hk1⟩ := hconnect
  have hobs : ∀ p ∈ polls, ∀ x, some x ∈ p → x.index ∈ mapKeys s1.globalGamepads := by
    intro p hp x hx
    rw [hk1]
    rcases hpolls p hp x hx with e | e
    · rw [e]; exact List.mem_append_right _ (List.mem_singleton_self _)
    · exact List.mem_append_left _ ((mapHas_iff_mem_keys _ _).1 e)
  have hk2 : mapKeys (refreshGamepadsEach polls s1).globalGamepads =
      mapKeys s.globalGamepads ++ [g.index] := by
    rw [mapKeys_refreshGamepadsEach, hk1]
  have hk3 : mapKeys (removeGamepad gd (refreshGamepadsEach polls s1)).globalGamepads =
      mapKeys s.globalGamepads := by
    simp only [removeGamepad, requestAnimationFrame_globalGamepads, mapKeys_mapDelete, hk2, hd]
    exact filter_ne_append_self _ _ hnot
  have hlen : (removeGamepad gd (refreshGamepadsEach polls s1)).globalGamepads.length =
      s.globalGamepads.length := by
    have := congrArg List.length hk3
    simpa [mapKeys] using this
  refine ⟨s1, u, hs1, hentry, hk1,
    updateGamepadsEach_eq_refreshGamepadsEach lib polls s1 hobs, hk2, hk3, ?_, hlen, ?_⟩
  · cases hh : mapHas (removeGamepad gd (refreshGamepadsEach polls s1)).globalGamepads g.index
    · rfl
    · rw [mapHas_iff_mem_keys, hk3] at hh
      exact absurd hh hnot
  · intro he
    rw [he] at hlen
    exact List.length_eq_zero.1 hlen

theorem connect_polls_disconnect_witness :
    readyState.globalGamepads = [] ∧
    getUserProfile readyState.store
      (fallbackLibrary.profileName
        (selectVisualizationProfile fallbackLibrary (plainGamepad 2 "Pad 2"))) .undefined =
      some [("profileName", .str "Default"), ("color", .str "#ff0000")] ∧
    mapHas readyState.globalGamepads (plainGamepad 2 "Pad 2").index = false ∧
    (∃ s1 u, addGamepad fallbackLibrary (plainGamepad 2 "Pad 2") readyState = .ok () s1 ∧
      mapGet s1.globalGamepads (plainGamepad 2 "Pad 2").index =
        some ⟨plainGamepad 2 "Pad 2",
          selectVisualizationProfile fallbackLibrary (plainGamepad 2 "Pad 2"), some u⟩ ∧
      mapKeys s1.globalGamepads = mapKeys readyState.globalGamepads ++ [2] ∧
      updateGamepadsEach fallbackLibrary
          [[none, none, some (plainGamepad 2 "Pad 2")], [some (plainGamepad 2 "Pad 2")]] s1 =
        .ok () (refreshGamepadsEach
          [[none, none, some (plainGamepad 2 "Pad 2")], [some (plainGamepad 2 "Pad 2")]] s1) ∧
      mapKeys (refreshGamepadsEach
          [[none, none, some (plainGamepad 2 "Pad 2")], [some (plainGamepad 2 "Pad 2")]]
          s1).globalGamepads = mapKeys readyState.globalGamepads ++ [2] ∧
      mapKeys (removeGamepad (plainGamepad 2 "Pad 2") (refreshGamepadsEach
          [[none, none, some (plainGamepad 2 "Pad 2")], [some (plainGamepad 2 "Pad 2")]]
          s1)).globalGamepads = mapKeys readyState.globalGamepads ∧
      mapHas (removeGamepad (plainGamepad 2 "Pad 2") (refreshGamepadsEach
          [[none, none, some (plainGamepad 2 "Pad 2")], [some (plainGamepad 2 "Pad 2")]]
          s1)).globalGamepads 2 = false ∧
      (removeGamepad (plainGamepad 2 "Pad 2") (refreshGamepadsEach
          [[none, none, some (plainGamepad 2 "Pad 2")], [some (plainGamepad 2 "Pad 2")]]
          s1)).globalGamepads.length = readyState.globalGamepads.length ∧
      (readyState.globalGamepads = [] →
        (removeGamepad (plainGamepad 2 "Pad 2") (refreshGamepadsEach
          [[none, none, some (plainGamepad 2 "Pad 2")], [some (plainGamepad 2 "Pad 2")]]
          s1)).globalGamepads = [])) :=
  ⟨rfl, by decide, by decide,
    connect_polls_disconnect fallbackLibrary (plainGamepad 2 "Pad 2") (plainGamepad 2 "Pad 2")
      [[none, none, some (plainGamepad 2 "Pad 2")], [some (plainGamepad 2 "Pad 2")]] readyState
      (by decide) rfl (Or.inr (by decide))
      (by
        intro p hp x hx
        left
        simp only [List.mem_cons, List.mem_singleton, List.not_mem_nil, or_false] at hp
        rcases hp with rfl | rfl
        · simp only [List.mem_cons, List.mem_singleton, List.not_mem_nil, or_false,
            Option.some.injEq] at hx
          rcases hx with h | h | h
          · cases h
          · cases h
          · rw [h]
        · simp only [List.mem_singleton, Option.some.injEq] at hx
          rw [hx])⟩

/-! ## The render loop -/

/-- C7 fails as stated: the very first call of `loop` (delta 0) on the initial state
cancels the pending request and then draws the placeholder frame before it
requests a new frame. -/
theorem loop_zero_delta_draws_counterexample :
    (loop fallbackLibrary [] 5 (initialState 800 200)).state?.map (fun t => t.effects) =
      some [Effect.cancelAnimationFrame none,
        Effect.clearRect 800 200,
        Effect.fillRect "#DCDCDC" 800 200,
        Effect.fillRect "rgba(255,255,255,0.35)" 800 200,
        Effect.fillText "20px Helvetica" "Connect a" 355 50,
        Effect.fillText "20px Helvetica" "gamepad and" 345 75,
        Effect.fillText "20px Helvetica" "press any" 355 100,
        Effect.fillText "20px Helvetica" "button" 370 125,
        Effect.requestAnimationFrame 0] := by
  decide!

theorem loop_of_zero_delta (lib : ProfileLibrary) (poll : List (Option Gamepad)) (time : ℚ)
    (s : State) (hdelta : s.globalTimeLastFrame = none ∨ s.globalTimeLastFrame = some time) :
    loop lib poll time s =
      match update lib poll 0
          (cancelAnimationFrame { s with globalTimeLastFrame := some time }) with
      | .ok redraw s3 =>
        if redraw = false ∧ s3.globalForceRedraw = false then
          .ok () (requestAnimationFrame (cancelAnimationFrame s3))
        else
          match draw lib s3 with
          | .ok _ s4 => .ok () (requestAnimationFrame { s4 with globalTimeLastFrame := some time })
          | .threw e s4 => .threw e s4
          | .outOfFuel => .outOfFuel
      | .threw e s3 => .threw e s3
      | .outOfFuel => .outOfFuel := by
  rcases hdelta with h | h
  · simp only [loop, h, Option.getD_some, sub_self, if_true]
  · have hs : { s with globalTimeLastFrame := some time } = s := by
      cases s
      simp only at h
      subst h
      rfl
    rw [hs]
    simp only [loop, h, Option.getD_some, sub_self, if_true]

/-- C7, amended: a call of `loop` whose delta is 0 (the time passed equals the recorded
last-frame time, or no time is recorded yet) cancels the pending frame request and
reports a frame rate of 0, and then goes on like any other call.  When the
polling step returns leaving `s1`: if in `s1` no device is registered, the empty
frame is already rendered and no redraw is forced, `loop` cancels the request once
more, requests a new frame and returns without calling `draw`; otherwise it calls
`draw`, records the time passed and requests a new frame. -/
theorem loop_zero_delta (lib : ProfileLibrary) (poll : List (Option Gamepad)) (time : ℚ)
    (s s1 : State)
    (hdelta : s.globalTimeLastFrame = none ∨ s.globalTimeLastFrame = some time)
    (hpoll : updateGamepads lib poll
      (cancelAnimationFrame { s with globalTimeLastFrame := some time }) = .ok () s1) :
    ((s1.globalGamepads = [] ∧ s1.globalEmptyFrameAlreadyRendered = some true ∧
        s1.globalForceRedraw = false) →
      loop lib poll time s =
        .ok () (requestAnimationFrame (cancelAnimationFrame { s1 with fps := 0 }))) ∧
    (¬ (s1.globalGamepads = [] ∧ s1.globalEmptyFrameAlreadyRendered = some true ∧
        s1.globalForceRedraw = false) →
      loop lib poll time s =
        match draw lib { s1 with
            fps := 0
            globalEmptyFrameAlreadyRendered := some (decide (s1.globalGamepads = []))
            globalForceRedraw := false } with
        | .ok _ s4 => .ok () (requestAnimationFrame { s4 with globalTimeLastFrame := some time })
        | .threw e s4 => .threw e s4
        | .outOfFuel => .outOfFuel) := by
  have hl := loop_of_zero_delta lib poll time s hdelta
  have hu := update_of_updateGamepads lib poll 0
    (cancelAnimationFrame { s with globalTimeLastFrame := some time }) s1 hpoll
  constructor
  · intro hc
    rw [hl, hu.1 hc]
    simp [hc.2.2]
  · intro hc
    rw [hl, hu.2 hc]
    simp

theorem loop_zero_delta_witness :
    ((initialState 800 200).globalTimeLastFrame = none ∨
      (initialState 800 200).globalTimeLastFrame = some 5) ∧
    updateGamepads fallbackLibrary []
      (cancelAnimationFrame { initialState 800 200 with globalTimeLastFrame := some 5 }) =
      .ok () (cancelAnimationFrame { initialState 800 200 with globalTimeLastFrame := some 5 }) ∧
    loop fallbackLibrary [] 5 (initialState 800 200) =
      match draw fallbackLibrary
          { cancelAnimationFrame { initialState 800 200 with globalTimeLastFrame := some 5 } with
            fps := 0
            globalEmptyFrameAlreadyRendered := some (decide
              ((cancelAnimationFrame
                { initialState 800 200 with globalTimeLastFrame := some 5 }).globalGamepads = []))
            globalForceRedraw := false } with
      | .ok _ s4 => .ok () (requestAnimationFrame { s4 with globalTimeLastFrame := some 5 })
      | .threw e s4 => .threw e s4
      | .outOfFuel => .outOfFuel :=
  ⟨Or.inl rfl, rfl,
    (loop_zero_delta fallbackLibrary [] 5 (initialState 800 200) _ (Or.inl rfl) rfl).2
      (by decide)⟩

/-- C8: with an empty registry and polls that observe no device, two calls of
`update` in a row (whatever the deltas) end with the second call returning
`false`; when `globalForceRedraw` is set to `true` between the two calls the
second call returns `true`. -/
theorem update_twice_without_devices (lib : ProfileLibrary) (poll1 poll2 : List (Option Gamepad))
    (d1 d2 : ℚ) (s : State) (hreg : s.globalGamepads = [])
    (h1 : ∀ x ∈ poll1, x = none) (h2 : ∀ x ∈ poll2, x = none) :
    ∃ b s1, update lib poll1 d1 s = .ok b s1 ∧
      update lib poll2 d2 s1 = .ok false { s1 with fps := if d2 = 0 then 0 else 1000 / d2 } ∧
      update lib poll2 d2 { s1 with globalForceRedraw := true } =
        .ok true { s1 with
          fps := if d2 = 0 then 0 else 1000 / d2
          globalEmptyFrameAlreadyRendered := some true
          globalForceRedraw := false } := by
  have hp1 := updateGamepads_of_empty_slots lib poll1 s h1
  have hu1 := update_of_updateGamepads lib poll1 d1 s s hp1
  have key : ∀ t : State, t.globalGamepads = [] → t.globalEmptyFrameAlreadyRendered = some true →
      t.globalForceRedraw = false →
      update lib poll2 d2 t = .ok false { t with fps := if d2 = 0 then 0 else 1000 / d2 } ∧
      update lib poll2 d2 { t with globalForceRedraw := true } =
        .ok true { t with
          fps := if d2 = 0 then 0 else 1000 / d2
          globalEmptyFrameAlreadyRendered := some true
          globalForceRedraw := false } := by
    intro t ht1 ht2 ht3
    constructor
    · exact (update_of_updateGamepads lib poll2 d2 t t
        (updateGamepads_of_empty_slots lib poll2 t h2)).1 ⟨ht1, ht2, ht3⟩
    · have := (update_of_updateGamepads lib poll2 d2 { t with globalForceRedraw := true }
        _ (updateGamepads_of_empty_slots lib poll2 _ h2)).2 (by simp)
      rw [this]
      simp [ht1]
  by_cases hc : s.globalEmptyFrameAlreadyRendered = some true ∧ s.globalForceRedraw = false
  · exact ⟨false, _, hu1.1 ⟨hreg, hc⟩, key _ hreg hc.1 hc.2⟩
  · exact ⟨true, _, hu1.2 (fun h => hc h.2), key _ hreg (by simp [hreg]) rfl⟩

theorem update_twice_without_devices_witness :
    (initialState 800 200).globalGamepads = [] ∧
    ∃ b s1, update fallbackLibrary [none, none] 16 (initialState 800 200) = .ok b s1 ∧
      update fallbackLibrary [none] 17 s1 =
        .ok false { s1 with fps := if (17 : ℚ) = 0 then 0 else 1000 / 17 } ∧
      update fallbackLibrary [none] 17 { s1 with globalForceRedraw := true } =
        .ok true { s1 with
          fps := if (17 : ℚ) = 0 then 0 else 1000 / 17
          globalEmptyFrameAlreadyRendered := some true
          globalForceRedraw := false } :=
  ⟨rfl, update_twice_without_devices fallbackLibrary [none, none] [none] 16 17
    (initialState 800 200) rfl (by decide) (by decide)⟩

/-! ## Export and import -/

theorem objKeys_objSet (o : JsObject) (k : String) (v : JsValue) :
    objKeys (objSet o k v) = if k ∈ objKeys o then objKeys o else objKeys o ++ [k] := by
  induction o with
  | nil => simp [objSet, objKeys]
  | cons p t ih =>
    obtain ⟨a, b⟩ := p
    simp only [objKeys] at ih
    by_cases h : a = k
    · simp [objSet, objKeys, h]
    · have h2 : ¬ k = a := fun e => h e.symm
      simp only [objSet, h, if_false, objKeys, List.map_cons, List.mem_cons, h2, false_or, ih]
      split <;> simp

theorem nodup_objKeys_objSet (o : JsObject) (k : String) (v : JsValue)
    (h : (objKeys o).Nodup) : (objKeys (objSet o k v)).Nodup := by
  rw [objKeys_objSet]
  split
  · exact h
  · next hk =>
    rw [List.nodup_append]
    refine ⟨h, List.nodup_singleton k, ?_⟩
    intro a ha hb
    simp only [List.mem_singleton] at hb
    subst hb
    exact hk ha

theorem nodup_objKeys_objAssign (o src : JsObject) (h : (objKeys o).Nodup) :
    (objKeys (objAssign o src)).Nodup := by
  simp only [objAssign]
  induction src generalizing o with
  | nil => exact h
  | cons p t ih => exact ih _ (nodup_objKeys_objSet o p.1 p.2 h)

theorem objGet_jsonRoundTrip (o : JsObject) (h : (objKeys o).Nodup) (k : String) :
    objGet (jsonRoundTrip o) k = objGet o k := by
  induction o with
  | nil => rfl
  | cons p t ih =>
    obtain ⟨a, b⟩ := p
    simp only [objKeys, List.map_cons, List.nodup_cons] at h
    have iht := ih h.2
    simp only [jsonRoundTrip] at iht
    by_cases hb : b = JsValue.undefined
    · subst hb
      by_cases ha : a = k
      · subst ha
        simp only [jsonRoundTrip, List.filter_cons, ne_eq, not_true_eq_false, decide_False,
          Bool.false_eq_true, if_false, objGet, if_true, iht]
        exact objGet_of_not_mem_keys t a h.1
      · simp only [jsonRoundTrip, List.filter_cons, ne_eq, not_true_eq_false, decide_False,
          Bool.false_eq_true, if_false, objGet, ha, iht]
    · by_cases ha : a = k
      · simp [jsonRoundTrip, List.filter_cons, hb, objGet, ha]
      · simp only [jsonRoundTrip, List.filter_cons, ne_eq, hb, not_false_eq_true, decide_True,
          if_true, objGet, ha, if_false, iht]

theorem find?_replaceProfile (vp : String) (name : JsValue) (u : UserProfile)
    (hu : objGet u "profileName" = name) (ps : List (String × UserProfile))
    (h : (((ps.filter (fun p => p.1 = vp)).map Prod.snd).find?
      (fun a => objGet a "profileName" = name)).isSome = true) :
    (((replaceProfile vp name u ps).filter (fun p => p.1 = vp)).map Prod.snd).find?
      (fun a => objGet a "profileName" = name) = some u := by
  induction ps with
  | nil => simp at h
  | cons p t ih =>
    obtain ⟨a, b⟩ := p
    by_cases h1 : a = vp ∧ objGet b "profileName" = name
    · simp [replaceProfile, h1, List.filter_cons, hu]
    · by_cases ha : a = vp
      · have hb : ¬ objGet b "profileName" = name := fun e => h1 ⟨ha, e⟩
        simp only [List.filter_cons, ha, decide_True, if_true, List.map_cons, List.find?_cons,
          hb, decide_False] at h
        simp only [replaceProfile, ha, hb, and_false, if_false, List.filter_cons, decide_True,
          if_true, List.map_cons, List.find?_cons, decide_False]
        exact ih h
      · simp only [List.filter_cons, ha, decide_False, Bool.false_eq_true, if_false] at h
        simp only [replaceProfile, ha, false_and, if_false, List.filter_cons, decide_False,
          Bool.false_eq_true]
        exact ih h

theorem objDelete_cons_eq (t : JsObject) (j : String) (b : JsValue) :
    objDelete ((j, b) :: t) j = objDelete t j := by
  simp [objDelete]

theorem objDelete_cons_ne (t : JsObject) (a j : String) (b : JsValue) (h : a ≠ j) :
    objDelete ((a, b) :: t) j = (a, b) :: objDelete t j := by
  simp [objDelete, h]

theorem objHas_objDelete (o : JsObject) (j k : String) :
    objHas (objDelete o j) k = true ↔ objHas o k = true ∧ k ≠ j := by
  induction o with
  | nil => simp [objDelete, objHas]
  | cons p t ih =>
    obtain ⟨a, b⟩ := p
    by_cases haj : a = j
    · subst haj
      rw [objDelete_cons_eq, ih]
      by_cases hak : a = k
      · subst hak
        simp [objHas]
      · simp [objHas, hak]
    · rw [objDelete_cons_ne _ _ _ _ haj]
      by_cases hak : a = k
      · subst hak
        simp [objHas, haj]
      · simp only [objHas, hak, if_false]
        exact ih

theorem objGet_objDelete_ne (o : JsObject) (j k : String) (hkj : k ≠ j) :
    objGet (objDelete o j) k = objGet o k := by
  induction o with
  | nil => rfl
  | cons p t ih =>
    obtain ⟨a, b⟩ := p
    by_cases haj : a = j
    · subst haj
      have hak : ¬ a = k := fun e => hkj e.symm
      rw [objDelete_cons_eq, ih]
      simp [objGet, hak]
    · rw [objDelete_cons_ne _ _ _ _ haj]
      by_cases hak : a = k
      · simp [objGet, hak]
      · simp only [objGet, hak, if_false]
        exact ih

/-- The store keeps every field of a profile but the two that the export adds. -/
theorem objGet_withoutExportMetadata (u : UserProfile) (k : String)
    (h1 : k ≠ "gamepadId") (h2 : k ≠ "visualizationProfile") :
    objGet (withoutExportMetadata u) k = objGet u k := by
  simp only [withoutExportMetadata]
  rw [objGet_objDelete_ne _ _ _ h2, objGet_objDelete_ne _ _ _ h1]

theorem objHas_withoutExportMetadata (u : UserProfile) (k : String) :
    objHas (withoutExportMetadata u) k = true ↔
      (objHas u k = true ∧ k ≠ "gamepadId" ∧ k ≠ "visualizationProfile") := by
  simp only [withoutExportMetadata]
  rw [objHas_objDelete, objHas_objDelete]
  tauto

/-- Modelled store: an upsert followed by the lookup under the same name returns the
upserted profile, without the export metadata. -/
theorem getUserProfile_addOrUpdateUserProfiles (st : UserProfileStore) (vp : String)
    (u : UserProfile) (hn : objGet u "profileName" ≠ JsValue.undefined) :
    getUserProfile (addOrUpdateUserProfiles st vp u).1 vp (objGet u "profileName") =
      some (withoutExportMetadata u) := by
  have hname : objGet (withoutExportMetadata u) "profileName" = objGet u "profileName" :=
    objGet_withoutExportMetadata u _ (by decide) (by decide)
  simp only [getUserProfile, hn, if_false]
  simp only [addOrUpdateUserProfiles]
  cases hf : findUserProfile st vp (objGet u "profileName") with
  | some old =>
    simp only [findUserProfile, getUserProfiles]
    apply find?_replaceProfile vp _ (withoutExportMetadata u) hname
    simp only [findUserProfile, getUserProfiles] at hf
    rw [hf]; rfl
  | none =>
    simp only [findUserProfile, getUserProfiles] at hf ⊢
    simp only [List.filter_append, List.map_append, List.find?_append, hf]
    simp [hname]

theorem mapGet_setUserProfile_self (k : Nat) (u : Option UserProfile) (s : State)
    (info : GamepadInfo) (h : mapGet s.globalGamepads k = some info) :
    mapGet (setUserProfile k u s).globalGamepads k = some { info with userProfile := u } := by
  simp only [setUserProfile]
  exact mapGet_mapSetUserProfile_self _ _ _ info h

theorem importUserProfile_of_named (lib : ProfileLibrary) (g : Gamepad)
    (vp : VisualizationProfile) (doc : UserProfile) (s : State) (info : GamepadInfo)
    (hreg : mapGet s.globalGamepads g.index = some info)
    (hvp : info.visualizationProfile = vp)
    (hname : objGet doc "profileName" ≠ JsValue.undefined) :
    ∃ t, (importUserProfile lib g vp (some doc) s).state? = some t ∧
      t.store = (addOrUpdateUserProfiles s.store (lib.profileName vp) doc).1 ∧
      mapGet t.globalGamepads g.index =
        some ⟨info.gamepad, vp, some (withoutExportMetadata doc)⟩ := by
  have hstore := getUserProfile_addOrUpdateUserProfiles s.store (lib.profileName vp) doc hname
  have hfind : findUserProfile (addOrUpdateUserProfiles s.store (lib.profileName vp) doc).1
      (lib.profileName vp) (objGet doc "profileName") = some (withoutExportMetadata doc) := by
    simpa only [getUserProfile, hname, if_false] using hstore
  have hlisted : profileNameListed (addOrUpdateUserProfiles s.store (lib.profileName vp) doc).1
      (lib.profileName vp) (withoutExportMetadata doc) = true :=
    profileNameListed_of_find _ _ _ _ hfind
  have hhas : mapHas s.globalGamepads g.index = true := by
    simp only [mapHas, hreg]; rfl
  have himp : importUserProfile lib g vp (some doc) s =
      updateGamepadListElements lib
        { setUserProfile g.index (some (withoutExportMetadata doc))
            { s with store := (addOrUpdateUserProfiles s.store (lib.profileName vp) doc).1 } with
          globalForceRedraw := true } := by
    simp only [importUserProfile, hhas, if_true, hstore]
  have hentry : mapGet
      ({ setUserProfile g.index (some (withoutExportMetadata doc))
            { s with store := (addOrUpdateUserProfiles s.store (lib.profileName vp) doc).1 } with
          globalForceRedraw := true } : State).globalGamepads g.index =
      some ⟨info.gamepad, vp, some (withoutExportMetadata doc)⟩ := by
    have := mapGet_setUserProfile_self g.index (some (withoutExportMetadata doc))
      { s with store := (addOrUpdateUserProfiles s.store (lib.profileName vp) doc).1 } info hreg
    rw [← hvp]
    exact this
  rw [himp]
  cases hr : updateGamepadListElements lib
      { setUserProfile g.index (some (withoutExportMetadata doc))
            { s with store := (addOrUpdateUserProfiles s.store (lib.profileName vp) doc).1 } with
          globalForceRedraw := true } with
  | outOfFuel => exact absurd hr (updateGamepadListElements_ne_outOfFuel lib _)
  | ok v t =>
    have hb := updateGamepadListElements_rebuilt lib _ t (by rw [hr]; rfl)
    exact ⟨t, rfl, (rebuilt_store_eq hb).trans rfl, hb.2.2 g.index _ hentry hlisted⟩
  | threw e t =>
    have hb := updateGamepadListElements_rebuilt lib _ t (by rw [hr]; rfl)
    exact ⟨t, rfl, (rebuilt_store_eq hb).trans rfl, hb.2.2 g.index _ hentry hlisted⟩

/-- C9 at a failing input: for device 0 of `noNameState`, whose user profile is named
`"No name"`, `exportUserProfile` downloads a document whose name keeps the blank of
the profile name, while the blanks of the device id and of the visualization
profile name are replaced. -/
theorem exportUserProfile_keeps_profile_name_whitespace :
    exportUserProfile fallbackLibrary (plainGamepad 0 "Pad 0") noNameState =
      .ok () (emit (Effect.download "Pad_0-Unknown_Controller-No name.json"
          [("profileName", .str "No name"), ("color", .str "#0000ff"),
            ("gamepadId", .str "Pad 0"), ("visualizationProfile", .str "Unknown Controller")])
        (setUserProfile 0 (some [("profileName", .str "No name"), ("color", .str "#0000ff"),
          ("gamepadId", .str "Pad 0"), ("visualizationProfile", .str "Unknown Controller")])
          noNameState)) ∧
    isJsWhitespace (Char.ofNat 32) = true ∧
    Char.ofNat 32 ∈ "Pad_0-Unknown_Controller-No name".data := by
  decide

/-- C2 at a failing input: with the devices registered under the indices 1 and 2 on an
800 by 200 canvas, `draw` passes the centre x = 460 to the first device (the
layout of the claim gives 330) and raises a `TypeError` when it reads the size of
the second one. -/
theorem drawGamepads_sparse_indices :
    draw fallbackLibrary twoPadsState =
      .threw "TypeError: gamePadSizes[gamepadIndex] is undefined"
        (emit (Effect.profileDraw .XBoxOne360ControllerChromium 460 100 (plainGamepad 1 "Pad 1")
            [("drawAlphaMask", .bool false), ("profileName", .str "Default")])
          (emit (Effect.fillRect "rgba(255,255,255,0.35)" 800 200)
            (emit (Effect.clearRect 800 200) { twoPadsState with globalForceRedraw := false }))) ∧
    gamepadCentre fallbackLibrary 800 200 twoPadsState.globalGamepads 1 = some (460, 100) ∧
    gamepadCentre fallbackLibrary 800 200 twoPadsState.globalGamepads 2 = none ∧
    ((800 : ℚ) - ((100 + 120) + 20 * (2 - 1))) / 2 + 0 + 20 * 0 + 100 / 2 = 330 := by
  decide!

/-! ## Import of a user profile -/

theorem forEachKey_keeps_undefined (f : Nat → State → Res Unit)
    (hf : ∀ j s t, (f j s).state? = some t → ∀ k info, mapGet s.globalGamepads k = some info →
      info.userProfile = none → mapGet t.globalGamepads k = some info) :
    ∀ ks s t, (forEachKey f ks s).state? = some t → ∀ k info,
      mapGet s.globalGamepads k = some info → info.userProfile = none →
      mapGet t.globalGamepads k = some info := by
  intro ks
  induction ks with
  | nil =>
    intro s t h k info hg _
    simp only [forEachKey, Res.state?, Option.some.injEq] at h
    subst h
    exact hg
  | cons j js ih =>
    intro s t h k info hg hu
    simp only [forEachKey] at h
    cases hj : f j s with
    | ok v s1 =>
      rw [hj] at h
      exact ih s1 t h k info (hf j s s1 (by rw [hj]; rfl) k info hg hu) hu
    | threw e s1 =>
      rw [hj] at h
      simp only [Res.state?, Option.some.injEq] at h
      subst h
      exact hf j s s1 (by rw [hj]; rfl) k info hg hu
    | outOfFuel =>
      rw [hj] at h
      simp [Res.state?] at h

theorem addGamepadListElementWith_keeps_undefined (lib : ProfileLibrary)
    (rebuild : State → Res Unit)
    (hr : ∀ s t, (rebuild s).state? = some t → ∀ k info, mapGet s.globalGamepads k = some info →
      info.userProfile = none → mapGet t.globalGamepads k = some info) :
    ∀ j s t, (addGamepadListElementWith rebuild lib j s).state? = some t → ∀ k info,
      mapGet s.globalGamepads k = some info → info.userProfile = none →
      mapGet t.globalGamepads k = some info := by
  intro j s t h k info hg hu
  simp only [addGamepadListElementWith] at h
  split at h
  · simp only [Res.state?, Option.some.injEq] at h; subst h; exact hg
  · next jinfo hj =>
    split at h
    · simp only [Res.state?, Option.some.injEq] at h; subst h; exact hg
    · next u hju =>
      split at h
      · simp only [Res.state?, Option.some.injEq] at h; subst h; exact hg
      · split at h
        · simp only [Res.state?, Option.some.injEq] at h; subst h; exact hg
        · next d hd =>
          apply hr _ t h k info _ hu
          have hne : k ≠ j := by
            rintro rfl
            rw [hg] at hj
            cases hj
            rw [hu] at hju
            cases hju
          simp only [setUserProfile]
          rw [mapGet_mapSetUserProfile_ne _ _ _ _ hne]
          exact hg

theorem updateGamepadListElementsFuel_keeps_undefined (lib : ProfileLibrary) :
    ∀ n s t, (updateGamepadListElementsFuel lib n s).state? = some t → ∀ k info,
      mapGet s.globalGamepads k = some info → info.userProfile = none →
      mapGet t.globalGamepads k = some info := by
  intro n
  induction n with
  | zero => intro s t h; simp [updateGamepadListElementsFuel, Res.state?] at h
  | succ n ih =>
    intro s t h
    simp only [updateGamepadListElementsFuel] at h
    exact forEachKey_keeps_undefined _ (addGamepadListElementWith_keeps_undefined lib _ ih) _ s t h

/-- The rebuild of the list elements leaves alone an entry whose user profile is
`undefined`. -/
theorem updateGamepadListElements_keeps_undefined (lib : ProfileLibrary) (s t : State)
    (h : (updateGamepadListElements lib s).state? = some t) (k : Nat) (info : GamepadInfo)
    (hg : mapGet s.globalGamepads k = some info) (hu : info.userProfile = none) :
    mapGet t.globalGamepads k = some info :=
  updateGamepadListElementsFuel_keeps_undefined lib _ s t h k info hg hu

/-- The user profile that `importUserProfile` assigns to the device: the stored
profile of the uploaded name, else the default. -/
theorem getUserProfile_listed (st : UserProfileStore) (vp : String) (name : JsValue)
    (p : UserProfile) (h : getUserProfile st vp name = some p) :
    profileNameListed st vp p = true := by
  by_cases hn : name = JsValue.undefined
  · subst hn
    exact profileNameListed_default st vp p h
  · simp only [getUserProfile, hn, if_false] at h
    exact profileNameListed_of_find st vp name p h

/-- What `importUserProfile` with a defined profile leaves behind when it is called
with the visualization profile of the entry of the device. -/
theorem importUserProfile_of_defined (lib : ProfileLibrary) (g : Gamepad)
    (V : VisualizationProfile) (U : UserProfile) (s : State) (info : GamepadInfo)
    (hreg : mapGet s.globalGamepads g.index = some info)
    (hV : info.visualizationProfile = V) :
    ∃ t, (importUserProfile lib g V (some U) s).state? = some t ∧
      t.store = (addOrUpdateUserProfiles s.store (lib.profileName V) U).1 ∧
      mapGet t.globalGamepads g.index = some ⟨info.gamepad, V,
        match getUserProfile (addOrUpdateUserProfiles s.store (lib.profileName V) U).1
            (lib.profileName V) (objGet U "profileName") with
        | some p => some p
        | none => getUserProfile (addOrUpdateUserProfiles s.store (lib.profileName V) U).1
            (lib.profileName V) .undefined⟩ ∧
      t.globalForceRedraw = true ∧
      t.globalUploadedUserProfile = s.globalUploadedUserProfile := by
  subst hV
  have hhas : mapHas s.globalGamepads g.index = true := by
    simp only [mapHas, hreg]; rfl
  have key : ∀ (resolved : Option UserProfile) (s3 : State),
      s3.store = (addOrUpdateUserProfiles s.store (lib.profileName info.visualizationProfile) U).1 →
      s3.globalForceRedraw = true →
      s3.globalUploadedUserProfile = s.globalUploadedUserProfile →
      mapGet s3.globalGamepads g.index = some ⟨info.gamepad, info.visualizationProfile, resolved⟩ →
      (∀ p, resolved = some p → profileNameListed s3.store (lib.profileName info.visualizationProfile) p = true) →
      ∃ t, (updateGamepadListElements lib s3).state? = some t ∧
        t.store = (addOrUpdateUserProfiles s.store (lib.profileName info.visualizationProfile) U).1 ∧
        mapGet t.globalGamepads g.index = some ⟨info.gamepad, info.visualizationProfile, resolved⟩ ∧
        t.globalForceRedraw = true ∧
        t.globalUploadedUserProfile = s.globalUploadedUserProfile := by
    intro resolved s3 hst hforce hup hget hlisted
    have hex : ∃ t, (updateGamepadListElements lib s3).state? = some t := by
      cases hr : updateGamepadListElements lib s3 with
      | outOfFuel => exact absurd hr (updateGamepadListElements_ne_outOfFuel lib s3)
      | ok v t => exact ⟨t, rfl⟩
      | threw e t => exact ⟨t, rfl⟩
    obtain ⟨t, ht⟩ := hex
    have hb := updateGamepadListElements_rebuilt lib s3 t ht
    refine ⟨t, ht, ?_, ?_, ?_, ?_⟩
    · rw [rebuilt_store_eq hb, hst]
    · cases hres : resolved with
      | none =>
        subst hres
        exact updateGamepadListElements_keeps_undefined lib s3 t ht g.index _ hget rfl
      | some p =>
        subst hres
        exact hb.2.2 g.index _ hget (by simpa only [entryListed] using hlisted p rfl)
    · rw [hb.1]
      exact hforce
    · rw [hb.1]
      exact hup
  cases hnamed : getUserProfile (addOrUpdateUserProfiles s.store (lib.profileName info.visualizationProfile) U).1
      (lib.profileName info.visualizationProfile) (objGet U "profileName") with
  | some p =>
    have himp : importUserProfile lib g info.visualizationProfile (some U) s =
        updateGamepadListElements lib
          { setUserProfile g.index (some p)
              { s with store := (addOrUpdateUserProfiles s.store (lib.profileName info.visualizationProfile) U).1 } with
            globalForceRedraw := true } := by
      simp only [importUserProfile, hhas, if_true, hnamed]
    rw [himp]
    refine key (some p) _ ?_ ?_ ?_ ?_ ?_
    · rfl
    · rfl
    · rfl
    · have := mapGet_setUserProfile_self g.index (some p)
        { s with store := (addOrUpdateUserProfiles s.store (lib.profileName info.visualizationProfile) U).1 } info hreg
      exact this
    · intro q hq
      cases hq
      exact getUserProfile_listed _ _ _ _ hnamed
  | none =>
    have himp : importUserProfile lib g info.visualizationProfile (some U) s =
        updateGamepadListElements lib
          { setUserProfile g.index
              (getUserProfile (addOrUpdateUserProfiles s.store (lib.profileName info.visualizationProfile) U).1
                (lib.profileName info.visualizationProfile) .undefined)
              (setUserProfile g.index none
                { s with store := (addOrUpdateUserProfiles s.store (lib.profileName info.visualizationProfile) U).1 }) with
            globalForceRedraw := true } := by
      simp only [importUserProfile, hhas, if_true, hnamed]
      rfl
    rw [himp]
    refine key _ _ ?_ ?_ ?_ ?_ ?_
    · rfl
    · rfl
    · rfl
    · have h1 := mapGet_setUserProfile_self g.index none
        { s with store := (addOrUpdateUserProfiles s.store (lib.profileName info.visualizationProfile) U).1 } info hreg
      have h2 := mapGet_setUserProfile_self g.index
        (getUserProfile (addOrUpdateUserProfiles s.store (lib.profileName info.visualizationProfile) U).1
          (lib.profileName info.visualizationProfile) .undefined) _ _ h1
      exact h2
    · intro q hq
      exact getUserProfile_listed _ _ _ _ hq

/-- C11 fails as stated: device 0 of `connectedState` has the fallback visualization
profile; after `importUserProfile` with the Chromium profile and the user profile
named `"Other"`, the store holds `"Other"` under the Chromium profile, but the
active user profile of the device is the default of its own visualization
profile, to which the rebuild of the list elements has reset it. -/
theorem importUserProfile_other_profile_counterexample :
    importUserProfile fallbackLibrary (plainGamepad 0 "Pad 0") .XBoxOne360ControllerChromium
        (some [("profileName", .str "Other")]) connectedState =
      .ok () { connectedState with
        store := ⟨[("Unknown Controller",
            [("profileName", .str "Default"), ("color", .str "#ff0000")]),
          ("XBox Controller Chromium", [("profileName", .str "Other")])], [],
          [("Unknown Controller", "Default")]⟩
        globalForceRedraw := true } ∧
    mapGet connectedState.globalGamepads 0 =
      some ⟨plainGamepad 0 "Pad 0", .UnknownController,
        some [("profileName", .str "Default"), ("color", .str "#ff0000")]⟩ ∧
    getUserProfile (addOrUpdateUserProfiles connectedState.store "XBox Controller Chromium"
        [("profileName", .str "Other")]).1 "XBox Controller Chromium" (.str "Other") =
      some [("profileName", .str "Other")] := by
  decide

/-- C11, amended: for every registered device, `importUserProfile` with an undefined
profile returns without changing the state; with a defined profile `U` and with
`V` the visualization profile of the entry of the device, it upserts `U` into the
store under `V`, leaves the device with the profile that the store then holds
under the name `U.profileName` for `V`, or with the default of `V` (possibly
`undefined`) when that lookup finds nothing, leaves the snapshot and the
visualization profile of the entry unchanged and sets the force-redraw flag. -/
theorem importUserProfile_effect (lib : ProfileLibrary) (g : Gamepad)
    (V : VisualizationProfile) (U : UserProfile) (s : State) (info : GamepadInfo)
    (hreg : mapGet s.globalGamepads g.index = some info)
    (hV : info.visualizationProfile = V) :
    importUserProfile lib g V none s = .ok () s ∧
    ∃ t, (importUserProfile lib g V (some U) s).state? = some t ∧
      t.store = (addOrUpdateUserProfiles s.store (lib.profileName V) U).1 ∧
      mapGet t.globalGamepads g.index = some ⟨info.gamepad, V,
        match getUserProfile (addOrUpdateUserProfiles s.store (lib.profileName V) U).1
            (lib.profileName V) (objGet U "profileName") with
        | some p => some p
        | none => getUserProfile (addOrUpdateUserProfiles s.store (lib.profileName V) U).1
            (lib.profileName V) .undefined⟩ ∧
      t.globalForceRedraw = true := by
  have h := importUserProfile_of_defined lib g V U s info hreg hV
  obtain ⟨t, h1, h2, h3, h4, _⟩ := h
  exact ⟨rfl, t, h1, h2, h3, h4⟩

theorem importUserProfile_effect_witness :
    mapGet drawnConnectedState.globalGamepads (plainGamepad 0 "Pad 0").index =
      some ⟨plainGamepad 0 "Pad 0", .UnknownController,
        some [("profileName", .str "Default"), ("color", .str "#ff0000")]⟩ ∧
    importUserProfile fallbackLibrary (plainGamepad 0 "Pad 0") .UnknownController none
      drawnConnectedState = .ok () drawnConnectedState ∧
    ∃ t, (importUserProfile fallbackLibrary (plainGamepad 0 "Pad 0") .UnknownController
        (some [("profileName", .str "Mine"), ("color", .str "#00ff00")])
        drawnConnectedState).state? = some t ∧
      t.store = (addOrUpdateUserProfiles drawnConnectedState.store
        (fallbackLibrary.profileName .UnknownController)
        [("profileName", .str "Mine"), ("color", .str "#00ff00")]).1 ∧
      mapGet t.globalGamepads (plainGamepad 0 "Pad 0").index =
        some ⟨plainGamepad 0 "Pad 0", .UnknownController,
          some [("profileName", .str "Mine"), ("color", .str "#00ff00")]⟩ ∧
      t.globalForceRedraw = true :=
  ⟨by decide,
    importUserProfile_effect fallbackLibrary (plainGamepad 0 "Pad 0") .UnknownController
      [("profileName", .str "Mine"), ("color", .str "#00ff00")] drawnConnectedState
      ⟨plainGamepad 0 "Pad 0", .UnknownController,
        some [("profileName", .str "Default"), ("color", .str "#ff0000")]⟩ (by decide) rfl⟩

/-- C12 fails as stated: the uploaded text `{"color": "#123456"}` is valid JSON
without a `profileName`; after it has been read, the import button for device 0
of `drawnConnectedState` adds it to the store and sets the force-redraw flag. -/
theorem import_without_profileName_counterexample :
    onImportClick fallbackLibrary (plainGamepad 0 "Pad 0")
        (onImportFileChange (.jsonObject [("color", .str "#123456")]) drawnConnectedState) =
      .ok () { drawnConnectedState with
        globalUploadedUserProfile := some [("color", .str "#123456")]
        store := ⟨[("Unknown Controller",
            [("profileName", .str "Default"), ("color", .str "#ff0000")]),
          ("Unknown Controller", [("color", .str "#123456")])], [],
          [("Unknown Controller", "Default")]⟩
        globalForceRedraw := true } ∧
    drawnConnectedState.globalForceRedraw = false ∧
    drawnConnectedState.store.profiles =
      [("Unknown Controller", [("profileName", .str "Default"), ("color", .str "#ff0000")])] ∧
    objHas [("color", JsValue.str "#123456")] "profileName" = false := by
  decide

/-- C12, amended: for every registered device, when the selected file cannot be read
or its text is not valid JSON, nothing is staged and the import button changes
neither the store, nor the registry, nor the force-redraw flag; when the text is
valid JSON for an object, whatever its keys, the object is staged and the import
button runs `importUserProfile` with it: the object is upserted into the store
under the visualization profile of the device, the device gets the stored
profile of that name or else the default, and the force-redraw flag is set. -/
theorem import_of_uploaded_content (lib : ProfileLibrary) (g : Gamepad) (s : State)
    (info : GamepadInfo) (hreg : mapGet s.globalGamepads g.index = some info) :
    (∀ content, content = FileContent.unreadable ∨ content = FileContent.notJson →
      onImportClick lib g (onImportFileChange content s) =
        .ok () { s with globalUploadedUserProfile := none }) ∧
    (∀ parsed, ∃ t,
      (onImportClick lib g (onImportFileChange (.jsonObject parsed) s)).state? = some t ∧
      t.globalUploadedUserProfile = some parsed ∧
      t.store = (addOrUpdateUserProfiles s.store
        (lib.profileName info.visualizationProfile) parsed).1 ∧
      mapGet t.globalGamepads g.index = some ⟨info.gamepad, info.visualizationProfile,
        match getUserProfile (addOrUpdateUserProfiles s.store
            (lib.profileName info.visualizationProfile) parsed).1
            (lib.profileName info.visualizationProfile) (objGet parsed "profileName") with
        | some p => some p
        | none => getUserProfile (addOrUpdateUserProfiles s.store
            (lib.profileName info.visualizationProfile) parsed).1
            (lib.profileName info.visualizationProfile) .undefined⟩ ∧
      t.globalForceRedraw = true) := by
  constructor
  · intro content hc
    rcases hc with rfl | rfl
    · simp only [onImportClick, onImportFileChange, hreg, importUserProfile]
    · simp only [onImportClick, onImportFileChange, hreg, importUserProfile]
  · intro parsed
    have hreg2 : mapGet ({ s with globalUploadedUserProfile := some parsed } : State).globalGamepads
        g.index = some info := hreg
    obtain ⟨t, h1, h2, h3, h4, h5⟩ := importUserProfile_of_defined lib g info.visualizationProfile
      parsed { s with globalUploadedUserProfile := some parsed } info hreg2 rfl
    have hclick : onImportClick lib g (onImportFileChange (.jsonObject parsed) s) =
        importUserProfile lib g info.visualizationProfile (some parsed)
          { s with globalUploadedUserProfile := some parsed } := by
      simp only [onImportClick, onImportFileChange, hreg]
    exact ⟨t, by rw [hclick]; exact h1, h5, h2, h3, h4⟩

theorem import_of_uploaded_content_witness :
    mapGet drawnConnectedState.globalGamepads (plainGamepad 0 "Pad 0").index =
      some ⟨plainGamepad 0 "Pad 0", .UnknownController,
        some [("profileName", .str "Default"), ("color", .str "#ff0000")]⟩ ∧
    onImportClick fallbackLibrary (plainGamepad 0 "Pad 0")
        (onImportFileChange .notJson drawnConnectedState) =
      .ok () { drawnConnectedState with globalUploadedUserProfile := none } ∧
    ∃ t, (onImportClick fallbackLibrary (plainGamepad 0 "Pad 0")
        (onImportFileChange (.jsonObject [("color", .str "#123456")])
          drawnConnectedState)).state? = some t ∧
      t.globalUploadedUserProfile = some [("color", .str "#123456")] ∧
      t.store = (addOrUpdateUserProfiles drawnConnectedState.store
        (fallbackLibrary.profileName .UnknownController) [("color", .str "#123456")]).1 ∧
      mapGet t.globalGamepads (plainGamepad 0 "Pad 0").index =
        some ⟨plainGamepad 0 "Pad 0", .UnknownController,
          some [("profileName", .str "Default"), ("color", .str "#ff0000")]⟩ ∧
      t.globalForceRedraw = true :=
  ⟨by decide,
    (import_of_uploaded_content fallbackLibrary (plainGamepad 0 "Pad 0") drawnConnectedState
      ⟨plainGamepad 0 "Pad 0", .UnknownController,
        some [("profileName", .str "Default"), ("color", .str "#ff0000")]⟩ (by decide)).1
      .notJson (Or.inr rfl),
    (import_of_uploaded_content fallbackLibrary (plainGamepad 0 "Pad 0") drawnConnectedState
      ⟨plainGamepad 0 "Pad 0", .UnknownController,
        some [("profileName", .str "Default"), ("color", .str "#ff0000")]⟩ (by decide)).2
      [("color", .str "#123456")]⟩

/-! ## Refresh of registered devices -/

theorem refreshGamepad_frame (g : Gamepad) (s : State) :
    refreshGamepad g s = { s with globalGamepads := (refreshGamepad g s).globalGamepads } := by
  simp only [refreshGamepad]
  split <;> rfl

theorem mapGet_refreshGamepad_self (g : Gamepad) (s : State) (info : GamepadInfo)
    (h : mapGet s.globalGamepads g.index = some info) :
    mapGet (refreshGamepad g s).globalGamepads g.index =
      some ⟨g, info.visualizationProfile, info.userProfile⟩ := by
  simp only [refreshGamepad, h]
  exact mapGet_mapSet_self _ _ _

theorem mapGet_refreshGamepad_ne (g : Gamepad) (s : State) (k : Nat) (h : k ≠ g.index) :
    mapGet (refreshGamepad g s).globalGamepads k = mapGet s.globalGamepads k := by
  simp only [refreshGamepad]
  split
  · exact mapGet_mapSet_ne _ _ _ _ h
  · rfl

theorem refreshGamepads_frame (poll : List (Option Gamepad)) (s : State) :
    refreshGamepads poll s = { s with globalGamepads := (refreshGamepads poll s).globalGamepads } := by
  induction poll generalizing s with
  | nil => rfl
  | cons x rest ih =>
    cases x with
    | none => exact ih s
    | some g =>
      simp only [refreshGamepads]
      rw [ih (refreshGamepad g s)]
      rw [refreshGamepad_frame g s]

theorem mapGet_refreshGamepads_of_not_polled (poll : List (Option Gamepad)) (s : State) (k : Nat)
    (h : ∀ g, some g ∈ poll → g.index ≠ k) :
    mapGet (refreshGamepads poll s).globalGamepads k = mapGet s.globalGamepads k := by
  induction poll generalizing s with
  | nil => rfl
  | cons x rest ih =>
    cases x with
    | none => exact ih s (fun g hg => h g (List.mem_cons_of_mem _ hg))
    | some g =>
      simp only [refreshGamepads]
      rw [ih (refreshGamepad g s) (fun g2 hg => h g2 (List.mem_cons_of_mem _ hg))]
      exact mapGet_refreshGamepad_ne g s k (fun e => h g (List.mem_cons_self _ _) e.symm)

theorem mapGet_refreshGamepads_of_polled (poll : List (Option Gamepad)) (s : State)
    (hd : (poll.filterMap (fun x => x.map (fun g => g.index))).Nodup)
    (g : Gamepad) (info : GamepadInfo) (hg : some g ∈ poll)
    (hs : mapGet s.globalGamepads g.index = some info) :
    mapGet (refreshGamepads poll s).globalGamepads g.index =
      some ⟨g, info.visualizationProfile, info.userProfile⟩ := by
  induction poll generalizing s with
  | nil => simp at hg
  | cons x rest ih =>
    cases x with
    | none =>
      simp only [List.mem_cons, reduceCtorEq, false_or] at hg
      exact ih s (by simpa using hd) hg hs
    | some g2 =>
      simp only [List.filterMap_cons, Option.map_some', List.nodup_cons, List.mem_filterMap,
        not_exists, not_and] at hd
      simp only [refreshGamepads]
      simp only [List.mem_cons, Option.some.injEq] at hg
      rcases hg with e | hg
      · subst e
        rw [mapGet_refreshGamepads_of_not_polled rest (refreshGamepad g s) g.index]
        · exact mapGet_refreshGamepad_self g s info hs
        · intro g3 hg3 e
          exact hd.1 (some g3) hg3 (by simp [e])
      · have hne : g.index ≠ g2.index := by
          intro e
          exact hd.1 (some g) hg (by simp [e])
        apply ih (refreshGamepad g2 s) hd.2 hg
        rw [mapGet_refreshGamepad_ne g2 s g.index hne]
        exact hs

theorem lastPolled_none_cons (rest : List (Option Gamepad)) (k : Nat) :
    lastPolled (none :: rest) k = lastPolled rest k := by
  simp [lastPolled]

theorem lastPolled_some_cons (g : Gamepad) (rest : List (Option Gamepad)) (k : Nat) :
    lastPolled (some g :: rest) k =
      if g.index = k then some ((lastPolled rest k).getD g) else lastPolled rest k := by
  by_cases h : g.index = k
  · simp [lastPolled, List.filter_cons, h, List.getLast?_cons]
  · simp [lastPolled, List.filter_cons, h]

theorem lastPolled_of_not_polled (poll : List (Option Gamepad)) (k : Nat)
    (h : ∀ g, some g ∈ poll → g.index ≠ k) : lastPolled poll k = none := by
  induction poll with
  | nil => rfl
  | cons x rest ih =>
    have ihr := ih (fun g hg => h g (List.mem_cons_of_mem _ hg))
    cases x with
    | none => rw [lastPolled_none_cons, ihr]
    | some g =>
      rw [lastPolled_some_cons, if_neg (h g (List.mem_cons_self _ _)), ihr]

theorem lastPolled_of_nodup (poll : List (Option Gamepad))
    (hd : (poll.filterMap (fun x => x.map (fun g => g.index))).Nodup)
    (g : Gamepad) (hg : some g ∈ poll) : lastPolled poll g.index = some g := by
  induction poll with
  | nil => simp at hg
  | cons x rest ih =>
    cases x with
    | none =>
      simp only [List.mem_cons, reduceCtorEq, false_or] at hg
      rw [lastPolled_none_cons]
      exact ih (by simpa using hd) hg
    | some g2 =>
      simp only [List.filterMap_cons, Option.map_some', List.nodup_cons, List.mem_filterMap,
        not_exists, not_and] at hd
      simp only [List.mem_cons, Option.some.injEq] at hg
      rw [lastPolled_some_cons]
      rcases hg with e | hg
      · subst e
        rw [if_pos rfl, lastPolled_of_not_polled rest g.index]
        · rfl
        · intro g3 hg3 e
          exact hd.1 (some g3) hg3 (by simp [e])
      · have hne : ¬ g2.index = g.index := by
          intro e
          exact hd.1 (some g) hg (by simp [e])
        rw [if_neg hne]
        exact ih hd.2 hg

theorem playRumble_store (g : Gamepad) (s : State) : (playRumble g s).store = s.store := by
  simp only [playRumble]
  split <;> rfl

theorem refreshGamepad_store (g : Gamepad) (s : State) : (refreshGamepad g s).store = s.store := by
  rw [refreshGamepad_frame g s]

/-- A poll in which the store resolves a user profile for every device that is not
registered yet returns, and leaves every entry registered before with its
visualization profile, its user profile and the last snapshot polled for its
index. -/
theorem updateGamepads_of_resolved (lib : ProfileLibrary) (poll : List (Option Gamepad))
    (s : State)
    (hres : ∀ g, some g ∈ poll → mapHas s.globalGamepads g.index = false →
      getUserProfileLastUsed s.store (lib.profileName (selectVisualizationProfile lib g)) ≠ none ∨
      getUserProfile s.store (lib.profileName (selectVisualizationProfile lib g)) .undefined
        ≠ none) :
    ∃ t, updateGamepads lib poll s = .ok () t ∧ t.store = s.store ∧
      ∀ k info, mapGet s.globalGamepads k = some info →
        mapGet t.globalGamepads k =
          some ⟨(lastPolled poll k).getD info.gamepad, info.visualizationProfile,
            info.userProfile⟩ := by
  induction poll generalizing s with
  | nil => exact ⟨s, rfl, rfl, fun k info h => by rw [h]; rfl⟩
  | cons x rest ih =>
    cases x with
    | none =>
      obtain ⟨t, h1, h2, h3⟩ := ih s (fun g hg => hres g (List.mem_cons_of_mem _ hg))
      refine ⟨t, h1, h2, ?_⟩
      intro k info hk
      rw [lastPolled_none_cons]
      exact h3 k info hk
    | some g =>
      by_cases hg : mapHas s.globalGamepads g.index = true
      · have hstep : updateGamepads lib (some g :: rest) s =
            updateGamepads lib rest (refreshGamepad g s) := by
          simp only [updateGamepads, hg, if_true]
        obtain ⟨t, h1, h2, h3⟩ := ih (refreshGamepad g s) (by
          intro g2 hg2 hn
          rw [refreshGamepad_store]
          apply hres g2 (List.mem_cons_of_mem _ hg2)
          cases hh : mapHas s.globalGamepads g2.index with
          | false => rfl
          | true =>
            rw [mapHas_iff_mem_keys, ← mapKeys_refreshGamepad g s, ← mapHas_iff_mem_keys] at hh
            rw [hh] at hn; cases hn)
        refine ⟨t, by rw [hstep]; exact h1, by rw [h2, refreshGamepad_store], ?_⟩
        intro k info hk
        rw [lastPolled_some_cons]
        by_cases hgk : g.index = k
        · subst hgk
          rw [if_pos rfl, h3 _ _ (mapGet_refreshGamepad_self g s info hk)]
          rfl
        · rw [if_neg hgk]
          apply h3
          rw [mapGet_refreshGamepad_ne g s k (fun e => hgk e.symm)]
          exact hk
      · have hgf : mapHas s.globalGamepads g.index = false := by
          cases hh : mapHas s.globalGamepads g.index with
          | false => rfl
          | true => exact absurd hh hg
        have hadd : ∃ u, addGamepad lib g s = .ok () (requestAnimationFrame (playRumble g
            (registerGamepad g (selectVisualizationProfile lib g) u s))) := by
          cases h1 : getUserProfileLastUsed s.store
              (lib.profileName (selectVisualizationProfile lib g)) with
          | some u => exact ⟨u, addGamepad_of_resolved lib g s u (Or.inl h1)⟩
          | none =>
            cases h2 : getUserProfile s.store
                (lib.profileName (selectVisualizationProfile lib g)) .undefined with
            | some u => exact ⟨u, addGamepad_of_resolved lib g s u (Or.inr ⟨h1, h2⟩)⟩
            | none =>
              rcases hres g (List.mem_cons_self _ _) hgf with h | h
              · exact absurd h1 h
              · exact absurd h2 h
        obtain ⟨u, hu⟩ := hadd
        have hstep : updateGamepads lib (some g :: rest) s =
            updateGamepads lib rest (requestAnimationFrame (playRumble g
              (registerGamepad g (selectVisualizationProfile lib g) u s))) := by
          simp only [updateGamepads, hgf, hu, Bool.false_eq_true, if_false]
        have hstore : (requestAnimationFrame (playRumble g
            (registerGamepad g (selectVisualizationProfile lib g) u s))).store = s.store := by
          show (playRumble g _).store = s.store
          rw [playRumble_store]
          rfl
        have hget : ∀ k, k ≠ g.index → mapGet (requestAnimationFrame (playRumble g
            (registerGamepad g (selectVisualizationProfile lib g) u s))).globalGamepads k =
            mapGet s.globalGamepads k := by
          intro k hk
          rw [requestAnimationFrame_globalGamepads, playRumble_globalGamepads]
          simp only [registerGamepad]
          exact mapGet_mapSet_ne _ _ _ _ hk
        obtain ⟨t, h1, h2, h3⟩ := ih _ (by
          intro g2 hg2 hn
          rw [hstore]
          apply hres g2 (List.mem_cons_of_mem _ hg2)
          by_cases he : g2.index = g.index
          · rw [he]; exact hgf
          · simp only [mapHas] at hn ⊢
            rw [hget _ he] at hn
            exact hn)
        refine ⟨t, by rw [hstep]; exact h1, by rw [h2, hstore], ?_⟩
        intro k info hk
        have hne : k ≠ g.index := by
          intro e
          subst e
          simp only [mapHas, hk] at hgf
          cases hgf
        rw [lastPolled_some_cons, if_neg (fun e => hne e.symm)]
        apply h3
        rw [hget k hne]
        exact hk

theorem entriesKept_refl (lib : ProfileLibrary) (s : State) : EntriesKept lib s s :=
  ⟨rfl, fun _ info h => ⟨info, h, rfl, fun _ => rfl⟩⟩

theorem entriesKept_trans {lib : ProfileLibrary} {s t r : State} (h1 : EntriesKept lib s t)
    (h2 : EntriesKept lib t r) : EntriesKept lib s r := by
  refine ⟨h2.1.trans h1.1, ?_⟩
  intro k info hk
  obtain ⟨info2, hk2, hv2, hu2⟩ := h1.2 k info hk
  obtain ⟨info3, hk3, hv3, hu3⟩ := h2.2 k info2 hk2
  refine ⟨info3, hk3, hv3.trans hv2, ?_⟩
  intro hl
  have hu := hu2 hl
  rw [← hu]
  apply hu3
  rw [h1.1]
  simpa only [entryListed, hu, hv2] using hl

theorem entriesKept_of_rebuilt {lib : ProfileLibrary} {s t : State} (h : Rebuilt lib s t) :
    EntriesKept lib s t := by
  refine ⟨rebuilt_store_eq h, ?_⟩
  intro k info hk
  have hs := mapGet_shape s.globalGamepads t.globalGamepads h.2.1 k
  rw [hk] at hs
  cases ht : mapGet t.globalGamepads k with
  | none => rw [ht] at hs; cases hs
  | some info2 =>
    rw [ht] at hs
    simp only [Option.map_some', Option.some.injEq, Prod.mk.injEq] at hs
    refine ⟨info2, rfl, hs.2, ?_⟩
    intro hl
    have := h.2.2 k info hk hl
    rw [ht] at this
    simp only [Option.some.injEq] at this
    rw [this]

theorem entriesKept_of_registry_eq (lib : ProfileLibrary) (s t : State)
    (h1 : t.store = s.store) (h2 : t.globalGamepads = s.globalGamepads) : EntriesKept lib s t :=
  ⟨h1, fun _ info h => ⟨info, by rw [h2]; exact h, rfl, fun _ => rfl⟩⟩

theorem entriesKept_refreshGamepad (lib : ProfileLibrary) (g : Gamepad) (s : State) :
    EntriesKept lib s (refreshGamepad g s) := by
  refine ⟨refreshGamepad_store g s, ?_⟩
  intro k info hk
  by_cases hgk : k = g.index
  · subst hgk
    exact ⟨_, mapGet_refreshGamepad_self g s info hk, rfl, fun _ => rfl⟩
  · exact ⟨info, by rw [mapGet_refreshGamepad_ne g s k hgk]; exact hk, rfl, fun _ => rfl⟩

theorem entriesKept_registerGamepad (lib : ProfileLibrary) (g : Gamepad)
    (vp : VisualizationProfile) (u : UserProfile) (s : State)
    (h : mapHas s.globalGamepads g.index = false) :
    EntriesKept lib s (registerGamepad g vp u s) := by
  refine ⟨rfl, ?_⟩
  intro k info hk
  have hne : k ≠ g.index := by
    intro e
    subst e
    simp only [mapHas, hk] at h
    cases h
  refine ⟨info, ?_, rfl, fun _ => rfl⟩
  simp only [registerGamepad]
  rw [mapGet_mapSet_ne _ _ _ _ hne]
  exact hk

/-- Whatever the outcome of `addGamepad` for a device that is not registered, the
entries registered before keep their visualization profile, and their user
profile when it is listed in the store. -/
theorem entriesKept_addGamepad (lib : ProfileLibrary) (g : Gamepad) (s t : State)
    (hg : mapHas s.globalGamepads g.index = false)
    (h : (addGamepad lib g s).state? = some t) : EntriesKept lib s t := by
  rcases addGamepad_outcome lib g s with ⟨e, t2, h2, hr⟩ | ⟨s1, u, hr, ⟨s3, h3, h4⟩ | ⟨e, s3, h3, h4⟩⟩
  · rw [h2] at h
    simp only [Res.state?, Option.some.injEq] at h
    subst h
    exact entriesKept_of_rebuilt hr
  · rw [h4] at h
    simp only [Res.state?, Option.some.injEq] at h
    subst h
    have hg1 : mapHas s1.globalGamepads g.index = false := by
      cases hh : mapHas s1.globalGamepads g.index with
      | false => rfl
      | true =>
        rw [mapHas_iff_mem_keys, mapKeys_eq_of_shape _ _ hr.2.1, ← mapHas_iff_mem_keys] at hh
        rw [hh] at hg; cases hg
    have hr3 := addGamepadListElement_rebuilt lib _ _ s3 (by rw [h3]; rfl)
    refine entriesKept_trans (entriesKept_of_rebuilt hr)
      (entriesKept_trans (entriesKept_registerGamepad lib g _ u s1 hg1)
        (entriesKept_trans (entriesKept_of_rebuilt hr3)
          (entriesKept_of_registry_eq lib _ _ ?_ ?_)))
    · show (playRumble g s3).store = s3.store
      exact playRumble_store g s3
    · rw [requestAnimationFrame_globalGamepads, playRumble_globalGamepads]
  · rw [h4] at h
    simp only [Res.state?, Option.some.injEq] at h
    subst h
    have hg1 : mapHas s1.globalGamepads g.index = false := by
      cases hh : mapHas s1.globalGamepads g.index with
      | false => rfl
      | true =>
        rw [mapHas_iff_mem_keys, mapKeys_eq_of_shape _ _ hr.2.1, ← mapHas_iff_mem_keys] at hh
        rw [hh] at hg; cases hg
    have hr3 := addGamepadListElement_rebuilt lib _ _ s3 (by rw [h3]; rfl)
    exact entriesKept_trans (entriesKept_of_rebuilt hr)
      (entriesKept_trans (entriesKept_registerGamepad lib g _ u s1 hg1)
        (entriesKept_of_rebuilt hr3))

/-- Whatever the poll result and the outcome of the poll, the entries registered
before keep their visualization profile, and their user profile when it is
listed in the store. -/
theorem entriesKept_updateGamepads (lib : ProfileLibrary) (poll : List (Option Gamepad))
    (s t : State) (h : (updateGamepads lib poll s).state? = some t) : EntriesKept lib s t := by
  induction poll generalizing s with
  | nil =>
    simp only [updateGamepads, Res.state?, Option.some.injEq] at h
    subst h
    exact entriesKept_refl lib s
  | cons x rest ih =>
    cases x with
    | none => exact ih s h
    | some g =>
      simp only [updateGamepads] at h
      by_cases hg : mapHas s.globalGamepads g.index = true
      · rw [if_pos hg] at h
        exact entriesKept_trans (entriesKept_refreshGamepad lib g s) (ih _ h)
      · rw [if_neg hg] at h
        have hgf : mapHas s.globalGamepads g.index = false := by
          cases hh : mapHas s.globalGamepads g.index with
          | false => rfl
          | true => exact absurd hh hg
        cases ha : addGamepad lib g s with
        | outOfFuel => rw [ha] at h; cases h
        | threw e s1 =>
          rw [ha] at h
          exact entriesKept_addGamepad lib g s t hgf (by rw [ha]; exact h)
        | ok v s1 =>
          rw [ha] at h
          exact entriesKept_trans (entriesKept_addGamepad lib g s s1 hgf (by rw [ha]; rfl))
            (ih _ h)

/-- A poll that returns leaves every entry registered before with the last snapshot
polled for its index, or with its old snapshot when none was polled. -/
theorem updateGamepads_ok_snapshots (lib : ProfileLibrary) (poll : List (Option Gamepad))
    (s t : State) (h : updateGamepads lib poll s = .ok () t) :
    ∀ k info, mapGet s.globalGamepads k = some info →
      ∃ info2, mapGet t.globalGamepads k = some info2 ∧
        info2.gamepad = (lastPolled poll k).getD info.gamepad := by
  induction poll generalizing s with
  | nil =>
    simp only [updateGamepads, Res.ok.injEq, true_and] at h
    subst h
    exact fun k info hk => ⟨info, hk, rfl⟩
  | cons x rest ih =>
    cases x with
    | none =>
      intro k info hk
      rw [lastPolled_none_cons]
      exact ih s h k info hk
    | some g =>
      intro k info hk
      rw [lastPolled_some_cons]
      simp only [updateGamepads] at h
      by_cases hg : mapHas s.globalGamepads g.index = true
      · rw [if_pos hg] at h
        by_cases hgk : g.index = k
        · subst hgk
          rw [if_pos rfl]
          exact ih _ h _ _ (mapGet_refreshGamepad_self g s info hk)
        · rw [if_neg hgk]
          apply ih _ h
          rw [mapGet_refreshGamepad_ne g s k (fun e => hgk e.symm)]
          exact hk
      · rw [if_neg hg] at h
        have hne : k ≠ g.index := by
          intro e
          subst e
          simp only [mapHas, hk] at hg
          exact hg rfl
        rw [if_neg (fun e => hne e.symm)]
        cases ha : addGamepad lib g s with
        | outOfFuel => rw [ha] at h; cases h
        | threw e s1 => rw [ha] at h; cases h
        | ok v s1 =>
          rw [ha] at h
          obtain ⟨u, hu⟩ := addGamepad_ok_shape lib g s s1 ha
          have hs := mapGet_shape _ s1.globalGamepads hu k
          rw [mapGet_mapSet_ne _ _ _ _ hne, hk] at hs
          cases h1 : mapGet s1.globalGamepads k with
          | none => rw [h1] at hs; cases hs
          | some info1 =>
            rw [h1] at hs
            simp only [Option.map_some', Option.some.injEq, Prod.mk.injEq] at hs
            obtain ⟨info2, h2, h3⟩ := ih _ h k info1 h1
            exact ⟨info2, h2, by rw [h3, hs.1]⟩

/-- C13: in `updateGamepads` an empty slot of the poll result is skipped without any
change of the state, and the slot of a snapshot `g` whose index is registered is
handled by `refreshGamepad`, which changes nothing but the registry, keeps its
keys and their order, leaves every other entry as it is and leaves the entry of
`g.index` with its visualization profile, its user profile and `g` as snapshot.
For every registry and every poll result, the store holding a last-used or a
default user profile for the devices of the poll result that are not registered
yet, `updateGamepads` returns and every entry registered before has its
visualization profile, its user profile and as snapshot the last one polled for
its index (the polled one when the indices of the poll result are pairwise
different, its old one when the poll result has none); an index that the poll
result does not hold is as before, the registered indices are those registered
before and those polled, and when they were all registered nothing but the
registry has changed and its keys are as before.  Whatever the store, the
poll result and the outcome, every entry registered before is still registered
with its visualization profile, with its user profile when the name of that
profile is among the stored ones, and, when the poll returns, with the last
snapshot polled for its index. -/
theorem updateGamepads_refreshes_registered (lib : ProfileLibrary) (s : State) :
    (∀ rest, updateGamepads lib (none :: rest) s = updateGamepads lib rest s) ∧
    (∀ rest (g : Gamepad) (info : GamepadInfo), mapGet s.globalGamepads g.index = some info →
      updateGamepads lib (some g :: rest) s = updateGamepads lib rest (refreshGamepad g s) ∧
      refreshGamepad g s = { s with globalGamepads := (refreshGamepad g s).globalGamepads } ∧
      mapKeys (refreshGamepad g s).globalGamepads = mapKeys s.globalGamepads ∧
      mapGet (refreshGamepad g s).globalGamepads g.index =
        some ⟨g, info.visualizationProfile, info.userProfile⟩ ∧
      ∀ k, k ≠ g.index →
        mapGet (refreshGamepad g s).globalGamepads k = mapGet s.globalGamepads k) ∧
    (∀ poll : List (Option Gamepad),
      (∀ g, some g ∈ poll → mapHas s.globalGamepads g.index = false →
        getUserProfileLastUsed s.store (lib.profileName (selectVisualizationProfile lib g))
          ≠ none ∨
        getUserProfile s.store (lib.profileName (selectVisualizationProfile lib g)) .undefined
          ≠ none) →
      ∃ t, updateGamepads lib poll s = .ok () t ∧
        (∀ k info, mapGet s.globalGamepads k = some info →
          mapGet t.globalGamepads k =
            some ⟨(lastPolled poll k).getD info.gamepad, info.visualizationProfile,
              info.userProfile⟩) ∧
        (∀ g info, some g ∈ poll →
          (poll.filterMap (fun x => x.map (fun g => g.index))).Nodup →
          mapGet s.globalGamepads g.index = some info →
          mapGet t.globalGamepads g.index =
            some ⟨g, info.visualizationProfile, info.userProfile⟩) ∧
        (∀ k, (∀ g, some g ∈ poll → g.index ≠ k) →
          mapGet t.globalGamepads k = mapGet s.globalGamepads k) ∧
        (∀ i, mapHas t.globalGamepads i = true ↔
          (mapHas s.globalGamepads i = true ∨ ∃ g, some g ∈ poll ∧ g.index = i)) ∧
        ((∀ g, some g ∈ poll → mapHas s.globalGamepads g.index = true) →
          t = { s with globalGamepads := t.globalGamepads } ∧
          mapKeys t.globalGamepads = mapKeys s.globalGamepads)) ∧
    (∀ (poll : List (Option Gamepad)) (t : State),
      (updateGamepads lib poll s).state? = some t →
      ∀ k info, mapGet s.globalGamepads k = some info →
        ∃ info2, mapGet t.globalGamepads k = some info2 ∧
          info2.visualizationProfile = info.visualizationProfile ∧
          (entryListed lib s.store info = true → info2.userProfile = info.userProfile) ∧
          (updateGamepads lib poll s = .ok () t →
            info2.gamepad = (lastPolled poll k).getD info.gamepad)) := by
  refine ⟨fun rest => rfl, ?_, ?_, ?_⟩
  · intro rest g info hg
    have hhas : mapHas s.globalGamepads g.index = true := by
      simp only [mapHas, hg]; rfl
    refine ⟨?_, refreshGamepad_frame g s, mapKeys_refreshGamepad g s,
      mapGet_refreshGamepad_self g s info hg, fun k hk => mapGet_refreshGamepad_ne g s k hk⟩
    simp only [updateGamepads, hhas, if_true]
  · intro poll hres
    obtain ⟨t, h1, _, h3⟩ := updateGamepads_of_resolved lib poll s hres
    have hkeys := mem_mapKeys_updateGamepads lib poll s t h1
    refine ⟨t, h1, h3, ?_, ?_, ?_, ?_⟩
    · intro g info hg hd hs
      rw [h3 g.index info hs, lastPolled_of_nodup poll hd g hg]
      rfl
    · intro k hk
      cases hs : mapGet s.globalGamepads k with
      | some info =>
        rw [h3 k info hs, lastPolled_of_not_polled poll k hk]
        rfl
      | none =>
        rw [mapGet_eq_none_iff, hkeys k]
        rw [mapGet_eq_none_iff] at hs
        rintro (h | ⟨g, hg, he⟩)
        · exact hs h
        · exact hk g hg he
    · intro i
      rw [mapHas_iff_mem_keys, mapHas_iff_mem_keys]
      exact hkeys i
    · intro hreg
      have href := updateGamepads_eq_refreshGamepads lib poll s
        (fun g hg => (mapHas_iff_mem_keys _ _).1 (hreg g hg))
      rw [href] at h1
      simp only [Res.ok.injEq, true_and] at h1
      subst h1
      exact ⟨refreshGamepads_frame poll s, mapKeys_refreshGamepads poll s⟩
  · intro poll t h k info hk
    obtain ⟨info2, h2, hv, hu⟩ := (entriesKept_updateGamepads lib poll s t h).2 k info hk
    refine ⟨info2, h2, hv, hu, ?_⟩
    intro hok
    obtain ⟨info3, h3, hg3⟩ := updateGamepads_ok_snapshots lib poll s t hok k info hk
    rw [h2] at h3
    simp only [Option.some.injEq] at h3
    rw [h3]
    exact hg3

theorem updateGamepads_refreshes_registered_witness :
    mapGet connectedState.globalGamepads 0 =
      some ⟨plainGamepad 0 "Pad 0", .UnknownController,
        some [("profileName", .str "Default"), ("color", .str "#ff0000")]⟩ ∧
    mapHas connectedState.globalGamepads 2 = false ∧
    getUserProfile connectedState.store "Unknown Controller" .undefined ≠ none ∧
    ∃ t, updateGamepads fallbackLibrary
        [some (plainGamepad 0 "Pad 0 moved"), none, some (plainGamepad 2 "Pad 2")]
        connectedState = .ok () t ∧
      mapGet t.globalGamepads 0 =
        some ⟨plainGamepad 0 "Pad 0 moved", .UnknownController,
          some [("profileName", .str "Default"), ("color", .str "#ff0000")]⟩ ∧
      mapHas t.globalGamepads 2 = true := by
  refine ⟨by decide, by decide, by decide, ?_⟩
  obtain ⟨t, h1, _, h3, _, h5, _⟩ :=
    (updateGamepads_refreshes_registered fallbackLibrary connectedState).2.2.1
      [some (plainGamepad 0 "Pad 0 moved"), none, some (plainGamepad 2 "Pad 2")]
      (fun g _ _ => Or.inr (by
        show getUserProfile connectedState.store "Unknown Controller" .undefined ≠ none
        decide))
  refine ⟨t, h1, ?_, ?_⟩
  · exact h3 (plainGamepad 0 "Pad 0 moved")
      ⟨plainGamepad 0 "Pad 0", .UnknownController,
        some [("profileName", .str "Default"), ("color", .str "#ff0000")]⟩
      (by decide) (by decide) (by decide)
  · exact (h5 2).2 (Or.inr ⟨plainGamepad 2 "Pad 2", by decide, rfl⟩)

/-! ## Options and calls of `drawGamepads` -/

theorem objHas_objSet (o : JsObject) (k j : String) (v : JsValue) :
    objHas (objSet o k v) j = true ↔ j = k ∨ objHas o j = true := by
  induction o with
  | nil =>
    simp only [objSet, objHas]
    constructor
    · intro h
      by_cases e : k = j
      · exact Or.inl e.symm
      · simp [e] at h
    · intro h
      rcases h with e | e
      · simp [e]
      · simp at e
  | cons p t ih =>
    obtain ⟨a, b⟩ := p
    by_cases h : a = k
    · subst h
      simp only [objSet, if_true, objHas]
      by_cases e : a = j
      · simp [e]
      · have e2 : ¬ j = a := fun x => e x.symm
        simp [e, e2]
    · simp only [objSet, h, if_false, objHas]
      by_cases e : a = j
      · simp [e]
      · simp only [e, if_false]
        exact ih

theorem objHas_objAssign (target source : JsObject) (k : String) :
    objHas (objAssign target source) k = true ↔
      objHas target k = true ∨ objHas source k = true := by
  simp only [objAssign]
  induction source generalizing target with
  | nil => simp [objHas]
  | cons p t ih =>
    obtain ⟨a, b⟩ := p
    simp only [List.foldl_cons]
    rw [ih, objHas_objSet]
    simp only [objHas]
    by_cases e : a = k
    · simp [e]
    · have e2 : ¬ k = a := fun x => e x.symm
      simp [e, e2]

theorem objHas_iff_mem_objKeys (o : JsObject) (k : String) :
    objHas o k = true ↔ k ∈ objKeys o := by
  induction o with
  | nil => simp [objHas, objKeys]
  | cons p t ih =>
    obtain ⟨a, b⟩ := p
    simp only [objKeys] at ih
    by_cases e : a = k
    · simp [objHas, objKeys, e]
    · have e2 : ¬ k = a := fun x => e x.symm
      simp [objHas, objKeys, e, e2, ih]

theorem objGet_objAssign_of_not_has (target source : JsObject) (k : String)
    (h : ¬ objHas source k = true) :
    objGet (objAssign target source) k = objGet target k := by
  simp only [objAssign]
  induction source generalizing target with
  | nil => rfl
  | cons p t ih =>
    obtain ⟨a, b⟩ := p
    simp only [List.foldl_cons]
    have hak : ¬ a = k := by
      intro e
      apply h
      simp [objHas, e]
    have ht : ¬ objHas t k = true := by
      intro e
      apply h
      simp [objHas, hak, e]
    rw [ih _ ht]
    exact objGet_objSet_ne _ _ _ _ (fun e => hak e.symm)

theorem objGet_objAssign_of_has (target source : JsObject) (k : String)
    (hn : (objKeys source).Nodup) (h : objHas source k = true) :
    objGet (objAssign target source) k = objGet source k := by
  induction source generalizing target with
  | nil => simp [objHas] at h
  | cons p t ih =>
    obtain ⟨a, b⟩ := p
    simp only [objKeys, List.map_cons, List.nodup_cons] at hn
    by_cases e : a = k
    · subst e
      have ht : ¬ objHas t a = true := by
        rw [objHas_iff_mem_objKeys]
        exact hn.1
      have h1 : objAssign target ((a, b) :: t) = objAssign (objSet target a b) t := rfl
      rw [h1, objGet_objAssign_of_not_has _ _ _ ht, objGet_objSet_self]
      simp [objGet]
    · have ht : objHas t k = true := by
        simpa [objHas, e] using h
      have h1 : objAssign target ((a, b) :: t) = objAssign (objSet target a b) t := rfl
      rw [h1, ih _ hn.2 ht]
      simp [objGet, e]

/-- The merged options have every key of the global options. -/
theorem objHas_mergeOptions_of_options (options : JsObject) (u : Option UserProfile) (k : String)
    (h : objHas options k = true) : objHas (mergeOptions options u) k = true := by
  cases u with
  | none =>
    simp only [mergeOptions]
    rw [objHas_objAssign]
    exact Or.inr h
  | some p =>
    simp only [mergeOptions]
    rw [objHas_objAssign, objHas_objAssign]
    exact Or.inl (Or.inr h)

/-- The merged options have every key of the user profile, with its value. -/
theorem mergeOptions_of_userProfile (options : JsObject) (p : UserProfile) (k : String)
    (hn : (objKeys p).Nodup) (h : objHas p k = true) :
    objHas (mergeOptions options (some p)) k = true ∧
      objGet (mergeOptions options (some p)) k = objGet p k := by
  simp only [mergeOptions]
  refine ⟨?_, objGet_objAssign_of_has _ _ _ hn h⟩
  rw [objHas_objAssign]
  exact Or.inr h

theorem profileDrawCall_of_centre (lib : ProfileLibrary) (w h : Nat) (gamepads : GamepadInfoMap)
    (options : JsObject) (entry : Nat × GamepadInfo) (x y : ℚ)
    (hc : gamepadCentre lib w h gamepads entry.1 = some (x, y)) :
    profileDrawCall lib w h gamepads options entry =
      some (Effect.profileDraw entry.2.visualizationProfile x y entry.2.gamepad
        (mergeOptions options entry.2.userProfile)) := by
  simp only [profileDrawCall, hc]

/-- Whatever the outcome of the second loop of `drawGamepads`, it has made the calls
of a prefix of the entries, in order, and nothing else. -/
theorem drawGamepadsLoop_effects (lib : ProfileLibrary) (gamepads : GamepadInfoMap)
    (options : JsObject) :
    ∀ (rest : GamepadInfoMap) (s t : State),
      (drawGamepadsLoop lib gamepads options rest s).state? = some t →
      ∃ drawn, drawn <+: rest ∧
        (drawGamepadsLoop lib gamepads options rest s = .ok () t → drawn = rest) ∧
        t = { s with effects := s.effects ++ drawn.filterMap (profileDrawCall lib s.canvasWidth s.canvasHeight gamepads options) } ∧
        ∀ p ∈ drawn, ∃ x y,
          gamepadCentre lib s.canvasWidth s.canvasHeight gamepads p.1 = some (x, y) := by
  intro rest
  induction rest with
  | nil =>
    intro s t h
    simp only [drawGamepadsLoop, Res.state?, Option.some.injEq] at h
    subst h
    exact ⟨[], List.prefix_refl _, fun _ => rfl, by simp, by simp⟩
  | cons p rest ih =>
    obtain ⟨k, info⟩ := p
    intro s t h
    cases hc : gamepadCentre lib s.canvasWidth s.canvasHeight gamepads k with
    | none =>
      simp only [drawGamepadsLoop, hc, Res.state?, Option.some.injEq] at h
      subst h
      refine ⟨[], List.nil_prefix, ?_, by simp, by simp⟩
      intro hok
      simp [drawGamepadsLoop, hc] at hok
    | some c =>
      obtain ⟨x, y⟩ := c
      simp only [drawGamepadsLoop, hc] at h
      obtain ⟨drawn, hpre, hok, ht, hall⟩ := ih _ t h
      refine ⟨(k, info) :: drawn, ?_, ?_, ?_, ?_⟩
      · obtain ⟨r, hr⟩ := hpre
        exact ⟨r, by rw [← hr]; rfl⟩
      · intro hrun
        simp only [drawGamepadsLoop, hc] at hrun
        rw [hok hrun]
      · rw [ht]
        have hcall := profileDrawCall_of_centre lib s.canvasWidth s.canvasHeight gamepads options
          (k, info) x y hc
        simp only [emit, List.filterMap_cons, hcall, List.append_assoc, List.singleton_append]
      · intro p hp
        simp only [List.mem_cons] at hp
        rcases hp with e | hp
        · subst e
          exact ⟨x, y, hc⟩
        · exact hall p hp

/-- When the centre of every entry can be computed, the second loop of `drawGamepads`
returns after the calls of all the entries. -/
theorem drawGamepadsLoop_ok (lib : ProfileLibrary) (gamepads : GamepadInfoMap)
    (options : JsObject) :
    ∀ (rest : GamepadInfoMap) (s : State),
      (∀ p ∈ rest, gamepadCentre lib s.canvasWidth s.canvasHeight gamepads p.1 ≠ none) →
      drawGamepadsLoop lib gamepads options rest s =
        .ok () { s with effects := s.effects ++ rest.filterMap (profileDrawCall lib s.canvasWidth s.canvasHeight gamepads options) } := by
  intro rest
  induction rest with
  | nil =>
    intro s _
    simp [drawGamepadsLoop]
  | cons p rest ih =>
    obtain ⟨k, info⟩ := p
    intro s h
    cases hc : gamepadCentre lib s.canvasWidth s.canvasHeight gamepads k with
    | none => exact absurd hc (h (k, info) (List.mem_cons_self _ _))
    | some c =>
      obtain ⟨x, y⟩ := c
      simp only [drawGamepadsLoop, hc]
      rw [ih (emit (Effect.profileDraw info.visualizationProfile x y info.gamepad
        (mergeOptions options info.userProfile)) s)
        (fun p hp => h p (List.mem_cons_of_mem _ hp))]
      have hcall := profileDrawCall_of_centre lib s.canvasWidth s.canvasHeight gamepads options
        (k, info) x y hc
      simp only [emit, List.filterMap_cons, hcall, List.append_assoc, List.singleton_append]

/-- C14: whatever the outcome of `drawGamepads`, what it has added to the effects are
the calls of `visualizationProfile.draw` for a prefix `drawn` of the entries of
the registry (all of them when it returns), and the options of the call for an
entry are `mergeOptions options userProfile`, the object
`{ ...options, ...gamepadInfo.userProfile }`; this object has every key of the
global options, and for a user profile `p` (an object: its keys are distinct)
it has every key of `p` with the value that `p` has under it, also when the
global options have the key. -/
theorem drawGamepads_merges_user_profile (lib : ProfileLibrary) (gamepads : GamepadInfoMap)
    (options : JsObject) (s t : State)
    (h : (drawGamepads lib gamepads options s).state? = some t) :
    (∃ drawn, drawn <+: gamepads ∧
      (drawGamepads lib gamepads options s = .ok () t → drawn = gamepads) ∧
      t.effects = s.effects ++ drawn.filterMap
        (profileDrawCall lib s.canvasWidth s.canvasHeight gamepads options) ∧
      ∀ entry ∈ drawn, ∃ x y,
        profileDrawCall lib s.canvasWidth s.canvasHeight gamepads options entry =
          some (Effect.profileDraw entry.2.visualizationProfile x y entry.2.gamepad
            (mergeOptions options entry.2.userProfile))) ∧
    (∀ (u : Option UserProfile) (k : String), objHas options k = true →
      objHas (mergeOptions options u) k = true) ∧
    (∀ (p : UserProfile) (k : String), (objKeys p).Nodup → objHas p k = true →
      objHas (mergeOptions options (some p)) k = true ∧
        objGet (mergeOptions options (some p)) k = objGet p k) := by
  refine ⟨?_, fun u k hk => objHas_mergeOptions_of_options options u k hk,
    fun p k hn hk => mergeOptions_of_userProfile options p k hn hk⟩
  obtain ⟨drawn, hpre, hok, ht, hall⟩ := drawGamepadsLoop_effects lib gamepads options gamepads s t h
  refine ⟨drawn, hpre, hok, by rw [ht], ?_⟩
  intro entry he
  obtain ⟨x, y, hc⟩ := hall entry he
  exact ⟨x, y, profileDrawCall_of_centre lib _ _ gamepads options entry x y hc⟩

/-! ## Layout of the devices -/

theorem gamePadPadding_eq (n : Nat) :
    gamePadPadding n = (List.range n).map (fun k : Nat => 20 * (k : ℚ)) := by
  induction n with
  | zero => rfl
  | succ n ih =>
    simp only [gamePadPadding, ih, List.range_succ, List.map_append, List.map_cons, List.map_nil]
    congr 1
    cases n with
    | zero => simp
    | succ m =>
      simp only [List.range_succ, List.map_append, List.map_cons, List.map_nil,
        List.getLast?_append, List.getLast?_singleton, globalGamepadDrawPadding]
      simp only [Option.or]
      congr 1
      push_cast
      ring

theorem gamePadPadding_get? (n k : Nat) (h : k < n) :
    (gamePadPadding n).get? k = some (20 * (k : ℚ)) := by
  rw [gamePadPadding_eq]
  simp [List.getElem?_range h, h]

theorem gamePadPadding_get?_none (n k : Nat) (h : n ≤ k) :
    (gamePadPadding n).get? k = none := by
  rw [gamePadPadding_eq]
  simp [h]

theorem gamePadSizes_length (lib : ProfileLibrary) (gamepads : GamepadInfoMap) :
    (gamePadSizes lib gamepads).length = gamepads.length := by
  simp [gamePadSizes]

theorem gamePadSizes_get? (lib : ProfileLibrary) (gamepads : GamepadInfoMap) (k : Nat)
    (p : Nat × GamepadInfo) (h : gamepads.get? k = some p) :
    (gamePadSizes lib gamepads).get? k = some (lib.getDrawSize p.2.visualizationProfile) := by
  simp only [gamePadSizes, List.get?_eq_getElem?, List.getElem?_map] at h ⊢
  rw [h]
  rfl

theorem foldl_add_eq_sum {α : Type} (f : α → ℚ) (l : List α) (init : ℚ) :
    l.foldl (fun a b => a + f b) init = init + (l.map f).sum := by
  induction l generalizing init with
  | nil => simp
  | cons x t ih =>
    simp only [List.foldl_cons, List.map_cons, List.sum_cons]
    rw [ih]
    ring

theorem heightOfAllGamepads_eq (lib : ProfileLibrary) (gamepads : GamepadInfoMap) :
    heightOfAllGamepads lib gamepads =
      ((gamePadSizes lib gamepads).map (fun b => b.height)).sum +
        20 * ((gamepads.length : ℚ) - 1) := by
  simp only [heightOfAllGamepads, gamePadSizes, globalGamepadDrawPadding, List.map_map]
  rw [foldl_add_eq_sum (fun p : Nat × GamepadInfo => (lib.getDrawSize p.2.visualizationProfile).height)]
  rw [add_comm]
  rfl

theorem widthOfAllGamepads_eq (lib : ProfileLibrary) (gamepads : GamepadInfoMap) :
    widthOfAllGamepads lib gamepads =
      ((gamePadSizes lib gamepads).map (fun b => b.width)).sum +
        20 * ((gamepads.length : ℚ) - 1) := by
  simp only [widthOfAllGamepads, gamePadSizes, globalGamepadDrawPadding, List.map_map]
  rw [foldl_add_eq_sum (fun p : Nat × GamepadInfo => (lib.getDrawSize p.2.visualizationProfile).width)]
  rw [add_comm]
  rfl

/-- With one device the centre is the midpoint of the canvas, whatever the key. -/
theorem gamepadCentre_of_one (lib : ProfileLibrary) (w h : Nat) (gamepads : GamepadInfoMap)
    (k : Nat) (hN : gamepads.length = 1) :
    gamepadCentre lib w h gamepads k = some ((w : ℚ) / 2, (h : ℚ) / 2) := by
  simp [gamepadCentre, hN]

/-- With another number of devices the centre of a key inside the array
`gamePadSizes`. -/
theorem gamepadCentre_of_get (lib : ProfileLibrary) (w h : Nat) (gamepads : GamepadInfoMap)
    (k : Nat) (size : DrawSize) (hN : gamepads.length ≠ 1)
    (hs : (gamePadSizes lib gamepads).get? k = some size) :
    gamepadCentre lib w h gamepads k = some
      (if h > w then
        ((w : ℚ) / 2,
          ((h : ℚ) - heightOfAllGamepads lib gamepads) / 2 +
            ((gamePadSizes lib gamepads).take k).foldl (fun a b => a + b.height) 0 +
            20 * (k : ℚ) + size.height / 2)
      else
        (((w : ℚ) - widthOfAllGamepads lib gamepads) / 2 +
            ((gamePadSizes lib gamepads).take k).foldl (fun a b => a + b.width) 0 +
            20 * (k : ℚ) + size.width / 2,
          (h : ℚ) / 2)) := by
  have hk : k < gamepads.length := by
    rw [← gamePadSizes_length lib gamepads]
    by_contra hc
    rw [List.get?_eq_none.2 (Nat.le_of_not_lt hc)] at hs
    cases hs
  have hp := gamePadPadding_get? gamepads.length k hk
  simp only [gamepadCentre, hN, ne_eq, not_false_eq_true, if_true, hp, hs]
  split_ifs <;> rfl

/-- With another number of devices no centre for a key outside the array
`gamePadSizes`. -/
theorem gamepadCentre_of_get_none (lib : ProfileLibrary) (w h : Nat) (gamepads : GamepadInfoMap)
    (k : Nat) (hN : gamepads.length ≠ 1)
    (hs : (gamePadSizes lib gamepads).get? k = none) :
    gamepadCentre lib w h gamepads k = none := by
  simp only [gamepadCentre, hN, ne_eq, not_false_eq_true, if_true, hs]
  split_ifs <;> (split <;> simp_all)

theorem gamePadSizes_get?_of_lt (lib : ProfileLibrary) (gamepads : GamepadInfoMap) (k : Nat)
    (hk : k < gamepads.length) : ∃ size, (gamePadSizes lib gamepads).get? k = some size := by
  cases hs : (gamePadSizes lib gamepads).get? k with
  | some size => exact ⟨size, rfl⟩
  | none =>
    rw [List.get?_eq_none, gamePadSizes_length] at hs
    exact absurd hk (Nat.not_lt.2 hs)

theorem mem_mapKeys_of_mem (gamepads : GamepadInfoMap) (p : Nat × GamepadInfo)
    (h : p ∈ gamepads) : p.1 ∈ mapKeys gamepads := by
  simp only [mapKeys, List.mem_map]
  exact ⟨p, h, rfl⟩

/-- C15: with exactly one device `drawGamepads` returns after one call of
`visualizationProfile.draw` at `(canvasWidth / 2, canvasHeight / 2)`. With
another number of devices, whatever the outcome, every call it has made has
x = `canvasWidth / 2` and y from the vertical distribution when
`canvasHeight > canvasWidth`, and otherwise (a square canvas included)
y = `canvasHeight / 2` and x from the horizontal distribution; and it
returns, after the calls of all the devices, when every key of the registry
is smaller than the number of devices. -/
theorem drawGamepads_distribution_axis (lib : ProfileLibrary) (options : JsObject) (s : State) :
    (∀ (k : Nat) (info : GamepadInfo),
      drawGamepads lib [(k, info)] options s =
        .ok () (emit (Effect.profileDraw info.visualizationProfile
          ((s.canvasWidth : ℚ) / 2) ((s.canvasHeight : ℚ) / 2) info.gamepad
          (mergeOptions options info.userProfile)) s)) ∧
    (∀ (gamepads : GamepadInfoMap) (t : State), gamepads.length ≠ 1 →
      (drawGamepads lib gamepads options s).state? = some t →
      ∃ drawn, drawn <+: gamepads ∧
        (drawGamepads lib gamepads options s = .ok () t → drawn = gamepads) ∧
        t.effects = s.effects ++ drawn.filterMap
          (profileDrawCall lib s.canvasWidth s.canvasHeight gamepads options) ∧
        ∀ entry ∈ drawn, ∃ x y size,
          profileDrawCall lib s.canvasWidth s.canvasHeight gamepads options entry =
            some (Effect.profileDraw entry.2.visualizationProfile x y entry.2.gamepad
              (mergeOptions options entry.2.userProfile)) ∧
          (gamePadSizes lib gamepads).get? entry.1 = some size ∧
          (s.canvasHeight > s.canvasWidth →
            x = (s.canvasWidth : ℚ) / 2 ∧
            y = ((s.canvasHeight : ℚ) - heightOfAllGamepads lib gamepads) / 2 +
              ((gamePadSizes lib gamepads).take entry.1).foldl (fun a b => a + b.height) 0 +
              20 * (entry.1 : ℚ) + size.height / 2) ∧
          (¬ s.canvasHeight > s.canvasWidth →
            y = (s.canvasHeight : ℚ) / 2 ∧
            x = ((s.canvasWidth : ℚ) - widthOfAllGamepads lib gamepads) / 2 +
              ((gamePadSizes lib gamepads).take entry.1).foldl (fun a b => a + b.width) 0 +
              20 * (entry.1 : ℚ) + size.width / 2)) ∧
    (∀ gamepads : GamepadInfoMap, gamepads.length ≠ 1 →
      (∀ k ∈ mapKeys gamepads, k < gamepads.length) →
      ∃ t, drawGamepads lib gamepads options s = .ok () t) := by
  refine ⟨?_, ?_, ?_⟩
  · intro k info
    have hc := gamepadCentre_of_one lib s.canvasWidth s.canvasHeight [(k, info)] k rfl
    simp only [drawGamepads, drawGamepadsLoop, hc]
  · intro gamepads t hN h
    obtain ⟨drawn, hpre, hok, ht, hall⟩ :=
      drawGamepadsLoop_effects lib gamepads options gamepads s t h
    refine ⟨drawn, hpre, hok, by rw [ht], ?_⟩
    intro entry he
    obtain ⟨x, y, hc⟩ := hall entry he
    cases hs : (gamePadSizes lib gamepads).get? entry.1 with
    | none =>
      rw [gamepadCentre_of_get_none lib _ _ gamepads entry.1 hN hs] at hc
      cases hc
    | some size =>
      refine ⟨x, y, size, profileDrawCall_of_centre lib _ _ gamepads options entry x y hc, rfl, ?_, ?_⟩
      · intro hv
        rw [gamepadCentre_of_get lib _ _ gamepads entry.1 size hN hs, if_pos hv] at hc
        simp only [Option.some.injEq, Prod.mk.injEq] at hc
        exact ⟨hc.1.symm, hc.2.symm⟩
      · intro hv
        rw [gamepadCentre_of_get lib _ _ gamepads entry.1 size hN hs, if_neg hv] at hc
        simp only [Option.some.injEq, Prod.mk.injEq] at hc
        exact ⟨hc.2.symm, hc.1.symm⟩
  · intro gamepads hN hkeys
    refine ⟨_, drawGamepadsLoop_ok lib gamepads options gamepads s ?_⟩
    intro p hp
    obtain ⟨size, hs⟩ := gamePadSizes_get?_of_lt lib gamepads p.1
      (hkeys p.1 (mem_mapKeys_of_mem gamepads p hp))
    rw [gamepadCentre_of_get lib _ _ gamepads p.1 size hN hs]
    simp

theorem sum_map_take_succ (f : DrawSize → ℚ) (sizes : List DrawSize) (k : Nat) (a : DrawSize)
    (ha : sizes.get? k = some a) :
    ((sizes.take (k + 1)).map f).sum = ((sizes.take k).map f).sum + f a := by
  rw [List.get?_eq_getElem?] at ha
  rw [List.take_succ, ha]
  simp

theorem sum_map_take_pred (f : DrawSize → ℚ) (sizes : List DrawSize) (b : DrawSize)
    (hb : sizes.get? (sizes.length - 1) = some b) :
    ((sizes.take (sizes.length - 1)).map f).sum + f b = (sizes.map f).sum := by
  have hpos : 0 < sizes.length := by
    cases sizes with
    | nil => simp at hb
    | cons x t => simp
  rw [← sum_map_take_succ f sizes (sizes.length - 1) b hb]
  have : sizes.length - 1 + 1 = sizes.length := Nat.sub_add_cancel hpos
  rw [this, List.take_length]

theorem get?_of_mapKeys_range (gamepads : GamepadInfoMap)
    (hkeys : mapKeys gamepads = List.range gamepads.length) (k : Nat) (hk : k < gamepads.length) :
    ∃ info, gamepads.get? k = some (k, info) := by
  have h1 : (mapKeys gamepads).get? k = some k := by
    rw [hkeys]
    simp [List.getElem?_range hk]
  simp only [mapKeys, List.get?_eq_getElem?, List.getElem?_map] at h1
  cases hg : gamepads[k]? with
  | none => rw [hg] at h1; cases h1
  | some p =>
    rw [hg] at h1
    simp only [Option.map_some', Option.some.injEq] at h1
    obtain ⟨a, info⟩ := p
    simp only at h1
    subst h1
    exact ⟨info, by simp [hg]⟩

/-- The centre of a key inside the array `gamePadSizes`, with the sums written
out. -/
theorem gamepadCentre_of_get_sum (lib : ProfileLibrary) (w h : Nat) (gamepads : GamepadInfoMap)
    (k : Nat) (size : DrawSize) (hN : gamepads.length ≠ 1)
    (hs : (gamePadSizes lib gamepads).get? k = some size) :
    gamepadCentre lib w h gamepads k = some
      (if h > w then
        ((w : ℚ) / 2,
          ((h : ℚ) - (((gamePadSizes lib gamepads).map (fun b => b.height)).sum +
              20 * ((gamepads.length : ℚ) - 1))) / 2 +
            (((gamePadSizes lib gamepads).take k).map (fun b => b.height)).sum +
            20 * (k : ℚ) + size.height / 2)
      else
        (((w : ℚ) - (((gamePadSizes lib gamepads).map (fun b => b.width)).sum +
              20 * ((gamepads.length : ℚ) - 1))) / 2 +
            (((gamePadSizes lib gamepads).take k).map (fun b => b.width)).sum +
            20 * (k : ℚ) + size.width / 2,
          (h : ℚ) / 2)) := by
  rw [gamepadCentre_of_get lib w h gamepads k size hN hs, heightOfAllGamepads_eq,
    widthOfAllGamepads_eq, foldl_add_eq_sum (fun b : DrawSize => b.height),
    foldl_add_eq_sum (fun b : DrawSize => b.width), zero_add, zero_add]

/-- C19: for a registry of more than one device whose keys in insertion order are
0, 1, ..., N-1, `drawGamepads` returns after the calls for all the devices; for
every key `k` the entry number `k` is the one of the key `k`, the lookups
`gamePadSizes[k]` and `gamePadPadding[k]` are in range, `gamePadPadding[k]` is
`20 * k`, and the centre along the distribution axis is
`(canvasExtent - T) / 2 + (extents of the devices 0..k-1) + 20 * k + (extent of k) / 2`
with `T = (all extents) + 20 * (N - 1)`, the other coordinate being the middle of
the canvas; the trailing edge of a glyph and the leading edge of the next one
are 20 apart, and the leading edge of the first glyph is as far from the
start of the canvas as the trailing edge of the last one from its end. -/
theorem drawGamepads_layout_of_dense_keys (lib : ProfileLibrary) (options : JsObject) (s : State)
    (gamepads : GamepadInfoMap) (hN : 1 < gamepads.length)
    (hkeys : mapKeys gamepads = List.range gamepads.length) :
    drawGamepads lib gamepads options s =
      .ok () { s with effects := s.effects ++ gamepads.filterMap (profileDrawCall lib s.canvasWidth s.canvasHeight gamepads options) } ∧
    (∀ k, k < gamepads.length →
      ∃ info, gamepads.get? k = some (k, info) ∧
        (gamePadSizes lib gamepads).get? k = some (lib.getDrawSize info.visualizationProfile) ∧
        (gamePadPadding gamepads.length).get? k = some (20 * (k : ℚ)) ∧
        gamepadCentre lib s.canvasWidth s.canvasHeight gamepads k = some
          (if s.canvasHeight > s.canvasWidth then
            ((s.canvasWidth : ℚ) / 2,
              ((s.canvasHeight : ℚ) - (((gamePadSizes lib gamepads).map (fun b => b.height)).sum +
                  20 * ((gamepads.length : ℚ) - 1))) / 2 +
                (((gamePadSizes lib gamepads).take k).map (fun b => b.height)).sum +
                20 * (k : ℚ) + (lib.getDrawSize info.visualizationProfile).height / 2)
          else
            (((s.canvasWidth : ℚ) - (((gamePadSizes lib gamepads).map (fun b => b.width)).sum +
                  20 * ((gamepads.length : ℚ) - 1))) / 2 +
                (((gamePadSizes lib gamepads).take k).map (fun b => b.width)).sum +
                20 * (k : ℚ) + (lib.getDrawSize info.visualizationProfile).width / 2,
              (s.canvasHeight : ℚ) / 2))) ∧
    (∀ k c d size next, k + 1 < gamepads.length →
      gamepadCentre lib s.canvasWidth s.canvasHeight gamepads k = some c →
      gamepadCentre lib s.canvasWidth s.canvasHeight gamepads (k + 1) = some d →
      (gamePadSizes lib gamepads).get? k = some size →
      (gamePadSizes lib gamepads).get? (k + 1) = some next →
      if s.canvasHeight > s.canvasWidth then
        (d.2 - next.height / 2) - (c.2 + size.height / 2) = 20
      else (d.1 - next.width / 2) - (c.1 + size.width / 2) = 20) ∧
    (∀ c d first last,
      gamepadCentre lib s.canvasWidth s.canvasHeight gamepads 0 = some c →
      gamepadCentre lib s.canvasWidth s.canvasHeight gamepads (gamepads.length - 1) = some d →
      (gamePadSizes lib gamepads).get? 0 = some first →
      (gamePadSizes lib gamepads).get? (gamepads.length - 1) = some last →
      if s.canvasHeight > s.canvasWidth then
        (c.2 - first.height / 2) - 0 = (s.canvasHeight : ℚ) - (d.2 + last.height / 2)
      else (c.1 - first.width / 2) - 0 = (s.canvasWidth : ℚ) - (d.1 + last.width / 2)) := by
  have hne : gamepads.length ≠ 1 := Nat.ne_of_gt hN
  refine ⟨?_, ?_, ?_, ?_⟩
  · apply drawGamepadsLoop_ok lib gamepads options gamepads s
    intro p hp
    have hk : p.1 < gamepads.length := by
      have := mem_mapKeys_of_mem gamepads p hp
      rw [hkeys] at this
      exact List.mem_range.1 this
    obtain ⟨size, hs⟩ := gamePadSizes_get?_of_lt lib gamepads p.1 hk
    rw [gamepadCentre_of_get lib _ _ gamepads p.1 size hne hs]
    simp
  · intro k hk
    obtain ⟨info, hg⟩ := get?_of_mapKeys_range gamepads hkeys k hk
    have hs := gamePadSizes_get? lib gamepads k (k, info) hg
    exact ⟨info, hg, hs, gamePadPadding_get? _ k hk,
      gamepadCentre_of_get_sum lib _ _ gamepads k _ hne hs⟩
  · intro k c d size next _ hc hd hs hn
    rw [gamepadCentre_of_get_sum lib _ _ gamepads k size hne hs] at hc
    rw [gamepadCentre_of_get_sum lib _ _ gamepads (k + 1) next hne hn] at hd
    have hsum := fun f => sum_map_take_succ f (gamePadSizes lib gamepads) k size hs
    by_cases hv : s.canvasHeight > s.canvasWidth
    · rw [if_pos hv] at hc hd ⊢
      simp only [Option.some.injEq] at hc hd
      subst hc
      subst hd
      simp only
      rw [hsum]
      push_cast
      ring
    · rw [if_neg hv] at hc hd ⊢
      simp only [Option.some.injEq] at hc hd
      subst hc
      subst hd
      simp only
      rw [hsum]
      push_cast
      ring
  · intro c d first last hc hd hf hl
    rw [gamepadCentre_of_get_sum lib _ _ gamepads 0 first hne hf] at hc
    rw [gamepadCentre_of_get_sum lib _ _ gamepads (gamepads.length - 1) last hne hl] at hd
    have hl2 : (gamePadSizes lib gamepads).get? ((gamePadSizes lib gamepads).length - 1) =
        some last := by
      rw [gamePadSizes_length]
      exact hl
    have hsum := fun f => sum_map_take_pred f (gamePadSizes lib gamepads) last hl2
    rw [gamePadSizes_length] at hsum
    have hcast : ((gamepads.length - 1 : Nat) : ℚ) = (gamepads.length : ℚ) - 1 := by
      rw [Nat.cast_sub (Nat.le_of_lt hN)]
      simp
    by_cases hv : s.canvasHeight > s.canvasWidth
    · rw [if_pos hv] at hc hd ⊢
      simp only [Option.some.injEq] at hc hd
      subst hc
      subst hd
      simp only [List.take_zero, List.map_nil, List.sum_nil]
      rw [← hsum (fun b => b.height), hcast]
      push_cast
      ring
    · rw [if_neg hv] at hc hd ⊢
      simp only [Option.some.injEq] at hc hd
      subst hc
      subst hd
      simp only [List.take_zero, List.map_nil, List.sum_nil]
      rw [← hsum (fun b => b.width), hcast]
      push_cast
      ring

theorem drawGamepads_merges_user_profile_witness :
    (drawGamepads fallbackLibrary connectedState.globalGamepads
        [("drawAlphaMask", .bool false), ("color", .str "#000000")] connectedState).state? =
      some (emit (Effect.profileDraw .UnknownController 400 100 (plainGamepad 0 "Pad 0")
        [("drawAlphaMask", .bool false), ("color", .str "#ff0000"),
          ("profileName", .str "Default")]) connectedState) ∧
    objGet (mergeOptions [("drawAlphaMask", .bool false), ("color", .str "#000000")]
        (some [("profileName", .str "Default"), ("color", .str "#ff0000")])) "color" =
      objGet [("profileName", .str "Default"), ("color", .str "#ff0000")] "color" :=
  ⟨by decide!,
    ((drawGamepads_merges_user_profile fallbackLibrary connectedState.globalGamepads
      [("drawAlphaMask", .bool false), ("color", .str "#000000")] connectedState
      (emit (Effect.profileDraw .UnknownController 400 100 (plainGamepad 0 "Pad 0")
        [("drawAlphaMask", .bool false), ("color", .str "#ff0000"),
          ("profileName", .str "Default")]) connectedState) (by decide!)).2.2
      [("profileName", .str "Default"), ("color", .str "#ff0000")] "color"
      (by decide) (by decide)).2⟩

theorem drawGamepads_distribution_axis_witness :
    threePadsState.globalGamepads.length ≠ 1 ∧
    (∀ k ∈ mapKeys threePadsState.globalGamepads, k < threePadsState.globalGamepads.length) ∧
    (∃ t, drawGamepads fallbackLibrary threePadsState.globalGamepads [] threePadsState =
      .ok () t) ∧
    gamepadCentre fallbackLibrary 800 200 threePadsState.globalGamepads 1 = some (405, 100) ∧
    gamepadCentre fallbackLibrary 200 800 threePadsState.globalGamepads 1 = some (100, 400) ∧
    gamepadCentre fallbackLibrary 800 800 threePadsState.globalGamepads 1 = some (405, 400) :=
  ⟨by decide, by decide,
    (drawGamepads_distribution_axis fallbackLibrary [] threePadsState).2.2
      threePadsState.globalGamepads (by decide) (by decide),
    by decide!, by decide!, by decide!⟩

theorem drawGamepads_layout_of_dense_keys_witness :
    1 < threePadsState.globalGamepads.length ∧
    mapKeys threePadsState.globalGamepads = List.range threePadsState.globalGamepads.length ∧
    drawGamepads fallbackLibrary threePadsState.globalGamepads [] threePadsState =
      .ok () { threePadsState with effects := threePadsState.effects ++ threePadsState.globalGamepads.filterMap (profileDrawCall fallbackLibrary threePadsState.canvasWidth threePadsState.canvasHeight threePadsState.globalGamepads []) } ∧
    gamepadCentre fallbackLibrary 800 200 threePadsState.globalGamepads 0 = some (275, 100) ∧
    gamepadCentre fallbackLibrary 800 200 threePadsState.globalGamepads 1 = some (405, 100) ∧
    gamepadCentre fallbackLibrary 800 200 threePadsState.globalGamepads 2 = some (530, 100) :=
  ⟨by decide, by decide,
    (drawGamepads_layout_of_dense_keys fallbackLibrary [] threePadsState
      threePadsState.globalGamepads (by decide) (by decide)).1,
    by decide!, by decide!, by decide!⟩

/-! ## Reset to the default user profile -/

theorem objHas_foldl_objDelete (ks : List String) (o : JsObject) (k : String) :
    objHas (ks.foldl (fun o j => objDelete o j) o) k = true ↔ objHas o k = true ∧ k ∉ ks := by
  induction ks generalizing o with
  | nil => simp
  | cons j js ih =>
    simp only [List.foldl_cons, List.mem_cons, not_or]
    rw [ih, objHas_objDelete]
    tauto

theorem objHas_foldl_objSet (d : JsObject) (ks : List String) (o : JsObject) (k : String) :
    objHas (ks.foldl (fun o j => objSet o j (objGet d j)) o) k = true ↔
      objHas o k = true ∨ k ∈ ks := by
  induction ks generalizing o with
  | nil => simp
  | cons j js ih =>
    simp only [List.foldl_cons, List.mem_cons]
    rw [ih, objHas_objSet]
    tauto

/-- The keys after the reset to the default: those of the default and those the user
profile had before. -/
theorem objHas_resetToDefault (u d : UserProfile) (k : String) :
    objHas (resetToDefault u d) k = true ↔ objHas u k = true ∨ objHas d k = true := by
  simp only [resetToDefault]
  rw [objHas_foldl_objSet, objHas_foldl_objDelete, objHas_iff_mem_objKeys d]
  tauto

/-- The value of a key that the default does not have is kept by the reset. -/
theorem objGet_resetToDefault_of_not_has (u d : UserProfile) (k : String)
    (hk : ¬ objHas d k = true) : objGet (resetToDefault u d) k = objGet u k := by
  rw [objHas_iff_mem_objKeys] at hk
  simp only [resetToDefault]
  have h1 : ∀ (ks : List String) (o : JsObject), k ∉ ks →
      objGet (ks.foldl (fun o j => objSet o j (objGet d j)) o) k = objGet o k := by
    intro ks
    induction ks with
    | nil => intro o _; rfl
    | cons j js ih =>
      intro o hks
      simp only [List.mem_cons, not_or] at hks
      simp only [List.foldl_cons]
      rw [ih _ hks.2, objGet_objSet_ne _ _ _ _ hks.1]
  have h2 : ∀ (o : JsObject) (j : String), k ≠ j → objGet (objDelete o j) k = objGet o k :=
    fun o j hkj => objGet_objDelete_ne o j k hkj
  have h3 : ∀ (ks : List String) (o : JsObject), k ∉ ks →
      objGet (ks.foldl (fun o j => objDelete o j) o) k = objGet o k := by
    intro ks
    induction ks with
    | nil => intro o _; rfl
    | cons j js ih =>
      intro o hks
      simp only [List.mem_cons, not_or] at hks
      simp only [List.foldl_cons]
      rw [ih _ hks.2, h2 _ _ hks.1]
  rw [h1 _ _ hk, h3 _ _ hk]

/-- C16 at a failing input: device 0 of `staleProfileState` has the user profile
`{profileName: "Old", stale: "x"}`, whose name is not stored, and the default of
its visualization profile is `{profileName: "Default", color: "#ff0000"}`; the
reset-to-default path of `addGamepadListElement` leaves the user profile
`{stale: "x", profileName: "Default", color: "#ff0000"}`: the key `stale`, which
the default does not have, has not been removed. -/
theorem addGamepadListElement_keeps_stale_key :
    addGamepadListElement fallbackLibrary 0 staleProfileState =
      .ok () (setUserProfile 0
        (some [("stale", .str "x"), ("profileName", .str "Default"), ("color", .str "#ff0000")])
        staleProfileState) ∧
    mapGet staleProfileState.globalGamepads 0 =
      some ⟨plainGamepad 0 "Pad 0", .UnknownController,
        some [("profileName", .str "Old"), ("stale", .str "x")]⟩ ∧
    profileNameListed staleProfileState.store "Unknown Controller"
      [("profileName", .str "Old"), ("stale", .str "x")] = false ∧
    getUserProfile staleProfileState.store "Unknown Controller" .undefined =
      some [("profileName", .str "Default"), ("color", .str "#ff0000")] ∧
    objHas [("profileName", JsValue.str "Default"), ("color", JsValue.str "#ff0000")] "stale" =
      false ∧
    objHas (resetToDefault [("profileName", .str "Old"), ("stale", .str "x")]
      [("profileName", .str "Default"), ("color", .str "#ff0000")]) "stale" = true := by
  decide

/-! ## The placeholder frame -/

theorem placeholderFontSize_eq (w h : Nat) :
    placeholderFontSize w h = ((min 50 (min w h / 10) : Nat) : Int) := by
  simp only [placeholderFontSize]
  generalize min w h = m
  rw [Int.floor_eq_iff]
  have h1 : 10 * (m / 10) ≤ m := Nat.mul_div_le m 10
  have h2 : m < 10 * (m / 10) + 10 := by omega
  have h1q : (10 : ℚ) * ((m / 10 : Nat) : ℚ) ≤ (m : ℚ) := by exact_mod_cast h1
  have h2q : (m : ℚ) < 10 * ((m / 10 : Nat) : ℚ) + 10 := by exact_mod_cast h2
  by_cases hc : 50 ≤ m / 10
  · have hm : (50 : ℚ) ≤ ((m / 10 : Nat) : ℚ) := by exact_mod_cast hc
    have hq : (50 : ℚ) ≤ (m : ℚ) / 10 := by
      rw [le_div_iff₀ (by norm_num)]
      linarith
    rw [min_eq_left hc, min_eq_left hq]
    norm_num
  · have hc2 : m / 10 ≤ 50 := by omega
    have hm : ((m / 10 : Nat) : ℚ) + 1 ≤ 50 := by
      have : m / 10 + 1 ≤ 50 := by omega
      exact_mod_cast this
    have hq : (m : ℚ) / 10 ≤ 50 := by
      rw [div_le_iff₀ (by norm_num)]
      linarith
    rw [min_eq_right hc2, min_eq_right hq]
    rw [Int.cast_natCast]
    constructor
    · rw [le_div_iff₀ (by norm_num)]
      linarith
    · rw [div_lt_iff₀ (by norm_num)]
      linarith

/-- C17 fails as stated: on a canvas of 455 by 455 without devices `draw` writes the
placeholder text with the font `45px Helvetica`, whereas
`min(50, min(455, 455) / 10)` is 45.5. -/
theorem draw_placeholder_font_counterexample :
    draw fallbackLibrary (initialState 455 455) =
      .ok () { initialState 455 455 with
        globalForceRedraw := false
        effects := [Effect.clearRect 455 455, Effect.fillRect "#DCDCDC" 455 455,
          Effect.fillRect "rgba(255,255,255,0.35)" 455 455,
          Effect.fillText "45px Helvetica" "Connect a" (365 / 2) (255 / 2),
          Effect.fillText "45px Helvetica" "gamepad and" (345 / 2) (355 / 2),
          Effect.fillText "45px Helvetica" "press any" (365 / 2) (455 / 2),
          Effect.fillText "45px Helvetica" "button" (395 / 2) (555 / 2)] } ∧
    (initialState 455 455).globalGamepads = [] ∧
    min (50 : ℚ) (((min 455 455 : Nat) : ℚ) / 10) = 91 / 2 ∧
    placeholderFontSize 455 455 = 45 := by
  decide!

/-- C17, amended: for every canvas width and height, when no device is registered
`draw` clears the canvas, fills it with the background colour and the overlay,
and writes the four lines of the placeholder text with the font
`<fontSize>px Helvetica`, where `fontSize` is `min(50, min(width, height) / 10)`
rounded down to an integer, the lines being `fontSize + 5` apart; then comes
the debug overlay. -/
theorem draw_placeholder_font (lib : ProfileLibrary) (s : State) (h : s.globalGamepads = []) :
    placeholderFontSize s.canvasWidth s.canvasHeight =
      ((min 50 (min s.canvasWidth s.canvasHeight / 10) : Nat) : Int) ∧
    ((placeholderFontSize s.canvasWidth s.canvasHeight : Int) : ℚ) ≤
      min (50 : ℚ) (((min s.canvasWidth s.canvasHeight : Nat) : ℚ) / 10) ∧
    min (50 : ℚ) (((min s.canvasWidth s.canvasHeight : Nat) : ℚ) / 10) <
      ((placeholderFontSize s.canvasWidth s.canvasHeight : Int) : ℚ) + 1 ∧
    ∀ (fontSize : Int) (font : String) (heightCenter : ℚ),
      fontSize = placeholderFontSize s.canvasWidth s.canvasHeight →
      font = toString fontSize ++ "px Helvetica" →
      heightCenter = (s.canvasHeight : ℚ) / 2 - (((fontSize : ℚ) + 5) * 4) / 2 →
      draw lib s = drawDebug { s with
        globalForceRedraw := false
        effects := s.effects ++ [Effect.clearRect s.canvasWidth s.canvasHeight,
          Effect.fillRect s.globalOptionBackgroundColor s.canvasWidth s.canvasHeight,
          Effect.fillRect overlayFillStyle s.canvasWidth s.canvasHeight,
          Effect.fillText font "Connect a"
            ((s.canvasWidth : ℚ) / 2 - lib.measureText font "Connect a" / 2)
            (heightCenter + 0 * ((fontSize : ℚ) + 5)),
          Effect.fillText font "gamepad and"
            ((s.canvasWidth : ℚ) / 2 - lib.measureText font "gamepad and" / 2)
            (heightCenter + 1 * ((fontSize : ℚ) + 5)),
          Effect.fillText font "press any"
            ((s.canvasWidth : ℚ) / 2 - lib.measureText font "press any" / 2)
            (heightCenter + 2 * ((fontSize : ℚ) + 5)),
          Effect.fillText font "button"
            ((s.canvasWidth : ℚ) / 2 - lib.measureText font "button" / 2)
            (heightCenter + 3 * ((fontSize : ℚ) + 5))] } := by
  refine ⟨placeholderFontSize_eq _ _, ?_, ?_, ?_⟩
  · exact Int.floor_le _
  · exact Int.lt_floor_add_one _
  · intro fontSize font heightCenter hf hfont hhc
    subst hf
    subst hfont
    subst hhc
    simp only [draw, emit, h, List.length_nil, gt_iff_lt, lt_self_iff_false, if_false,
      textConnectGamepadParts, drawPlaceholderLines, List.length_cons, List.append_assoc,
      List.singleton_append, List.cons_append, List.nil_append]
    norm_num

theorem draw_placeholder_font_witness :
    (initialState 455 455).globalGamepads = [] ∧
    placeholderFontSize (initialState 455 455).canvasWidth (initialState 455 455).canvasHeight =
      ((min 50 (min (initialState 455 455).canvasWidth (initialState 455 455).canvasHeight / 10) :
        Nat) : Int) ∧
    (min 50 (min (initialState 455 455).canvasWidth (initialState 455 455).canvasHeight / 10) :
      Nat) = 45 :=
  ⟨rfl, (draw_placeholder_font fallbackLibrary (initialState 455 455) rfl).1, by decide⟩

/-! ## Frame requests and the redraw guard -/

theorem updateGamepads_ne_outOfFuel (lib : ProfileLibrary) (poll : List (Option Gamepad))
    (s : State) : updateGamepads lib poll s ≠ .outOfFuel := by
  induction poll generalizing s with
  | nil => simp [updateGamepads]
  | cons x rest ih =>
    cases x with
    | none => exact ih s
    | some g =>
      simp only [updateGamepads]
      split
      · exact ih _
      · cases ha : addGamepad lib g s with
        | ok v s1 => exact ih s1
        | threw e s1 => simp
        | outOfFuel => exact absurd ha (addGamepad_ne_outOfFuel lib g s)

/-- A poll that returns and leaves the registry empty has changed nothing. -/
theorem updateGamepads_ok_nil (lib : ProfileLibrary) (poll : List (Option Gamepad))
    (s s1 : State) (h : updateGamepads lib poll s = .ok () s1) (he : s1.globalGamepads = []) :
    s1 = s := by
  have hnone : ∀ x ∈ poll, x = none := by
    intro x hx
    cases x with
    | none => rfl
    | some g =>
      have := (mem_mapKeys_updateGamepads lib poll s s1 h g.index).2 (Or.inr ⟨g, hx, rfl⟩)
      rw [he] at this
      simp [mapKeys] at this
  rw [updateGamepads_of_empty_slots lib poll s hnone] at h
  simp only [Res.ok.injEq, true_and] at h
  exact h.symm

/-- The two ways in which `update` returns. -/
theorem update_ok_cases (lib : ProfileLibrary) (poll : List (Option Gamepad)) (timeDelta : ℚ)
    (s t : State) (b : Bool) (h : update lib poll timeDelta s = .ok b t) :
    ∃ s1, updateGamepads lib poll s = .ok () s1 ∧
      ((b = false ∧ (s1.globalGamepads = [] ∧ s1.globalEmptyFrameAlreadyRendered = some true ∧
          s1.globalForceRedraw = false) ∧
        t = { s1 with fps := if timeDelta = 0 then 0 else 1000 / timeDelta }) ∨
      (b = true ∧ ¬ (s1.globalGamepads = [] ∧ s1.globalEmptyFrameAlreadyRendered = some true ∧
          s1.globalForceRedraw = false) ∧
        t = { s1 with
          fps := if timeDelta = 0 then 0 else 1000 / timeDelta
          globalEmptyFrameAlreadyRendered := some (decide (s1.globalGamepads = []))
          globalForceRedraw := false })) := by
  cases hp : updateGamepads lib poll s with
  | outOfFuel => simp [update, hp] at h
  | threw e s1 => simp [update, hp] at h
  | ok v s1 =>
    refine ⟨s1, rfl, ?_⟩
    have hu := update_of_updateGamepads lib poll timeDelta s s1 hp
    by_cases hc : s1.globalGamepads = [] ∧ s1.globalEmptyFrameAlreadyRendered = some true ∧
        s1.globalForceRedraw = false
    · rw [hu.1 hc] at h
      simp only [Res.ok.injEq] at h
      exact Or.inl ⟨h.1.symm, hc, h.2.symm⟩
    · rw [hu.2 hc] at h
      simp only [Res.ok.injEq] at h
      exact Or.inr ⟨h.1.symm, hc, h.2.symm⟩

/-- When `update` returns `false`, nothing has changed but the frame rate, and no
redraw is forced. -/
theorem update_ok_false (lib : ProfileLibrary) (poll : List (Option Gamepad)) (timeDelta : ℚ)
    (s t : State) (h : update lib poll timeDelta s = .ok false t) :
    t = { s with fps := if timeDelta = 0 then 0 else 1000 / timeDelta } ∧
      t.globalForceRedraw = false ∧ t.globalGamepads = [] := by
  obtain ⟨s1, hp, hc⟩ := update_ok_cases lib poll timeDelta s t false h
  rcases hc with ⟨_, hidle, ht⟩ | ⟨hb, _, _⟩
  · have hs := updateGamepads_ok_nil lib poll s s1 hp hidle.1
    subst hs
    subst ht
    exact ⟨rfl, hidle.2.2, hidle.1⟩
  · cases hb

/-- When `update` returns `true`, the force-redraw flag has been cleared and
`globalEmptyFrameAlreadyRendered` tells whether the registry is empty. -/
theorem update_ok_true (lib : ProfileLibrary) (poll : List (Option Gamepad)) (timeDelta : ℚ)
    (s t : State) (h : update lib poll timeDelta s = .ok true t) :
    t.globalForceRedraw = false ∧
      t.globalEmptyFrameAlreadyRendered = some (decide (t.globalGamepads = [])) := by
  obtain ⟨s1, _, hc⟩ := update_ok_cases lib poll timeDelta s t true h
  rcases hc with ⟨hb, _, _⟩ | ⟨_, _, ht⟩
  · cases hb
  · subst ht
    exact ⟨rfl, rfl⟩

theorem loop_eq (lib : ProfileLibrary) (poll : List (Option Gamepad)) (time : ℚ) (s : State) :
    loop lib poll time s =
      match update lib poll (loopDeltaTime time s) (loopUpdateState time s) with
      | .ok redraw s3 =>
        if redraw = false ∧ s3.globalForceRedraw = false then
          .ok () (requestAnimationFrame (cancelAnimationFrame s3))
        else
          match draw lib s3 with
          | .ok _ s4 => .ok () (requestAnimationFrame { s4 with globalTimeLastFrame := some time })
          | .threw e s4 => .threw e s4
          | .outOfFuel => .outOfFuel
      | .threw e s3 => .threw e s3
      | .outOfFuel => .outOfFuel := rfl

theorem loopUpdateState_globalTimeLastFrame (time : ℚ) (s : State) :
    (loopUpdateState time s).globalTimeLastFrame = some (s.globalTimeLastFrame.getD time) := by
  simp only [loopUpdateState]
  cases h : s.globalTimeLastFrame with
  | none => simp [cancelAnimationFrame, emit]
  | some last =>
    simp only [Option.getD_some]
    split
    · simpa [cancelAnimationFrame, emit] using h
    · exact h

theorem loop_of_update_false (lib : ProfileLibrary) (poll : List (Option Gamepad)) (time : ℚ)
    (s s3 : State)
    (h : update lib poll (loopDeltaTime time s) (loopUpdateState time s) = .ok false s3) :
    loop lib poll time s = .ok () (requestAnimationFrame (cancelAnimationFrame s3)) := by
  have hf := (update_ok_false lib poll _ _ s3 h).2.1
  rw [loop_eq, h]
  simp [hf]

theorem loop_of_update_true (lib : ProfileLibrary) (poll : List (Option Gamepad)) (time : ℚ)
    (s s3 : State)
    (h : update lib poll (loopDeltaTime time s) (loopUpdateState time s) = .ok true s3) :
    loop lib poll time s =
      match draw lib s3 with
      | .ok _ s4 => .ok () (requestAnimationFrame { s4 with globalTimeLastFrame := some time })
      | .threw e s4 => .threw e s4
      | .outOfFuel => .outOfFuel := by
  rw [loop_eq, h]
  simp

theorem loop_of_update_threw (lib : ProfileLibrary) (poll : List (Option Gamepad)) (time : ℚ)
    (s s3 : State) (e : String)
    (h : update lib poll (loopDeltaTime time s) (loopUpdateState time s) = .threw e s3) :
    loop lib poll time s = .threw e s3 := by
  rw [loop_eq, h]

theorem drawGamepadsLoop_ne_outOfFuel (lib : ProfileLibrary) (gamepads : GamepadInfoMap)
    (options : JsObject) (rest : GamepadInfoMap) (s : State) :
    drawGamepadsLoop lib gamepads options rest s ≠ .outOfFuel := by
  induction rest generalizing s with
  | nil => simp [drawGamepadsLoop]
  | cons p t ih =>
    obtain ⟨k, info⟩ := p
    simp only [drawGamepadsLoop]
    split
    · simp
    · exact ih _

theorem drawDebug_ne_outOfFuel (s : State) : drawDebug s ≠ .outOfFuel := by
  simp only [drawDebug]
  split
  · split <;> simp
  · simp

theorem draw_ne_outOfFuel (lib : ProfileLibrary) (s : State) : draw lib s ≠ .outOfFuel := by
  simp only [draw]
  split
  · cases hd : drawGamepads lib _ _ _ with
    | ok v s3 => exact drawDebug_ne_outOfFuel s3
    | threw e s3 => simp
    | outOfFuel => exact absurd hd (drawGamepadsLoop_ne_outOfFuel lib _ _ _ _)
  · exact drawDebug_ne_outOfFuel _

theorem update_ne_outOfFuel (lib : ProfileLibrary) (poll : List (Option Gamepad)) (timeDelta : ℚ)
    (s : State) : update lib poll timeDelta s ≠ .outOfFuel := by
  cases hp : updateGamepads lib poll s with
  | ok v s1 =>
    have hu := update_of_updateGamepads lib poll timeDelta s s1 hp
    by_cases hc : s1.globalGamepads = [] ∧ s1.globalEmptyFrameAlreadyRendered = some true ∧
        s1.globalForceRedraw = false
    · rw [hu.1 hc]; simp
    · rw [hu.2 hc]; simp
  | threw e s1 => simp [update, hp]
  | outOfFuel => exact absurd hp (updateGamepads_ne_outOfFuel lib poll s)

/-- Every call of `loop` returns or raises: the recursion budget of the model is
never exhausted. -/
theorem loop_ne_outOfFuel (lib : ProfileLibrary) (poll : List (Option Gamepad)) (time : ℚ)
    (s : State) : loop lib poll time s ≠ .outOfFuel := by
  rw [loop_eq]
  cases hu : update lib poll (loopDeltaTime time s) (loopUpdateState time s) with
  | outOfFuel => exact absurd hu (update_ne_outOfFuel lib poll _ _)
  | threw e s3 => simp
  | ok b s3 =>
    simp only
    split
    · simp
    · cases hd : draw lib s3 with
      | ok v s4 => simp
      | threw e s4 => simp
      | outOfFuel => exact absurd hd (draw_ne_outOfFuel lib s3)

/-- C18 fails as stated.  From the initial state, with the device 0 in the poll
result and no default user profile in the store, `update` raises the error
"No default user profile was found" that `addGamepadListElement` throws, and
`loop` ends there: it has requested no frame, and no request is pending.  In
`requestAnimationFrame idleState` the request 0 of an earlier frame is the
pending one; there the same poll result makes `loop` raise the same error with
the trace of effects it started with, so without a new request, the pending
request still being the request 0. -/
theorem loop_raises_without_request_counterexample :
    getUserProfile (initialState 800 200).store
      (fallbackLibrary.profileName
        (selectVisualizationProfile fallbackLibrary (plainGamepad 0 "Pad 0"))) .undefined = none ∧
    (match loop fallbackLibrary [some (plainGamepad 0 "Pad 0")] 5 (initialState 800 200) with
      | .threw e t => some (e, t.globalAnimationFrameRequest, t.effects)
      | _ => none) =
      some ("No default user profile was found", none, [Effect.cancelAnimationFrame none]) ∧
    (requestAnimationFrame idleState).effects = [Effect.requestAnimationFrame 0] ∧
    (match loop fallbackLibrary [some (plainGamepad 0 "Pad 0")] 21
        (requestAnimationFrame idleState) with
      | .threw e t => some (e, t.globalAnimationFrameRequest, t.effects)
      | _ => none) =
      some ("No default user profile was found", some 0, [Effect.requestAnimationFrame 0]) := by
  decide!

/-- C18, amended: `loop` calls `update` in the state `loopUpdateState time s` (the
last-frame time initialised on the very first call). When `update` returns
`false`, it has changed nothing but the frame rate, and `loop` skips `draw`,
cancels the pending request, issues a new request, stores its id as the
pending request and leaves the recorded last-frame time as it is. When
`update` returns `true` and `draw` returns, `loop` records the time passed as
the last-frame time, issues a new request and stores its id. When `update`
or `draw` raises, `loop` raises the same error in the state that `update` or
`draw` has left, to which it adds nothing: neither of its own two requests
is reached.  These are all the cases: `update`, `draw` and `loop` each return
or raise. -/
theorem loop_requests_next_frame (lib : ProfileLibrary) (poll : List (Option Gamepad))
    (time : ℚ) (s : State) :
    (∀ s3, update lib poll (loopDeltaTime time s) (loopUpdateState time s) = .ok false s3 →
      s3 = { loopUpdateState time s with
        fps := if loopDeltaTime time s = 0 then 0 else 1000 / loopDeltaTime time s } ∧
      loop lib poll time s = .ok () (requestAnimationFrame (cancelAnimationFrame s3)) ∧
      (requestAnimationFrame (cancelAnimationFrame s3)).globalTimeLastFrame =
        some (s.globalTimeLastFrame.getD time) ∧
      (requestAnimationFrame (cancelAnimationFrame s3)).globalAnimationFrameRequest =
        some s3.nextAnimationFrameId ∧
      (requestAnimationFrame (cancelAnimationFrame s3)).effects =
        (loopUpdateState time s).effects ++
          [Effect.cancelAnimationFrame s3.globalAnimationFrameRequest,
            Effect.requestAnimationFrame s3.nextAnimationFrameId]) ∧
    (∀ s3 s4, update lib poll (loopDeltaTime time s) (loopUpdateState time s) = .ok true s3 →
      draw lib s3 = .ok () s4 →
      loop lib poll time s =
        .ok () (requestAnimationFrame { s4 with globalTimeLastFrame := some time }) ∧
      (requestAnimationFrame { s4 with globalTimeLastFrame := some time }).globalTimeLastFrame =
        some time ∧
      (requestAnimationFrame
        { s4 with globalTimeLastFrame := some time }).globalAnimationFrameRequest =
        some s4.nextAnimationFrameId ∧
      (requestAnimationFrame { s4 with globalTimeLastFrame := some time }).effects =
        s4.effects ++ [Effect.requestAnimationFrame s4.nextAnimationFrameId]) ∧
    (∀ s3 e s4, update lib poll (loopDeltaTime time s) (loopUpdateState time s) = .ok true s3 →
      draw lib s3 = .threw e s4 → loop lib poll time s = .threw e s4) ∧
    (∀ e s3, update lib poll (loopDeltaTime time s) (loopUpdateState time s) = .threw e s3 →
      loop lib poll time s = .threw e s3) ∧
    update lib poll (loopDeltaTime time s) (loopUpdateState time s) ≠ .outOfFuel ∧
    (∀ s3, draw lib s3 ≠ .outOfFuel) ∧
    loop lib poll time s ≠ .outOfFuel := by
  refine ⟨?_, ?_, ?_, ?_, update_ne_outOfFuel lib poll _ _, draw_ne_outOfFuel lib,
    loop_ne_outOfFuel lib poll time s⟩
  · intro s3 h
    have hs3 := (update_ok_false lib poll _ _ s3 h).1
    refine ⟨hs3, loop_of_update_false lib poll time s s3 h, ?_, rfl, ?_⟩
    · rw [← loopUpdateState_globalTimeLastFrame time s, hs3]
      rfl
    · rw [hs3]
      simp [requestAnimationFrame, cancelAnimationFrame, emit]
  · intro s3 s4 h hd
    refine ⟨?_, rfl, rfl, rfl⟩
    rw [loop_of_update_true lib poll time s s3 h, hd]
  · intro s3 e s4 h hd
    rw [loop_of_update_true lib poll time s s3 h, hd]
  · intro e s3 h
    exact loop_of_update_threw lib poll time s s3 e h

theorem loop_requests_next_frame_witness :
    update fallbackLibrary [] (loopDeltaTime 16 idleState) (loopUpdateState 16 idleState) =
      .ok false { idleState with fps := 125 / 2 } ∧
    loop fallbackLibrary [] 16 idleState =
      .ok () (requestAnimationFrame (cancelAnimationFrame { idleState with fps := 125 / 2 })) :=
  ⟨by decide!,
    ((loop_requests_next_frame fallbackLibrary [] 16 idleState).1
      { idleState with fps := 125 / 2 } (by decide!)).2.1⟩

/-- C20: whenever `update` returns `false` the force-redraw flag is `false` on
return; whenever it returns `true` the flag has been cleared and
`globalEmptyFrameAlreadyRendered` equals (the registry is empty); and `loop`
is the same function as `loopUpdateGuard`, which has the guard
`!update(deltaTime)` alone and so calls `draw` if and only if `update` returned
`true`. -/
theorem loop_guard_is_update_result (lib : ProfileLibrary) (poll : List (Option Gamepad)) :
    (∀ (timeDelta : ℚ) (s t : State), update lib poll timeDelta s = .ok false t →
      t.globalForceRedraw = false) ∧
    (∀ (timeDelta : ℚ) (s t : State), update lib poll timeDelta s = .ok true t →
      t.globalForceRedraw = false ∧
      t.globalEmptyFrameAlreadyRendered = some (decide (t.globalGamepads = []))) ∧
    (∀ (time : ℚ) (s : State), loop lib poll time s = loopUpdateGuard lib poll time s) := by
  refine ⟨fun d s t h => (update_ok_false lib poll d s t h).2.1,
    fun d s t h => update_ok_true lib poll d s t h, ?_⟩
  intro time s
  have hg : loopUpdateGuard lib poll time s =
      match update lib poll (loopDeltaTime time s) (loopUpdateState time s) with
      | .ok redraw s3 =>
        if redraw = false then
          .ok () (requestAnimationFrame (cancelAnimationFrame s3))
        else
          match draw lib s3 with
          | .ok _ s4 => .ok () (requestAnimationFrame { s4 with globalTimeLastFrame := some time })
          | .threw e s4 => .threw e s4
          | .outOfFuel => .outOfFuel
      | .threw e s3 => .threw e s3
      | .outOfFuel => .outOfFuel := rfl
  rw [hg]
  cases hu : update lib poll (loopDeltaTime time s) (loopUpdateState time s) with
  | outOfFuel => rw [loop_eq, hu]
  | threw e s3 => rw [loop_eq, hu]
  | ok b s3 =>
    cases b with
    | false =>
      rw [loop_of_update_false lib poll time s s3 hu]
      simp
    | true =>
      rw [loop_of_update_true lib poll time s s3 hu]
      simp

theorem loop_guard_is_update_result_witness :
    update fallbackLibrary [] 16 idleState = .ok false { idleState with fps := 125 / 2 } ∧
    ({ idleState with fps := 125 / 2 } : State).globalForceRedraw = false ∧
    update fallbackLibrary [] 16 (initialState 800 200) =
      .ok true { initialState 800 200 with
        fps := 125 / 2
        globalEmptyFrameAlreadyRendered := some true
        globalForceRedraw := false } :=
  ⟨by decide!,
    (loop_guard_is_update_result fallbackLibrary []).1 16 idleState
      { idleState with fps := 125 / 2 } (by decide!),
    by decide!⟩

/-! ## What the export changes -/

theorem objectAt_objectPut_self (objects : List (Nat × UserProfile)) (a : Nat) (v : UserProfile) :
    objectAt (objectPut objects a v) a = some v := by
  induction objects with
  | nil => simp [objectPut, objectAt]
  | cons p t ih =>
    obtain ⟨b, c⟩ := p
    by_cases h : b = a
    · simp [objectPut, objectAt, h]
    · simpa [objectPut, objectAt, h] using ih

theorem objectAt_objectPut_ne (objects : List (Nat × UserProfile)) (a b : Nat) (v : UserProfile)
    (hne : b ≠ a) : objectAt (objectPut objects a v) b = objectAt objects b := by
  induction objects with
  | nil => simp [objectPut, objectAt, Ne.symm hne]
  | cons p t ih =>
    obtain ⟨c, d⟩ := p
    by_cases h : c = a
    · subst h
      simp [objectPut, objectAt, Ne.symm hne]
    · by_cases h2 : c = b
      · subst h2
        simp [objectPut, objectAt, hne]
      · simpa [objectPut, objectAt, h, h2] using ih

theorem mapGet_resolveRegistry (r : SharedRegistry) (k : Nat) :
    mapGet (resolveRegistry r) k = (entryAt r.entries k).map (resolveEntry r.objects) := by
  simp only [resolveRegistry]
  induction r.entries with
  | nil => rfl
  | cons p t ih =>
    obtain ⟨a, b⟩ := p
    by_cases h : a = k
    · simp [mapGet, entryAt, h]
    · simpa [mapGet, entryAt, h] using ih

/-- The object that `Object.assign(userProfile, { gamepadId, visualizationProfile })`
leaves: the keys of `userProfile` and the two assigned ones, the assigned values
under the latter and the old values under every other key. -/
theorem objAssign_export_metadata (P : UserProfile) (gamepadId visualizationProfile : JsValue) :
    (∀ k, objHas (objAssign P [("gamepadId", gamepadId),
        ("visualizationProfile", visualizationProfile)]) k = true ↔
      (objHas P k = true ∨ k = "gamepadId" ∨ k = "visualizationProfile")) ∧
    objGet (objAssign P [("gamepadId", gamepadId),
      ("visualizationProfile", visualizationProfile)]) "gamepadId" = gamepadId ∧
    objGet (objAssign P [("gamepadId", gamepadId),
      ("visualizationProfile", visualizationProfile)]) "visualizationProfile" =
        visualizationProfile ∧
    ∀ k, k ≠ "gamepadId" → k ≠ "visualizationProfile" →
      objGet (objAssign P [("gamepadId", gamepadId),
        ("visualizationProfile", visualizationProfile)]) k = objGet P k := by
  have hform : objAssign P [("gamepadId", gamepadId),
      ("visualizationProfile", visualizationProfile)] =
      objSet (objSet P "gamepadId" gamepadId) "visualizationProfile" visualizationProfile := rfl
  rw [hform]
  refine ⟨?_, ?_, objGet_objSet_self _ _ _, ?_⟩
  · intro k
    rw [objHas_objSet, objHas_objSet]
    tauto
  · rw [objGet_objSet_ne _ _ _ _ (by decide), objGet_objSet_self]
  · intro k h1 h2
    rw [objGet_objSet_ne _ _ _ _ h2, objGet_objSet_ne _ _ _ _ h1]

/-- What `exportUserProfile` returns for a registered device with a user profile. -/
theorem exportUserProfile_of_profile (lib : ProfileLibrary) (g : Gamepad) (s : State)
    (info : GamepadInfo) (P : UserProfile)
    (hreg : mapGet s.globalGamepads g.index = some info) (hP : info.userProfile = some P) :
    exportUserProfile lib g s = .ok () (downloadObjectAsJson
      (objAssign P [("gamepadId", .str g.id),
        ("visualizationProfile", .str (lib.profileName info.visualizationProfile))])
      (exportName g.id (lib.profileName info.visualizationProfile)
        (objAssign P [("gamepadId", .str g.id),
          ("visualizationProfile", .str (lib.profileName info.visualizationProfile))]))
      (setUserProfile g.index (some (objAssign P [("gamepadId", .str g.id),
        ("visualizationProfile", .str (lib.profileName info.visualizationProfile))])) s)) := by
  simp only [exportUserProfile, hreg, hP]

/-- Without a user profile object `Object.assign` raises a `TypeError`, and nothing
has changed. -/
theorem exportUserProfile_of_undefined (lib : ProfileLibrary) (g : Gamepad) (s : State)
    (info : GamepadInfo) (hreg : mapGet s.globalGamepads g.index = some info)
    (hP : info.userProfile = none) :
    exportUserProfile lib g s = .threw "TypeError: cannot convert undefined to object" s := by
  simp only [exportUserProfile, hreg, hP]

/-- What `exportUserProfile` does to a registry that holds the user profiles by
reference. -/
theorem exportUserProfileShared_of_profile (lib : ProfileLibrary) (g : Gamepad)
    (r : SharedRegistry) (e : GamepadInfoRef) (a : Nat) (P : UserProfile)
    (hreg : entryAt r.entries g.index = some e) (ha : e.userProfile = some a)
    (hP : objectAt r.objects a = some P) :
    exportUserProfileShared lib g r = .ok { r with
      objects := objectPut r.objects a (objAssign P [("gamepadId", .str g.id), ("visualizationProfile", .str (lib.profileName e.visualizationProfile))])
      effects := r.effects ++ [Effect.download (exportName g.id (lib.profileName e.visualizationProfile) (objAssign P [("gamepadId", .str g.id), ("visualizationProfile", .str (lib.profileName e.visualizationProfile))]) ++ ".json") (jsonRoundTrip (objAssign P [("gamepadId", .str g.id), ("visualizationProfile", .str (lib.profileName e.visualizationProfile))]))] } := by
  simp only [exportUserProfileShared, hreg, ha, hP]

/-- C21: for a registered device whose active user profile is an object `P`,
`exportUserProfile` returns and leaves in the registry, as the user profile of
the device, the object `Q` that `Object.assign` has made of `P`: `Q` has the
keys of `P` and the keys `gamepadId` and `visualizationProfile`, which hold the
device id and the name of the visualization profile, and under every other key
the value that `P` had.  The snapshot and the visualization profile of the
entry, the keys of the registry, every other entry and every other part of the
state are as before, but for the download added to the effects.  The same holds
when the entries hold their user profiles by reference: no entry changes, the
object of the device is the only one that changes, and an entry reads other
contents than before only if it holds that very object.  The two views agree
when no other entry holds the object of the device. -/
theorem exportUserProfile_mutates_active_profile (lib : ProfileLibrary) (g : Gamepad) :
    (∀ (s : State) (info : GamepadInfo) (P : UserProfile),
      mapGet s.globalGamepads g.index = some info → info.userProfile = some P →
      ∃ t Q, exportUserProfile lib g s = .ok () t ∧
        Q = objAssign P [("gamepadId", .str g.id),
          ("visualizationProfile", .str (lib.profileName info.visualizationProfile))] ∧
        mapGet t.globalGamepads g.index =
          some ⟨info.gamepad, info.visualizationProfile, some Q⟩ ∧
        (∀ k, objHas Q k = true ↔
          (objHas P k = true ∨ k = "gamepadId" ∨ k = "visualizationProfile")) ∧
        objGet Q "gamepadId" = .str g.id ∧
        objGet Q "visualizationProfile" = .str (lib.profileName info.visualizationProfile) ∧
        (∀ k, k ≠ "gamepadId" → k ≠ "visualizationProfile" → objGet Q k = objGet P k) ∧
        mapKeys t.globalGamepads = mapKeys s.globalGamepads ∧
        (∀ k, k ≠ g.index → mapGet t.globalGamepads k = mapGet s.globalGamepads k) ∧
        t = { s with globalGamepads := t.globalGamepads, effects := s.effects ++ [Effect.download (exportName g.id (lib.profileName info.visualizationProfile) Q ++ ".json") (jsonRoundTrip Q)] }) ∧
    (∀ (r : SharedRegistry) (e : GamepadInfoRef) (a : Nat) (P : UserProfile),
      entryAt r.entries g.index = some e → e.userProfile = some a →
      objectAt r.objects a = some P →
      ∃ t Q, exportUserProfileShared lib g r = .ok t ∧
        Q = objAssign P [("gamepadId", .str g.id),
          ("visualizationProfile", .str (lib.profileName e.visualizationProfile))] ∧
        t.entries = r.entries ∧
        objectAt t.objects a = some Q ∧
        (∀ b, b ≠ a → objectAt t.objects b = objectAt r.objects b) ∧
        (∀ other : GamepadInfoRef, other.userProfile ≠ some a →
          resolveEntry t.objects other = resolveEntry r.objects other) ∧
        (∀ other : GamepadInfoRef, other.userProfile = some a →
          resolveEntry t.objects other =
            ⟨other.gamepad, other.visualizationProfile, some Q⟩) ∧
        ∀ s : State, s.globalGamepads = resolveRegistry r →
          (∀ k other, k ≠ g.index → entryAt r.entries k = some other →
            other.userProfile ≠ some a) →
          ∃ u, exportUserProfile lib g s = .ok () u ∧
            ∀ k, mapGet u.globalGamepads k = mapGet (resolveRegistry t) k) := by
  constructor
  · intro s info P hreg hP
    obtain ⟨h1, h2, h3, h4⟩ := objAssign_export_metadata P (.str g.id)
      (.str (lib.profileName info.visualizationProfile))
    refine ⟨_, _, exportUserProfile_of_profile lib g s info P hreg hP, rfl, ?_, h1, h2, h3, h4,
      ?_, ?_, rfl⟩
    · exact mapGet_setUserProfile_self g.index _ s info hreg
    · exact mapKeys_eq_of_shape _ _ (registryShape_mapSetUserProfile _ _ _)
    · intro k hk
      exact mapGet_mapSetUserProfile_ne _ _ _ _ hk
  · intro r e a P hreg ha hP
    have hother : ∀ other : GamepadInfoRef, other.userProfile ≠ some a →
        resolveEntry (objectPut r.objects a (objAssign P [("gamepadId", .str g.id),
          ("visualizationProfile", .str (lib.profileName e.visualizationProfile))])) other =
        resolveEntry r.objects other := by
      intro other hne
      simp only [resolveEntry]
      cases hu : other.userProfile with
      | none => rfl
      | some b =>
        have hb : b ≠ a := by
          intro hba
          apply hne
          rw [hu, hba]
        simp only [Option.some_bind]
        rw [objectAt_objectPut_ne _ _ _ _ hb]
    have hsame : ∀ other : GamepadInfoRef, other.userProfile = some a →
        resolveEntry (objectPut r.objects a (objAssign P [("gamepadId", .str g.id),
          ("visualizationProfile", .str (lib.profileName e.visualizationProfile))])) other =
        ⟨other.gamepad, other.visualizationProfile, some (objAssign P [("gamepadId", .str g.id),
          ("visualizationProfile", .str (lib.profileName e.visualizationProfile))])⟩ := by
      intro other hu
      simp only [resolveEntry, hu, Option.some_bind, objectAt_objectPut_self]
    refine ⟨_, _, exportUserProfileShared_of_profile lib g r e a P hreg ha hP, rfl, rfl,
      objectAt_objectPut_self _ _ _, fun b hb => objectAt_objectPut_ne _ _ _ _ hb,
      hother, hsame, ?_⟩
    intro s hs hsole
    have hinfo : mapGet s.globalGamepads g.index = some (resolveEntry r.objects e) := by
      rw [hs, mapGet_resolveRegistry, hreg]
      rfl
    have hprofile : (resolveEntry r.objects e).userProfile = some P := by
      simp only [resolveEntry, ha, Option.some_bind, hP]
    refine ⟨_, exportUserProfile_of_profile lib g s _ P hinfo hprofile, ?_⟩
    intro k
    rw [mapGet_resolveRegistry]
    by_cases hk : k = g.index
    · subst hk
      have hleft := mapGet_setUserProfile_self g.index
        (some (objAssign P [("gamepadId", .str g.id), ("visualizationProfile",
          .str (lib.profileName (resolveEntry r.objects e).visualizationProfile))])) s _ hinfo
      simp only [downloadObjectAsJson, emit]
      rw [hleft]
      simp only [hreg, Option.map_some']
      rw [hsame e ha]
      rfl
    · have hleft : mapGet (setUserProfile g.index
          (some (objAssign P [("gamepadId", .str g.id), ("visualizationProfile",
            .str (lib.profileName (resolveEntry r.objects e).visualizationProfile))]))
          s).globalGamepads k = mapGet s.globalGamepads k :=
        mapGet_mapSetUserProfile_ne _ _ _ _ hk
      simp only [downloadObjectAsJson, emit]
      rw [hleft, hs, mapGet_resolveRegistry]
      cases hentry : entryAt r.entries k with
      | none => rfl
      | some other =>
        simp only [Option.map_some']
        rw [hother other (hsole k other hk hentry)]

theorem exportUserProfile_mutates_active_profile_witness :
    mapGet connectedState.globalGamepads (plainGamepad 0 "Pad 0").index =
      some ⟨plainGamepad 0 "Pad 0", .UnknownController,
        some [("profileName", .str "Default"), ("color", .str "#ff0000")]⟩ ∧
    (∃ t Q, exportUserProfile fallbackLibrary (plainGamepad 0 "Pad 0") connectedState =
        .ok () t ∧
      Q = [("profileName", .str "Default"), ("color", .str "#ff0000"),
        ("gamepadId", .str "Pad 0"), ("visualizationProfile", .str "Unknown Controller")] ∧
      mapGet t.globalGamepads 0 = some ⟨plainGamepad 0 "Pad 0", .UnknownController, some Q⟩) ∧
    entryAt sharedProfileRegistry.entries (plainGamepad 0 "Pad 0").index =
      some ⟨plainGamepad 0 "Pad 0", .UnknownController, some 0⟩ ∧
    objectAt sharedProfileRegistry.objects 0 =
      some [("profileName", .str "Default"), ("color", .str "#ff0000")] ∧
    (∃ t Q, exportUserProfileShared fallbackLibrary (plainGamepad 0 "Pad 0")
        sharedProfileRegistry = .ok t ∧
      Q = [("profileName", .str "Default"), ("color", .str "#ff0000"),
        ("gamepadId", .str "Pad 0"), ("visualizationProfile", .str "Unknown Controller")] ∧
      t.entries = sharedProfileRegistry.entries ∧
      resolveEntry t.objects ⟨plainGamepad 1 "Pad 1", .UnknownController, some 0⟩ =
        ⟨plainGamepad 1 "Pad 1", .UnknownController, some Q⟩) := by
  refine ⟨by decide, ?_, by decide, by decide, ?_⟩
  · obtain ⟨t, Q, h1, h2, h3, _⟩ :=
      (exportUserProfile_mutates_active_profile fallbackLibrary (plainGamepad 0 "Pad 0")).1
        connectedState
        ⟨plainGamepad 0 "Pad 0", .UnknownController,
          some [("profileName", .str "Default"), ("color", .str "#ff0000")]⟩
        [("profileName", .str "Default"), ("color", .str "#ff0000")] (by decide) rfl
    exact ⟨t, Q, h1, h2, h3⟩
  · obtain ⟨t, Q, h1, h2, h3, _, _, _, h7, _⟩ :=
      (exportUserProfile_mutates_active_profile fallbackLibrary (plainGamepad 0 "Pad 0")).2
        sharedProfileRegistry ⟨plainGamepad 0 "Pad 0", .UnknownController, some 0⟩ 0
        [("profileName", .str "Default"), ("color", .str "#ff0000")] (by decide) rfl
        (by decide)
    exact ⟨t, Q, h1, h2, h3, h7 ⟨plainGamepad 1 "Pad 1", .UnknownController, some 0⟩ rfl⟩

/-! ## Round trip of an exported user profile -/

theorem objSet_of_not_has (o : JsObject) (k : String) (v : JsValue) (h : objHas o k = false) :
    objSet o k v = o ++ [(k, v)] := by
  induction o with
  | nil => rfl
  | cons p t ih =>
    obtain ⟨a, b⟩ := p
    by_cases hak : a = k
    · simp [objHas, hak] at h
    · simp only [objHas, hak, if_false] at h
      simp only [objSet, hak, if_false, List.cons_append, ih h]

theorem objDelete_of_not_has (o : JsObject) (k : String) (h : objHas o k = false) :
    objDelete o k = o := by
  induction o with
  | nil => rfl
  | cons p t ih =>
    obtain ⟨a, b⟩ := p
    by_cases hak : a = k
    · simp [objHas, hak] at h
    · simp only [objHas, hak, if_false] at h
      rw [objDelete_cons_ne _ _ _ _ hak, ih h]

theorem objDelete_append (o o2 : JsObject) (k : String) :
    objDelete (o ++ o2) k = objDelete o k ++ objDelete o2 k := by
  simp only [objDelete, List.filter_append]

theorem jsonRoundTrip_of_defined (o : JsObject) (h : ∀ p ∈ o, p.2 ≠ JsValue.undefined) :
    jsonRoundTrip o = o := by
  simp only [jsonRoundTrip, List.filter_eq_self]
  intro p hp
  simpa using h p hp

/-- The keys that `JSON.parse` reads back from `JSON.stringify(o)`: those of `o` whose
value is not `undefined`. -/
theorem objHas_jsonRoundTrip (o : JsObject) (h : (objKeys o).Nodup) (k : String) :
    objHas (jsonRoundTrip o) k = true ↔ (objHas o k = true ∧ objGet o k ≠ JsValue.undefined) := by
  induction o with
  | nil => simp [jsonRoundTrip, objHas]
  | cons p t ih =>
    obtain ⟨a, b⟩ := p
    simp only [objKeys, List.map_cons, List.nodup_cons] at h
    have iht := ih h.2
    have hnot : a = k → objHas t k = false := by
      intro e
      cases hh : objHas t k with
      | false => rfl
      | true =>
        rw [objHas_iff_mem_objKeys] at hh
        exact absurd (e ▸ hh) h.1
    by_cases hb : b = JsValue.undefined
    · have hf : jsonRoundTrip ((a, b) :: t) = jsonRoundTrip t := by
        simp [jsonRoundTrip, List.filter_cons, hb]
      rw [hf, iht]
      by_cases hak : a = k
      · have := hnot hak
        simp [objHas, objGet, hak, hb, this]
      · simp [objHas, objGet, hak]
    · have hf : jsonRoundTrip ((a, b) :: t) = (a, b) :: jsonRoundTrip t := by
        simp [jsonRoundTrip, List.filter_cons, hb]
      rw [hf]
      by_cases hak : a = k
      · simp [objHas, objGet, hak, hb]
      · simp only [objHas, objGet, hak, if_false]
        exact iht

/-- The document of an export, read back and stored: for a profile as the store hands
them out, it is the profile that was exported. -/
theorem withoutExportMetadata_export (P : UserProfile) (a b : JsValue)
    (ha : a ≠ JsValue.undefined) (hb : b ≠ JsValue.undefined)
    (hvalues : ∀ p ∈ P, p.2 ≠ JsValue.undefined)
    (hid : objHas P "gamepadId" = false) (hvp : objHas P "visualizationProfile" = false) :
    withoutExportMetadata (jsonRoundTrip
      (objAssign P [("gamepadId", a), ("visualizationProfile", b)])) = P := by
  have h1 : objSet P "gamepadId" a = P ++ [("gamepadId", a)] := objSet_of_not_has P _ _ hid
  have h2 : objHas (P ++ [("gamepadId", a)]) "visualizationProfile" = false := by
    rw [← h1]
    cases hh : objHas (objSet P "gamepadId" a) "visualizationProfile" with
    | false => rfl
    | true =>
      rw [objHas_objSet] at hh
      rcases hh with hh | hh
      · exact absurd hh (by decide)
      · rw [hvp] at hh; cases hh
  have hform : objAssign P [("gamepadId", a), ("visualizationProfile", b)] =
      P ++ [("gamepadId", a)] ++ [("visualizationProfile", b)] := by
    show objSet (objSet P "gamepadId" a) "visualizationProfile" b = _
    rw [h1, objSet_of_not_has _ _ _ h2]
  rw [hform, jsonRoundTrip_of_defined]
  · simp only [withoutExportMetadata, objDelete_append, objDelete_of_not_has P _ hid,
      objDelete_of_not_has P _ hvp]
    simp [objDelete]
  · intro p hp
    simp only [List.mem_append, List.mem_singleton] at hp
    rcases hp with (hp | hp) | hp
    · exact hvalues p hp
    · rw [hp]; exact ha
    · rw [hp]; exact hb

/-- C10: for a registered device whose active user profile is an object `P` (with
distinct keys) that has a `profileName`: `exportUserProfile` returns and
downloads a document `doc` that holds the device id under `gamepadId` and the
name of the visualization profile under `visualizationProfile`; parsed back and
passed to `importUserProfile` for the same device and its visualization profile,
`doc` leaves the device, with the snapshot and the visualization profile it had,
with an active user profile `R`, which the store holds under the name of `P`.
In `R` neither `gamepadId` nor `visualizationProfile` is present; under every
other key `R` has the value of `P`, and the keys of `R` are the other keys of
`P` whose value JSON serialises.  When `P` is a profile as the store hands
them out (no member is `undefined`, neither metadata key is present), `R` is
`P` itself. -/
theorem export_then_import (lib : ProfileLibrary) (g : Gamepad) (s : State) (info : GamepadInfo)
    (P : UserProfile) (hreg : mapGet s.globalGamepads g.index = some info)
    (hP : info.userProfile = some P) (hkeys : (objKeys P).Nodup)
    (hname : objGet P "profileName" ≠ JsValue.undefined) :
    ∃ s1 doc t R,
      exportUserProfile lib g s = .ok () s1 ∧
      s1.effects = s.effects ++ [Effect.download
        (exportName g.id (lib.profileName info.visualizationProfile)
          (objAssign P [("gamepadId", .str g.id),
            ("visualizationProfile", .str (lib.profileName info.visualizationProfile))])
          ++ ".json") doc] ∧
      objGet doc "gamepadId" = .str g.id ∧
      objGet doc "visualizationProfile" = .str (lib.profileName info.visualizationProfile) ∧
      (importUserProfile lib g info.visualizationProfile (some doc) s1).state? = some t ∧
      mapGet t.globalGamepads g.index =
        some ⟨info.gamepad, info.visualizationProfile, some R⟩ ∧
      getUserProfile t.store (lib.profileName info.visualizationProfile)
        (objGet P "profileName") = some R ∧
      objHas R "gamepadId" = false ∧
      objHas R "visualizationProfile" = false ∧
      (∀ k, k ≠ "gamepadId" → k ≠ "visualizationProfile" → objGet R k = objGet P k) ∧
      (∀ k, objHas R k = true ↔
        (objHas P k = true ∧ objGet P k ≠ JsValue.undefined ∧
          k ≠ "gamepadId" ∧ k ≠ "visualizationProfile")) ∧
      ((∀ p ∈ P, p.2 ≠ JsValue.undefined) → objHas P "gamepadId" = false →
        objHas P "visualizationProfile" = false → R = P) := by
  have hX : (objKeys (objAssign P [("gamepadId", .str g.id),
      ("visualizationProfile", .str (lib.profileName info.visualizationProfile))])).Nodup :=
    nodup_objKeys_objAssign P _ hkeys
  obtain ⟨hQhas, hQid, hQvp, hQother⟩ := objAssign_export_metadata P (.str g.id)
    (.str (lib.profileName info.visualizationProfile))
  have hget : ∀ k, objGet (jsonRoundTrip (objAssign P [("gamepadId", .str g.id),
      ("visualizationProfile", .str (lib.profileName info.visualizationProfile))])) k =
      objGet (objAssign P [("gamepadId", .str g.id),
        ("visualizationProfile", .str (lib.profileName info.visualizationProfile))]) k :=
    fun k => objGet_jsonRoundTrip _ hX k
  have hother : ∀ k, k ≠ "gamepadId" → k ≠ "visualizationProfile" →
      objGet (jsonRoundTrip (objAssign P [("gamepadId", .str g.id),
        ("visualizationProfile", .str (lib.profileName info.visualizationProfile))])) k =
      objGet P k := by
    intro k h1 h2
    rw [hget, hQother k h1 h2]
  have hdocname : objGet (jsonRoundTrip (objAssign P [("gamepadId", .str g.id),
        ("visualizationProfile", .str (lib.profileName info.visualizationProfile))]))
      "profileName" = objGet P "profileName" := hother _ (by decide) (by decide)
  have hexp := exportUserProfile_of_profile lib g s info P hreg hP
  have hreg1 : mapGet (downloadObjectAsJson
      (objAssign P [("gamepadId", .str g.id),
        ("visualizationProfile", .str (lib.profileName info.visualizationProfile))])
      (exportName g.id (lib.profileName info.visualizationProfile)
        (objAssign P [("gamepadId", .str g.id),
          ("visualizationProfile", .str (lib.profileName info.visualizationProfile))]))
      (setUserProfile g.index (some (objAssign P [("gamepadId", .str g.id),
        ("visualizationProfile", .str (lib.profileName info.visualizationProfile))]))
        s)).globalGamepads g.index =
      some { info with userProfile := some (objAssign P [("gamepadId", .str g.id),
        ("visualizationProfile", .str (lib.profileName info.visualizationProfile))]) } :=
    mapGet_setUserProfile_self g.index _ s info hreg
  obtain ⟨t, ht1, ht2, ht3⟩ := importUserProfile_of_named lib g info.visualizationProfile
    (jsonRoundTrip (objAssign P [("gamepadId", .str g.id),
      ("visualizationProfile", .str (lib.profileName info.visualizationProfile))]))
    _ _ hreg1 rfl (by rw [hdocname]; exact hname)
  refine ⟨_, _, t, _, hexp, rfl, ?_, ?_, ht1, ht3, ?_, ?_, ?_, ?_, ?_, ?_⟩
  · rw [hget, hQid]
  · rw [hget, hQvp]
  · rw [ht2, ← hdocname]
    exact getUserProfile_addOrUpdateUserProfiles _ _ _ (by rw [hdocname]; exact hname)
  · cases hh : objHas (withoutExportMetadata (jsonRoundTrip (objAssign P
        [("gamepadId", .str g.id),
          ("visualizationProfile", .str (lib.profileName info.visualizationProfile))])))
        "gamepadId" with
    | false => rfl
    | true =>
      rw [objHas_withoutExportMetadata] at hh
      exact absurd rfl hh.2.1
  · cases hh : objHas (withoutExportMetadata (jsonRoundTrip (objAssign P
        [("gamepadId", .str g.id),
          ("visualizationProfile", .str (lib.profileName info.visualizationProfile))])))
        "visualizationProfile" with
    | false => rfl
    | true =>
      rw [objHas_withoutExportMetadata] at hh
      exact absurd rfl hh.2.2
  · intro k h1 h2
    rw [objGet_withoutExportMetadata _ _ h1 h2, hother k h1 h2]
  · intro k
    rw [objHas_withoutExportMetadata, objHas_jsonRoundTrip _ hX, hQhas]
    constructor
    · rintro ⟨⟨h1, h2⟩, h3, h4⟩
      rw [hQother k h3 h4] at h2
      rcases h1 with h1 | h1 | h1
      · exact ⟨h1, h2, h3, h4⟩
      · exact absurd h1 h3
      · exact absurd h1 h4
    · rintro ⟨h1, h2, h3, h4⟩
      rw [← hQother k h3 h4] at h2
      exact ⟨⟨Or.inl h1, h2⟩, h3, h4⟩
  · intro hvalues hid hvp
    exact withoutExportMetadata_export P _ _ (by simp) (by simp) hvalues hid hvp

theorem export_then_import_witness :
    mapGet connectedState.globalGamepads (plainGamepad 0 "Pad 0").index =
      some ⟨plainGamepad 0 "Pad 0", .UnknownController,
        some [("profileName", .str "Default"), ("color", .str "#ff0000")]⟩ ∧
    (objKeys [("profileName", JsValue.str "Default"), ("color", JsValue.str "#ff0000")]).Nodup ∧
    objGet [("profileName", JsValue.str "Default"), ("color", JsValue.str "#ff0000")]
      "profileName" ≠ JsValue.undefined ∧
    (match importUserProfile fallbackLibrary (plainGamepad 0 "Pad 0") .UnknownController
        (some [("profileName", .str "Default"), ("color", .str "#ff0000"),
          ("gamepadId", .str "Pad 0"), ("visualizationProfile", .str "Unknown Controller")])
        (downloadObjectAsJson
          [("profileName", .str "Default"), ("color", .str "#ff0000"),
            ("gamepadId", .str "Pad 0"), ("visualizationProfile", .str "Unknown Controller")]
          "Pad_0-Unknown_Controller-Default"
          (setUserProfile 0 (some [("profileName", .str "Default"), ("color", .str "#ff0000"),
            ("gamepadId", .str "Pad 0"), ("visualizationProfile", .str "Unknown Controller")])
            connectedState)) with
      | .ok _ t => mapGet t.globalGamepads 0
      | _ => none) = mapGet connectedState.globalGamepads 0 ∧
    ∃ s1 doc t R,
      exportUserProfile fallbackLibrary (plainGamepad 0 "Pad 0") connectedState = .ok () s1 ∧
      s1.effects = connectedState.effects ++ [Effect.download
        (exportName (plainGamepad 0 "Pad 0").id "Unknown Controller"
          (objAssign [("profileName", .str "Default"), ("color", .str "#ff0000")]
            [("gamepadId", .str (plainGamepad 0 "Pad 0").id),
              ("visualizationProfile", .str "Unknown Controller")])
          ++ ".json") doc] ∧
      objGet doc "gamepadId" = .str (plainGamepad 0 "Pad 0").id ∧
      objGet doc "visualizationProfile" = .str "Unknown Controller" ∧
      (importUserProfile fallbackLibrary (plainGamepad 0 "Pad 0") .UnknownController (some doc)
        s1).state? = some t ∧
      mapGet t.globalGamepads (plainGamepad 0 "Pad 0").index =
        some ⟨plainGamepad 0 "Pad 0", .UnknownController, some R⟩ ∧
      getUserProfile t.store "Unknown Controller"
        (objGet [("profileName", JsValue.str "Default"), ("color", JsValue.str "#ff0000")]
          "profileName") = some R ∧
      objHas R "gamepadId" = false ∧
      objHas R "visualizationProfile" = false ∧
      (∀ k, k ≠ "gamepadId" → k ≠ "visualizationProfile" → objGet R k =
        objGet [("profileName", JsValue.str "Default"), ("color", JsValue.str "#ff0000")] k) ∧
      (∀ k, objHas R k = true ↔
        (objHas [("profileName", JsValue.str "Default"), ("color", JsValue.str "#ff0000")] k
            = true ∧
          objGet [("profileName", JsValue.str "Default"), ("color", JsValue.str "#ff0000")] k
            ≠ JsValue.undefined ∧
          k ≠ "gamepadId" ∧ k ≠ "visualizationProfile")) ∧
      ((∀ p ∈ [("profileName", JsValue.str "Default"), ("color", JsValue.str "#ff0000")],
          p.2 ≠ JsValue.undefined) →
        objHas [("profileName", JsValue.str "Default"), ("color", JsValue.str "#ff0000")]
          "gamepadId" = false →
        objHas [("profileName", JsValue.str "Default"), ("color", JsValue.str "#ff0000")]
          "visualizationProfile" = false →
        R = [("profileName", JsValue.str "Default"), ("color", JsValue.str "#ff0000")]) :=
  ⟨by decide, by decide, by decide, by decide,
    export_then_import fallbackLibrary (plainGamepad 0 "Pad 0") connectedState
      ⟨plainGamepad 0 "Pad 0", .UnknownController,
        some [("profileName", .str "Default"), ("color", .str "#ff0000")]⟩
      [("profileName", .str "Default"), ("color", .str "#ff0000")]
      (by decide) rfl (by decide) (by decide)⟩

end ControllerDisplay
